import Mathlib

/-!
# The video-call component: signaling and call lifecycle

A shallow embedding of `src/app/components/VideoCall.js` (with
`initializePeerConnection` from `src/utils/webrtc.js`).

The component is a React function component.  Its code is embedded as
functions on an explicit `World`:

* the React state cells (`pc`, `isWebcamStarted`, `supabaseChannel`) are the
  record `World.state`; a `setX` call writes that record;
* every function declared in the component body closes over the values of
  one render.  That render is the explicit first argument `r : Render`.
  Click handlers are re-bound on every render, so they run with the current
  state (`World.state`).  The handlers registered by the mount effect are
  created once per `roomId` and keep the render in which the effect ran
  (`EffectEnv.render`);
* the two video refs are mutable and shared by all closures
  (`refsAttached`, `localSrcObject`, `remoteSrcObject`);
* a click reaches its handler only while the button is rendered and enabled;
  the conditions of the JSX are read off the current world;
* when the room id changes, the cleanup of the previous effect runs first and
  the effect body after it, in the closure of the new render;
* browser and realtime objects (peer connections, channels, tracks) live in
  the world and are named by their index;
* every call to a browser or realtime API, every `console.warn` and
  `console.error`, and every exception that leaves a callback uncaught is
  appended to `World.trace`.  `console.log` lines are not recorded.

A callback runs without interruption up to its return or its next `await`.
The functions `startCall`, `handleReceivedOffer` and `handleAnswer`, and with
them the actions of `step`, give a handler together with the settlement of
the promises it starts: nothing else is handled in between.  The source does
not enforce that: `startCall` and `handleReceivedOffer` are suspended at each
`await`, and `handleAnswer` does not wait for `setRemoteDescription`.
`startCallAwaiting`, `handleReceivedOfferAwaiting`, `handleAnswerCall` and
`settleAnswer` give the same handlers with the actions that are handled while
a promise is pending; with no such action they are the functions above
(`startCallAwaiting_nil`, `handleReceivedOfferAwaiting_nil`,
`handleAnswer_eq_settleAnswer`).  Session descriptions and ICE candidates are
opaque values taken as well formed.
-/

namespace VideoCall

/-! ## Data model -/

/-- The `type` member of a session description. -/
inductive SdpType where
  | offer
  | answer
  deriving DecidableEq, Repr

/-- A session description (`RTCSessionDescription`); the SDP text is opaque. -/
structure SessionDescription where
  type : SdpType
  sdp : Nat
  deriving DecidableEq, Repr

/-- An ICE candidate, opaque. -/
abbrev IceCandidate := Nat

/-- A media track, named by its `id`. -/
abbrev TrackId := Nat

/-- A media stream, given by `getTracks()`. -/
abbrev MediaStream := List TrackId

/-- The values of `RTCPeerConnection.connectionState`. -/
inductive ConnectionState where
  | new
  | connecting
  | connected
  | disconnected
  | failed
  | closed
  deriving DecidableEq, Repr

/-- The values of `RTCPeerConnection.signalingState` of an open connection. -/
inductive SignalingState where
  | stable
  | haveLocalOffer
  | haveRemoteOffer
  deriving DecidableEq, Repr

/-- An element of `pc.getSenders()`; `track` may be null. -/
structure RTCRtpSender where
  track : Option TrackId
  deriving DecidableEq, Repr

/-- The peer connection object, as far as the component observes it. -/
structure RTCPeerConnection where
  connectionState : ConnectionState
  signalingState : SignalingState
  pendingLocalDescription : Option SessionDescription
  currentLocalDescription : Option SessionDescription
  pendingRemoteDescription : Option SessionDescription
  currentRemoteDescription : Option SessionDescription
  senders : List RTCRtpSender
  remoteCandidates : List IceCandidate
  handlers : Bool
  deriving DecidableEq, Repr

/-- The states of a channel subscription. -/
inductive ChannelState where
  | pending
  | joined
  | errored
  | closed
  deriving DecidableEq, Repr

/-- A realtime channel object. -/
structure RealtimeChannel where
  topic : String
  state : ChannelState
  deriving DecidableEq, Repr

/-- A broadcast published with `channel.send`: the event name and its payload. -/
inductive SignalingMessage where
  | offer (offer : SessionDescription)
  | answer (answer : SessionDescription)
  | candidate (candidate : IceCandidate)
  | hangup
  deriving DecidableEq, Repr

/-- The `payload` of a received broadcast; a missing member is `none`. -/
structure Payload where
  offer : Option SessionDescription
  answer : Option SessionDescription
  candidate : Option IceCandidate
  deriving DecidableEq, Repr

/-- The values of the three React state cells in one render. -/
structure Render where
  pc : Option Nat
  isWebcamStarted : Bool
  supabaseChannel : Option Nat
  deriving DecidableEq, Repr

/-- The variables closed over by the handlers of one run of the mount effect:
the render in which the effect ran, and its locals `peerConnection` and
`channel`.  `hasCleanup` is false when the effect body threw before it
returned its cleanup function. -/
structure EffectEnv where
  render : Render
  peerConnection : Option Nat
  channel : Nat
  hasCleanup : Bool
  deriving DecidableEq, Repr

/-- An observable action of the component. -/
inductive Event where
  | getUserMedia (resolved : Bool)
  | addTrack (pc : Nat) (track : TrackId)
  | createOffer (pc : Nat)
  | createAnswer (pc : Nat)
  | setLocalDescription (pc : Nat) (description : SessionDescription)
  | setRemoteDescription (pc : Nat) (description : SessionDescription)
  | addIceCandidate (pc : Nat) (candidate : IceCandidate)
  | close (pc : Nat)
  | stop (track : TrackId)
  | send (channel : Nat) (message : SignalingMessage)
  | removeChannel (channel : Nat)
  | consoleWarn (text : String)
  | consoleError (text : String)
  | rejected (text : String)
  | uncaught (text : String)
  deriving DecidableEq, Repr

/-- Everything one participant's component instance can read or change. -/
structure World where
  pcs : List RTCPeerConnection
  channels : List RealtimeChannel
  live : List TrackId
  refsAttached : Bool
  localSrcObject : Option MediaStream
  remoteSrcObject : Option MediaStream
  state : Render
  effect : Option EffectEnv
  sdpCounter : Nat
  trace : List Event
  deriving DecidableEq, Repr

/-- The world of a component that has rendered once and run no effect yet:
`useState(null)`, `useState(false)`, `useState(null)`, both video elements
mounted with no stream. -/
def World.initial : World :=
  { pcs := [], channels := [], live := [], refsAttached := true,
    localSrcObject := none, remoteSrcObject := none,
    state := { pc := none, isWebcamStarted := false, supabaseChannel := none },
    effect := none, sdpCounter := 0, trace := [] }

/-- Append one event to the trace. -/
def World.log (w : World) (e : Event) : World :=
  { w with trace := w.trace ++ [e] }

/-- React `setPc`. -/
def World.setPc (w : World) (v : Option Nat) : World :=
  { w with state := { w.state with pc := v } }

/-- React `setIsWebcamStarted`. -/
def World.setIsWebcamStarted (w : World) (v : Bool) : World :=
  { w with state := { w.state with isWebcamStarted := v } }

/-- React `setSupabaseChannel`. -/
def World.setSupabaseChannel (w : World) (v : Option Nat) : World :=
  { w with state := { w.state with supabaseChannel := v } }

/-- The expression `localVideoRef.current?.srcObject`. -/
def World.localStream (w : World) : Option MediaStream :=
  if w.refsAttached then w.localSrcObject else none

/-- The expression `remoteVideoRef.current?.srcObject`. -/
def World.remoteStream (w : World) : Option MediaStream :=
  if w.refsAttached then w.remoteSrcObject else none

/-- The expression `channel.state` of channel object `c`. -/
def World.channelState (w : World) (c : Nat) : Option ChannelState :=
  (w.channels[c]?).map (fun ch => ch.state)

/-! ## The browser's peer connection (W3C WebRTC) -/

/-- A connection as `new RTCPeerConnection(config)` returns it. -/
def RTCPeerConnection.fresh : RTCPeerConnection :=
  { connectionState := .new, signalingState := .stable,
    pendingLocalDescription := none, currentLocalDescription := none,
    pendingRemoteDescription := none, currentRemoteDescription := none,
    senders := [], remoteCandidates := [], handlers := false }

/-- The getter `pc.localDescription`: the pending description if there is one,
else the current one. -/
def RTCPeerConnection.localDescription (p : RTCPeerConnection) : Option SessionDescription :=
  match p.pendingLocalDescription with
  | some d => some d
  | none => p.currentLocalDescription

/-- The getter `pc.remoteDescription`. -/
def RTCPeerConnection.remoteDescription (p : RTCPeerConnection) : Option SessionDescription :=
  match p.pendingRemoteDescription with
  | some d => some d
  | none => p.currentRemoteDescription

/-- The test `sender.track?.id === track.id` over `pc.getSenders()`. -/
def RTCPeerConnection.hasSender (p : RTCPeerConnection) (track : TrackId) : Bool :=
  p.senders.any (fun sender => sender.track = some track)

/-- Browser `pc.addTrack(track, stream)`: throws (`none`) on a closed connection
and when a sender for the track exists; otherwise adds a sender. -/
def RTCPeerConnection.addTrack (p : RTCPeerConnection) (track : TrackId) :
    Option RTCPeerConnection :=
  if p.connectionState = .closed then none
  else if p.hasSender track then none
  else some { p with senders := p.senders ++ [{ track := some track }] }

/-- Browser `pc.setLocalDescription(d)`: rejects (`none`) on a closed
connection and in a signaling state that does not admit `d`. -/
def RTCPeerConnection.setLocalDescription (p : RTCPeerConnection) (d : SessionDescription) :
    Option RTCPeerConnection :=
  if p.connectionState = .closed then none
  else match d.type, p.signalingState with
    | .offer, .stable => some { p with pendingLocalDescription := some d, signalingState := .haveLocalOffer }
    | .offer, .haveLocalOffer => some { p with pendingLocalDescription := some d, signalingState := .haveLocalOffer }
    | .answer, .haveRemoteOffer =>
      some { p with currentLocalDescription := some d, currentRemoteDescription := p.pendingRemoteDescription,
                    pendingLocalDescription := none, pendingRemoteDescription := none,
                    signalingState := .stable }
    | _, _ => none

/-- Browser `pc.setRemoteDescription(d)`: rejects (`none`) on a closed
connection and when an answer arrives with no local offer outstanding; a
remote offer that meets a local offer rolls the local offer back. -/
def RTCPeerConnection.setRemoteDescription (p : RTCPeerConnection) (d : SessionDescription) :
    Option RTCPeerConnection :=
  if p.connectionState = .closed then none
  else match d.type, p.signalingState with
    | .offer, .stable => some { p with pendingRemoteDescription := some d, signalingState := .haveRemoteOffer }
    | .offer, .haveRemoteOffer => some { p with pendingRemoteDescription := some d, signalingState := .haveRemoteOffer }
    | .offer, .haveLocalOffer =>
      some { p with pendingLocalDescription := none, pendingRemoteDescription := some d,
                    signalingState := .haveRemoteOffer }
    | .answer, .haveLocalOffer =>
      some { p with currentRemoteDescription := some d, currentLocalDescription := p.pendingLocalDescription,
                    pendingLocalDescription := none, pendingRemoteDescription := none,
                    signalingState := .stable }
    | .answer, _ => none

/-- Browser `pc.addIceCandidate(c)`: rejects (`none`) on a closed connection
and while `remoteDescription` is null; otherwise the candidate is applied. -/
def RTCPeerConnection.addIceCandidate (p : RTCPeerConnection) (c : IceCandidate) :
    Option RTCPeerConnection :=
  if p.connectionState = .closed then none
  else match p.remoteDescription with
    | none => none
    | some _ => some { p with remoteCandidates := p.remoteCandidates ++ [c] }

/-- Browser `pc.close()`. -/
def RTCPeerConnection.close (p : RTCPeerConnection) : RTCPeerConnection :=
  { p with connectionState := .closed }

/-! ## Calls into the browser, recorded in the trace

A call that can throw or reject returns `Except World _`: `.error w` is the
exception, with the world as it was at the throw. -/

/-- Run a method of connection `i` that changes the connection or throws. -/
def World.callPc (w : World) (e : Event) (i : Nat)
    (f : RTCPeerConnection → Option RTCPeerConnection) : Except World World :=
  let w1 := w.log e
  match w1.pcs[i]? with
  | none => .error w1
  | some p =>
    match f p with
    | none => .error w1
    | some q => .ok { w1 with pcs := w1.pcs.set i q }

/-- The call `pc.addTrack(track, stream)`. -/
def World.addTrack (w : World) (i : Nat) (track : TrackId) : Except World World :=
  w.callPc (.addTrack i track) i (fun p => p.addTrack track)

/-- The call `await pc.setLocalDescription(d)`. -/
def World.setLocalDescription (w : World) (i : Nat) (d : SessionDescription) : Except World World :=
  w.callPc (.setLocalDescription i d) i (fun p => p.setLocalDescription d)

/-- The call `await pc.setRemoteDescription(new RTCSessionDescription(d))`. -/
def World.setRemoteDescription (w : World) (i : Nat) (d : SessionDescription) : Except World World :=
  w.callPc (.setRemoteDescription i d) i (fun p => p.setRemoteDescription d)

/-- The call `pc.addIceCandidate(new RTCIceCandidate(c))`. -/
def World.addIceCandidate (w : World) (i : Nat) (c : IceCandidate) : Except World World :=
  w.callPc (.addIceCandidate i c) i (fun p => p.addIceCandidate c)

/-- The call `await pc.createOffer()`: rejects on a closed connection, else
resolves with a new offer. -/
def World.createOffer (w : World) (i : Nat) : Except World (SessionDescription × World) :=
  let w1 := w.log (.createOffer i)
  match w1.pcs[i]? with
  | none => .error w1
  | some p =>
    if p.connectionState = .closed then .error w1
    else .ok ({ type := .offer, sdp := w1.sdpCounter }, { w1 with sdpCounter := w1.sdpCounter + 1 })

/-- The call `await pc.createAnswer()`: rejects on a closed connection and when
no remote offer is pending, else resolves with a new answer. -/
def World.createAnswer (w : World) (i : Nat) : Except World (SessionDescription × World) :=
  let w1 := w.log (.createAnswer i)
  match w1.pcs[i]? with
  | none => .error w1
  | some p =>
    if p.connectionState = .closed then .error w1
    else if p.signalingState = .haveRemoteOffer then
      .ok ({ type := .answer, sdp := w1.sdpCounter }, { w1 with sdpCounter := w1.sdpCounter + 1 })
    else .error w1

/-- The call `track.stop()`. -/
def World.stopTrack (w : World) (track : TrackId) : World :=
  { w with live := w.live.filter (fun t => t ≠ track), trace := w.trace ++ [.stop track] }

/-- The loop `stream.getTracks().forEach((track) => track.stop())`. -/
def World.stopTracks (w : World) (stream : MediaStream) : World :=
  stream.foldl World.stopTrack w

/-- The call `supabase.removeChannel(channel)`: the channel is unsubscribed. -/
def World.removeChannel (w : World) (c : Nat) : World :=
  let w1 := w.log (.removeChannel c)
  match w1.channels[c]? with
  | none => w1
  | some ch => { w1 with channels := w1.channels.set c { ch with state := .closed } }

/-- The call `await navigator.mediaDevices.getUserMedia(...)`; `result` is what
the device gives: a stream of live tracks, or `none` for a rejection. -/
def World.getUserMedia (w : World) (result : Option MediaStream) : Except World (MediaStream × World) :=
  match result with
  | none => .error (w.log (.getUserMedia false))
  | some stream => .ok (stream, { w with live := w.live ++ stream, trace := w.trace ++ [.getUserMedia true] })

/-! ## The component (`VideoCall.js`) -/

/-- The function `initializePeerConnection` of `utils/webrtc.js`: the new
connection, or null after logging when the constructor throws; `available`
says whether the constructor succeeds. -/
def initializePeerConnection (available : Bool) (w : World) : Option Nat × World :=
  if available then (some w.pcs.length, { w with pcs := w.pcs ++ [RTCPeerConnection.fresh] })
  else (none, w.log (.consoleError "Error creating RTCPeerConnection:"))

/-- The guard shared by `startCall` and `handleReceivedOffer`:
`!pc || !isWebcamStarted || !supabaseChannel || supabaseChannel.state !== 'joined'`,
with the state cells read from the closure's render `r`. -/
def notReady (r : Render) (pc : Option Nat) (w : World) : Bool :=
  pc.isNone || !r.isWebcamStarted ||
    match r.supabaseChannel with
    | none => true
    | some c => w.channelState c != some .joined

/-- The loop that attaches the tracks of a stream, the same in `startWebcam`,
`startCall` and `handleReceivedOffer`:
`getTracks().forEach(track => { if (!pc.getSenders().find(sender => sender.track?.id === track.id)) pc.addTrack(track, stream) })`. -/
def addMissingTracks (pc : Nat) : MediaStream → World → Except World World
  | [], w => .ok w
  | track :: rest, w =>
    if ((w.pcs[pc]?).map (fun p => p.hasSender track)) = some true then addMissingTracks pc rest w
    else
      match w.addTrack pc track with
      | .error w1 => .error w1
      | .ok w1 => addMissingTracks pc rest w1

/-- The block that `startCall` and `handleReceivedOffer` run before negotiating:
`if (localVideoRef.current?.srcObject) { localVideoRef.current.srcObject.getTracks().forEach(...) }`
with the attach loop as its body. -/
def attachLocalTracks (pc : Nat) (w : World) : Except World World :=
  match w.localStream with
  | some stream => addMissingTracks pc stream w
  | none => .ok w

/-- The `try` block of `startWebcam`; `result` is the outcome of `getUserMedia`. -/
def startWebcamTry (pc : Nat) (result : Option MediaStream) (w : World) : Except World World := do
  let (stream, w1) ← w.getUserMedia result
  let w2 := if w1.refsAttached then { w1 with localSrcObject := some stream } else w1
  let w3 ← addMissingTracks pc stream w2
  pure (w3.setIsWebcamStarted true)

/-- The function `startWebcam`; `result` is the outcome of `getUserMedia`. -/
def startWebcam (r : Render) (result : Option MediaStream) (w : World) : World :=
  match r.pc with
  | none => w.log (.consoleError "PeerConnection not initialized. Cannot start webcam.")
  | some pc =>
    match startWebcamTry pc result w with
    | .ok w1 => w1
    | .error w1 => w1.log (.consoleError "Error starting webcam:")

/-- The `try` block of `startCall`. -/
def startCallTry (pc supabaseChannel : Nat) (w : World) : Except World World := do
  let w1 ← attachLocalTracks pc w
  let (offerDescription, w2) ← w1.createOffer pc
  let w3 ← w2.setLocalDescription pc offerDescription
  match (w3.pcs[pc]?).bind (fun p => p.localDescription) with
  | none => throw w3
  | some d => pure (w3.log (.send supabaseChannel (.offer d)))

/-- The function `startCall`, each awaited promise settling before anything
else is handled; `startCallAwaiting` has the actions handled in between. -/
def startCall (r : Render) (w : World) : World :=
  if notReady r r.pc w then w.log (.consoleWarn "Cannot start call: PC, webcam, or channel not ready.")
  else
    match r.pc, r.supabaseChannel with
    | some pc, some supabaseChannel =>
      match startCallTry pc supabaseChannel w with
      | .ok w1 => w1
      | .error w1 => w1.log (.consoleError "Error creating or sending offer:")
    | _, _ => w

/-- The `try` block of `handleReceivedOffer`. -/
def handleReceivedOfferTry (pc supabaseChannel : Nat) (offer : SessionDescription) (w : World) :
    Except World World := do
  let w1 ← attachLocalTracks pc w
  let w2 ← w1.setRemoteDescription pc offer
  let (answerDescription, w3) ← w2.createAnswer pc
  let w4 ← w3.setLocalDescription pc answerDescription
  match (w4.pcs[pc]?).bind (fun p => p.localDescription) with
  | none => throw w4
  | some d => pure (w4.log (.send supabaseChannel (.answer d)))

/-- The function `handleReceivedOffer`, each awaited promise settling before
anything else is handled; `handleReceivedOfferAwaiting` has the actions
handled in between. -/
def handleReceivedOffer (r : Render) (offer : SessionDescription) (currentPc : Option Nat)
    (w : World) : World :=
  if notReady r currentPc w then
    w.log (.consoleWarn "Cannot handle received offer: PC, webcam, or channel not ready.")
  else
    match currentPc, r.supabaseChannel with
    | some pc, some supabaseChannel =>
      match handleReceivedOfferTry pc supabaseChannel offer w with
      | .ok w1 => w1
      | .error w1 => w1.log (.consoleError "Error handling received offer or sending answer:")
    | _, _ => w

/-- The third block of `cleanupCall`, for a non-null `peerConnectionToClose`:
the four handlers are set to null, and `close()` is called unless
`connectionState` is already `closed`. -/
def closePeerConnection (i : Nat) (w : World) : World :=
  match w.pcs[i]? with
  | none => w
  | some p =>
    let p1 := { p with handlers := false }
    if p1.connectionState ≠ .closed then
      { w with pcs := w.pcs.set i p1.close, trace := w.trace ++ [.close i] }
    else { w with pcs := w.pcs.set i p1 }

/-- The first block of `cleanupCall`:
`if (localVideoRef.current?.srcObject) { ...getTracks().forEach((track) => track.stop()); localVideoRef.current.srcObject = null }`. -/
def stopLocalStream (w : World) : World :=
  match w.localStream with
  | some stream => { w.stopTracks stream with localSrcObject := none }
  | none => w

/-- The second block of `cleanupCall`, the same for `remoteVideoRef`. -/
def stopRemoteStream (w : World) : World :=
  match w.remoteStream with
  | some stream => { w.stopTracks stream with remoteSrcObject := none }
  | none => w

/-- The function `cleanupCall`. -/
def cleanupCall (r : Render) (channelToUnsubscribe : Option Nat)
    (peerConnectionToClose : Option Nat) (w : World) : World :=
  let w1 := stopLocalStream w
  let w2 := stopRemoteStream w1
  let w3 := match peerConnectionToClose with
    | some i => closePeerConnection i w2
    | none => w2
  let w4 := if r.pc = peerConnectionToClose then w3.setPc none else w3
  let w5 := match channelToUnsubscribe with
    | some c => w4.removeChannel c
    | none => w4
  let w6 := if r.supabaseChannel = channelToUnsubscribe then w5.setSupabaseChannel none else w5
  w6.setIsWebcamStarted false

/-- The function `hangupCall`. -/
def hangupCall (r : Render) (w : World) : World :=
  let w1 := match r.supabaseChannel with
    | some c => if w.channelState c = some .joined then w.log (.send c .hangup) else w
    | none => w
  cleanupCall r r.supabaseChannel r.pc w1

/-- The handler `handleOffer` of the mount effect. -/
def handleOffer (env : EffectEnv) (payload : Payload) (w : World) : World :=
  match env.peerConnection, payload.offer with
  | some _, some offer => handleReceivedOffer env.render offer env.peerConnection w
  | _, _ => w

/-- The handler `handleAnswer` of the mount effect, together with the
settlement of the promise of `setRemoteDescription` and its `.catch`
callback.  The handler up to its return is `handleAnswerCall`. -/
def handleAnswer (env : EffectEnv) (payload : Payload) (w : World) : World :=
  match env.peerConnection, payload.answer with
  | some pc, some answer =>
    if ((w.pcs[pc]?).bind (fun p => p.currentRemoteDescription)).isNone then
      match w.setRemoteDescription pc answer with
      | .ok w1 => w1
      | .error w1 => w1.log (.consoleError "Error setting remote description (answer):")
    else w
  | _, _ => w

/-- The handler `handleCandidate` of the mount effect.  A rejection of
`addIceCandidate` reaches the `.catch` callback (`rejected`), which logs it
unless its message is one of the two it treats as benign. -/
def handleCandidate (env : EffectEnv) (payload : Payload) (w : World) : World :=
  match env.peerConnection, payload.candidate with
  | some pc, some candidate =>
    match w.addIceCandidate pc candidate with
    | .ok w1 => w1
    | .error w1 => w1.log (.rejected "addIceCandidate")
  | _, _ => w

/-- The handler `handleHangup` of the mount effect. -/
def handleHangup (env : EffectEnv) (w : World) : World :=
  cleanupCall env.render (some env.channel) env.peerConnection w

/-- The string that `connectionState` holds. -/
def ConnectionState.text : ConnectionState → String
  | .new => "new"
  | .connecting => "connecting"
  | .connected => "connected"
  | .disconnected => "disconnected"
  | .failed => "failed"
  | .closed => "closed"

/-- The callback `peerConnection.onicecandidate`; `candidate` is
`event.candidate`, null at the end of gathering. -/
def onicecandidate (env : EffectEnv) (candidate : Option IceCandidate) (w : World) : World :=
  match candidate with
  | none => w
  | some c =>
    if w.channelState env.channel = some .joined then w.log (.send env.channel (.candidate c))
    else w

/-- The callback `peerConnection.onconnectionstatechange`: for `failed`,
`disconnected` and `closed` it warns; the call of `cleanupCall` in it is
commented out in the source. -/
def onconnectionstatechange (env : EffectEnv) (w : World) : World :=
  match env.peerConnection.bind (fun i => w.pcs[i]?) with
  | none => w
  | some p =>
    if p.connectionState = .failed ∨ p.connectionState = .disconnected ∨ p.connectionState = .closed then
      w.log (.consoleWarn ("PeerConnection state is " ++ p.connectionState.text ++ ". Cleaning up."))
    else w

/-- The callback `peerConnection.ontrack`. -/
def ontrack (stream : MediaStream) (w : World) : World :=
  if w.refsAttached then { w with remoteSrcObject := some stream } else w

/-- The body of the mount effect `useEffect(() => {...}, [roomId])`, run in
render `r`.  With a null `peerConnection` the assignment
`peerConnection.ontrack = ...` throws after the channel has been set up, so no
cleanup function is returned. -/
def mountEffect (r : Render) (roomId : String) (available : Bool) (w : World) : World :=
  if roomId = "" then w
  else
    let peerConnection := (initializePeerConnection available w).1
    let w1 := (initializePeerConnection available w).2
    let w2 := w1.setPc peerConnection
    let channel := w2.channels.length
    let w3 : World := { w2 with channels := w2.channels ++ [{ topic := "room-" ++ roomId, state := .pending }] }
    match peerConnection with
    | none =>
      { w3 with effect := some { render := r, peerConnection := none, channel := channel, hasCleanup := false },
                trace := w3.trace ++ [.uncaught "TypeError: Cannot set properties of null (setting ontrack)"] }
    | some i =>
      { w3 with pcs := w3.pcs.modify (fun p => { p with handlers := true }) i,
                effect := some { render := r, peerConnection := some i, channel := channel, hasCleanup := true } }

/-- The statuses passed to the `subscribe` callback. -/
inductive SubscribeStatus where
  | SUBSCRIBED
  | CHANNEL_ERROR
  | TIMED_OUT
  | CLOSED
  deriving DecidableEq, Repr

/-- The `subscribe` callback of the mount effect, called by the realtime client
after it has moved the channel to the matching state. -/
def subscribeCallback (env : EffectEnv) (status : SubscribeStatus) (w : World) : World :=
  let next : ChannelState := match status with
    | .SUBSCRIBED => .joined
    | .CHANNEL_ERROR => .errored
    | .TIMED_OUT => .errored
    | .CLOSED => .closed
  let w1 := { w with channels := w.channels.modify (fun ch => { ch with state := next }) env.channel }
  match status with
  | .SUBSCRIBED => w1.setSupabaseChannel (some env.channel)
  | .CHANNEL_ERROR => w1.log (.consoleError "Error subscribing to channel")
  | .TIMED_OUT => w1.log (.consoleWarn "Subscription timed out for channel")
  | .CLOSED => w1

/-! ## Driving the component -/

/-- What can happen to a mounted component: React lifecycle, user clicks,
broadcasts delivered by the channel, callbacks of the peer connection. -/
inductive Action where
  | mount (roomId : String) (available : Bool)
  | unmount
  | subscribeStatus (status : SubscribeStatus)
  | clickStartWebcam (result : Option MediaStream)
  | clickStartCall
  | clickHangup
  | offer (payload : Payload)
  | answer (payload : Payload)
  | candidate (payload : Payload)
  | hangup
  | track (stream : MediaStream)
  | changeRoom (roomId : String) (available : Bool)
  | icecandidate (candidate : Option IceCandidate)
  | connectionStateChange (next : ConnectionState)
  deriving DecidableEq, Repr

/-- Run a handler of the mount effect on a broadcast; the channel delivers
broadcasts only while it is joined. -/
def World.deliver (w : World) (handler : EffectEnv → World → World) : World :=
  match w.effect with
  | none => w
  | some env => if w.channelState env.channel = some .joined then handler env w else w

/-- Unmounting the view.  React detaches the refs of the removed video
elements (`ref.current = null`) while it commits the removal, and runs the
cleanup function of a `useEffect` afterwards. -/
def unmount (w : World) : World :=
  let w1 := { w with refsAttached := false }
  match w1.effect with
  | none => w1
  | some env =>
    if env.hasCleanup then
      { cleanupCall env.render (some env.channel) env.peerConnection w1 with effect := none }
    else { w1 with effect := none }

/-- The room id of a mounted view changes.  React runs the cleanup function of
the previous effect, with the video refs still attached, and then the effect
body in the closure of the render that brought the new room id, whose state
values are those from before the cleanup. -/
def changeRoom (roomId : String) (available : Bool) (w : World) : World :=
  let w1 := match w.effect with
    | none => w
    | some env =>
      if env.hasCleanup then cleanupCall env.render (some env.channel) env.peerConnection w else w
  mountEffect w.state roomId available { w1 with effect := none }

/-- The Start Webcam button is rendered while `!isWebcamStarted`, with
`disabled={!pc}`. -/
def World.startWebcamButton (w : World) : Bool :=
  !w.state.isWebcamStarted && w.state.pc.isSome

/-- The Start Call button is rendered while `isWebcamStarted`, with
`disabled={!pc || !supabaseChannel || supabaseChannel.state !== 'joined'}`. -/
def World.startCallButton (w : World) : Bool :=
  w.state.isWebcamStarted && !(notReady w.state w.state.pc w)

/-- The Hangup button has `disabled={!isWebcamStarted && !remoteVideoRef.current?.srcObject}`. -/
def World.hangupButton (w : World) : Bool :=
  !(!w.state.isWebcamStarted && w.remoteStream.isNone)

/-- The peer connection of the running effect, if its callbacks are still set. -/
def World.listeningPc (w : World) : Option (EffectEnv × Nat × RTCPeerConnection) :=
  match w.effect with
  | none => none
  | some env =>
    match env.peerConnection with
    | none => none
    | some i =>
      match w.pcs[i]? with
      | none => none
      | some p => if p.handlers then some (env, i, p) else none

/-- One action.  The mount effect and the click handlers run with the current
render; the channel and connection callbacks run in the closure of the effect.
A click reaches its handler only while the button is rendered and enabled.
A `track` action is the browser handing over the live tracks of the remote
stream and firing `ontrack`; a `connectionStateChange` is the browser moving
an open connection to another state and firing `onconnectionstatechange`. -/
def step (w : World) : Action → World
  | .mount roomId available => mountEffect w.state roomId available w
  | .unmount => unmount w
  | .changeRoom roomId available => changeRoom roomId available w
  | .subscribeStatus status =>
    match w.effect with
    | none => w
    | some env => subscribeCallback env status w
  | .clickStartWebcam result => if w.startWebcamButton then startWebcam w.state result w else w
  | .clickStartCall => if w.startCallButton then startCall w.state w else w
  | .clickHangup => if w.hangupButton then hangupCall w.state w else w
  | .icecandidate candidate =>
    match w.listeningPc with
    | none => w
    | some (env, _, _) => onicecandidate env candidate w
  | .connectionStateChange next =>
    match w.listeningPc with
    | none => w
    | some (env, i, p) =>
      if p.connectionState = .closed then w
      else onconnectionstatechange env { w with pcs := w.pcs.set i { p with connectionState := next } }
  | .offer payload => w.deliver (fun env => handleOffer env payload)
  | .answer payload => w.deliver (fun env => handleAnswer env payload)
  | .candidate payload => w.deliver (fun env => handleCandidate env payload)
  | .hangup => w.deliver handleHangup
  | .track stream =>
    match w.effect with
    | none => w
    | some env =>
      if ((env.peerConnection.bind (fun i => w.pcs[i]?)).map (fun p => p.handlers)) = some true
      then ontrack stream { w with live := w.live ++ stream } else w

/-- A sequence of actions, from the left. -/
def run (w : World) (actions : List Action) : World :=
  actions.foldl step w

/-- The messages published so far, in order. -/
def World.published (w : World) : List (Nat × SignalingMessage) :=
  w.trace.filterMap (fun e => match e with
    | .send c m => some (c, m)
    | _ => none)

/-- The calls that `handleCandidate` makes for a list of candidate broadcasts
on a connection that rejects each of them. -/
def rejectedCandidateCalls (pc : Nat) : List Payload → List Event
  | [] => []
  | payload :: rest =>
    match payload.candidate with
    | some c => .addIceCandidate pc c :: .rejected "addIceCandidate" :: rejectedCandidateCalls pc rest
    | none => rejectedCandidateCalls pc rest

/-- The tracks of the streams that the two video elements hold, as the
component can reach them through its refs. -/
def World.streamTracks (w : World) : List TrackId :=
  w.localStream.getD [] ++ w.remoteStream.getD []

/-- The number of `track.stop()` calls made so far on a track. -/
def World.stopCalls (w : World) (track : TrackId) : Nat :=
  w.trace.count (.stop track)

/-- The number of `close()` calls made so far on a connection. -/
def World.closeCalls (w : World) (pc : Nat) : Nat :=
  w.trace.count (.close pc)

/-- The number of senders of connection `pc` that carry the given track. -/
def World.senderCount (w : World) (pc : Nat) (track : TrackId) : Nat :=
  match w.pcs[pc]? with
  | some p => p.senders.count { track := some track }
  | none => 0

/-- One participant mounted in room r1, subscribed, camera started with tracks 1 and 2. -/
def scenarioReady : World :=
  run World.initial [.mount "r1" true, .subscribeStatus .SUBSCRIBED, .clickStartWebcam (some [1, 2])]

/-- One participant mounted in room r1 and subscribed, camera not started. -/
def scenarioJoined : World :=
  run World.initial [.mount "r1" true, .subscribeStatus .SUBSCRIBED]

/-- The connection list after the close step of `cleanupCall`. -/
def closedPcs (pc : Option Nat) (pcs : List RTCPeerConnection) : List RTCPeerConnection :=
  match pc with
  | none => pcs
  | some i =>
    match pcs[i]? with
    | none => pcs
    | some p => pcs.set i { p with handlers := false, connectionState := .closed }

/-- The `close()` call of `cleanupCall`, if it makes one. -/
def closeEvents (pc : Option Nat) (pcs : List RTCPeerConnection) : List Event :=
  match pc with
  | none => []
  | some i =>
    match pcs[i]? with
    | none => []
    | some p => if p.connectionState = .closed then [] else [.close i]

/-- The channel list after the unsubscribe step of `cleanupCall`. -/
def closedChannels (channel : Option Nat) (channels : List RealtimeChannel) : List RealtimeChannel :=
  match channel with
  | none => channels
  | some c =>
    match channels[c]? with
    | none => channels
    | some ch => channels.set c { ch with state := .closed }

/-- The `removeChannel` call of `cleanupCall`, if it makes one. -/
def removeEvents (channel : Option Nat) : List Event :=
  match channel with
  | none => []
  | some c => [.removeChannel c]

/-- The senders of a connection after the attach loop has run over a stream:
a track that has no sender yet gets one, in stream order. -/
def attachedSenders (senders : List RTCRtpSender) : MediaStream → List RTCRtpSender
  | [] => senders
  | track :: rest =>
    if senders.any (fun sender => sender.track = some track) then attachedSenders senders rest
    else attachedSenders (senders ++ [{ track := some track }]) rest

/-- The `addTrack` calls that the attach loop makes over a stream. -/
def attachCalls (pc : Nat) (senders : List RTCRtpSender) : MediaStream → List Event
  | [] => []
  | track :: rest =>
    if senders.any (fun sender => sender.track = some track) then attachCalls pc senders rest
    else .addTrack pc track :: attachCalls pc (senders ++ [{ track := some track }]) rest

/-- An event that neither publishes a message nor tears anything down. -/
def Event.isQuiet : Event → Bool
  | .send _ _ => false
  | .stop _ => false
  | .close _ => false
  | .removeChannel _ => false
  | _ => true

/-- The world `after` arises from `before` by calls that may change the
negotiation state and the senders of connections and nothing else: channels,
live tracks, refs, React state and the connection states are as before, and
the events added to the trace are quiet. -/
structure Quiet (before after : World) : Prop where
  channels : after.channels = before.channels
  live : after.live = before.live
  refsAttached : after.refsAttached = before.refsAttached
  localSrcObject : after.localSrcObject = before.localSrcObject
  remoteSrcObject : after.remoteSrcObject = before.remoteSrcObject
  state : after.state = before.state
  effect : after.effect = before.effect
  connectionStates :
    after.pcs.map (fun p => p.connectionState) = before.pcs.map (fun p => p.connectionState)
  trace : ∃ events, after.trace = before.trace ++ events ∧ ∀ e ∈ events, e.isQuiet = true

/-- The world after a call, whether it returned or threw. -/
def outcome : Except World World → World
  | .ok w => w
  | .error w => w

/-- The world after a call that returns a value, whether it returned or threw. -/
def outcomeOf {α : Type} : Except World (α × World) → World
  | .ok (_, w) => w
  | .error w => w

/-- The number of peer connections that are not closed. -/
def World.openConnections (w : World) : Nat :=
  (w.pcs.filter (fun p => p.connectionState ≠ .closed)).length

/-- Whether an action is the mounting of the view. -/
def Action.isMount : Action → Bool
  | .mount _ _ => true
  | _ => false

/-- Every connection that is not closed is the newest one and belongs to the
running effect, which has a cleanup function. -/
def World.onlyEffectOpen (w : World) : Prop :=
  ∀ (i : Nat) (p : RTCPeerConnection), w.pcs[i]? = some p → p.connectionState ≠ .closed →
    i + 1 = w.pcs.length ∧
    ∃ env, w.effect = some env ∧ env.peerConnection = some i ∧ env.hasCleanup = true

/-- The closure of the mount effect of the participant in the scenarios. -/
def scenarioEnv : EffectEnv :=
  { render := World.initial.state, peerConnection := some 0, channel := 0, hasCleanup := true }

/-- The joined participant of room r1 with the connection in a given state. -/
def scenarioInState (state : ConnectionState) : World :=
  { scenarioJoined with pcs := [{ RTCPeerConnection.fresh with connectionState := state }] }

/-- One participant after a hangup broadcast from the peer was handled. -/
def scenarioRemoteHangup : World :=
  run scenarioReady [.hangup]

/-- No connection was created or reopened between `before` and `after`, and
the running effect is the same. -/
def NoneOpened (before after : World) : Prop :=
  after.pcs.length = before.pcs.length ∧ after.effect = before.effect ∧
  ∀ (i : Nat) (q : RTCPeerConnection), after.pcs[i]? = some q → q.connectionState ≠ .closed →
    ∃ p : RTCPeerConnection, before.pcs[i]? = some p ∧ p.connectionState ≠ .closed

/-- Every peer connection is closed. -/
def World.allClosed (w : World) : Prop :=
  ∀ (i : Nat) (p : RTCPeerConnection), w.pcs[i]? = some p → p.connectionState = .closed

/-- The world right after `getUserMedia` resolved with a stream and
`startWebcam` stored it in the local video element. -/
def World.captured (w : World) (stream : MediaStream) : World :=
  { w with live := w.live ++ stream,
           localSrcObject := if w.refsAttached then some stream else w.localSrcObject,
           trace := w.trace ++ [.getUserMedia true] }

/-! ## Handlers with their promises pending

The functions `startCall`, `handleReceivedOffer` and `handleAnswer` above run
a handler together with the settlement of every promise it starts.  In the
source `startCall` and `handleReceivedOffer` are suspended at each `await`,
and `handleAnswer` returns without waiting for `setRemoteDescription`; other
callbacks run in between.  The definitions below split the calls into the
call and its settlement and put the actions handled in between as
arguments. -/

/-- The settlement of a call of a method of connection `i`: the method takes
effect on the connection as it is by then, or the promise rejects. -/
def World.settlePc (w : World) (i : Nat)
    (f : RTCPeerConnection → Option RTCPeerConnection) : Except World World :=
  match w.pcs[i]? with
  | none => .error w
  | some p =>
    match f p with
    | none => .error w
    | some q => .ok { w with pcs := w.pcs.set i q }

/-- The settlement of `pc.createOffer()`. -/
def World.settleCreateOffer (w : World) (i : Nat) : Except World (SessionDescription × World) :=
  match w.pcs[i]? with
  | none => .error w
  | some p =>
    if p.connectionState = .closed then .error w
    else .ok ({ type := .offer, sdp := w.sdpCounter }, { w with sdpCounter := w.sdpCounter + 1 })

/-- The settlement of `pc.createAnswer()`. -/
def World.settleCreateAnswer (w : World) (i : Nat) : Except World (SessionDescription × World) :=
  match w.pcs[i]? with
  | none => .error w
  | some p =>
    if p.connectionState = .closed then .error w
    else if p.signalingState = .haveRemoteOffer then
      .ok ({ type := .answer, sdp := w.sdpCounter }, { w with sdpCounter := w.sdpCounter + 1 })
    else .error w

/-- The handler `handleAnswer` up to its return: the guard, and the call of
`setRemoteDescription` when the guard lets the answer pass.  The promise is
not awaited; the second component is the call it leaves pending. -/
def handleAnswerCall (env : EffectEnv) (payload : Payload) (w : World) :
    World × Option (Nat × SessionDescription) :=
  match env.peerConnection, payload.answer with
  | some pc, some answer =>
    if ((w.pcs[pc]?).bind (fun p => p.currentRemoteDescription)).isNone then
      (w.log (.setRemoteDescription pc answer), some (pc, answer))
    else (w, none)
  | _, _ => (w, none)

/-- The settlement of a call that `handleAnswer` left pending: the browser
applies the answer to the connection as it is by then, or rejects, and the
`.catch` callback logs the rejection. -/
def settleAnswer (pending : Option (Nat × SessionDescription)) (w : World) : World :=
  match pending with
  | none => w
  | some (pc, answer) =>
    match w.settlePc pc (fun p => p.setRemoteDescription answer) with
    | .ok w1 => w1
    | .error w1 => w1.log (.consoleError "Error setting remote description (answer):")

/-- Two answer broadcasts handled one after the other while the promise of
the first call is pending; the browser then settles the two calls in the
order in which they were made. -/
def answersBeforeSettlement (env : EffectEnv) (first second : Payload) (w : World) : World :=
  settleAnswer (handleAnswerCall env second (handleAnswerCall env first w).1).2
    (settleAnswer (handleAnswerCall env first w).2
      (handleAnswerCall env second (handleAnswerCall env first w).1).1)

/-- The last step of `startCall`, run when `setLocalDescription` has
resolved: `await supabaseChannel.send(...)` with `pc.localDescription`.  The
state of the channel is not read. -/
def startCallSend (pc supabaseChannel : Nat) (w : World) : Except World World :=
  match (w.pcs[pc]?).bind (fun p => p.localDescription) with
  | none => .error w
  | some d => .ok (w.log (.send supabaseChannel (.offer d)))

/-- The `try` block of `startCall` with the actions handled while it is
suspended: `during1` while `createOffer` is pending, `during2` while
`setLocalDescription` is pending. -/
def startCallAwaitingTry (pc supabaseChannel : Nat) (during1 during2 : List Action)
    (w : World) : Except World World := do
  let w1 ← attachLocalTracks pc w
  let (offerDescription, w2) ← (run (w1.log (.createOffer pc)) during1).settleCreateOffer pc
  let w3 ← (run (w2.log (.setLocalDescription pc offerDescription)) during2).settlePc pc
    (fun p => p.setLocalDescription offerDescription)
  startCallSend pc supabaseChannel w3

/-- The function `startCall` with the actions handled while it is suspended.
The guard is evaluated once, on entry. -/
def startCallAwaiting (r : Render) (during1 during2 : List Action) (w : World) : World :=
  if notReady r r.pc w then w.log (.consoleWarn "Cannot start call: PC, webcam, or channel not ready.")
  else
    match r.pc, r.supabaseChannel with
    | some pc, some supabaseChannel =>
      match startCallAwaitingTry pc supabaseChannel during1 during2 w with
      | .ok w1 => w1
      | .error w1 => w1.log (.consoleError "Error creating or sending offer:")
    | _, _ => w

/-- The last step of `handleReceivedOffer`, run when `setLocalDescription`
has resolved: `await supabaseChannel.send(...)` with
`currentPc.localDescription`.  The state of the channel is not read. -/
def handleReceivedOfferSend (pc supabaseChannel : Nat) (w : World) : Except World World :=
  match (w.pcs[pc]?).bind (fun p => p.localDescription) with
  | none => .error w
  | some d => .ok (w.log (.send supabaseChannel (.answer d)))

/-- The `try` block of `handleReceivedOffer` with the actions handled while
it is suspended: `during1` while `setRemoteDescription` is pending, `during2`
while `createAnswer` is pending, `during3` while `setLocalDescription` is
pending. -/
def handleReceivedOfferAwaitingTry (pc supabaseChannel : Nat) (offer : SessionDescription)
    (during1 during2 during3 : List Action) (w : World) : Except World World := do
  let w1 ← attachLocalTracks pc w
  let w2 ← (run (w1.log (.setRemoteDescription pc offer)) during1).settlePc pc
    (fun p => p.setRemoteDescription offer)
  let (answerDescription, w3) ← (run (w2.log (.createAnswer pc)) during2).settleCreateAnswer pc
  let w4 ← (run (w3.log (.setLocalDescription pc answerDescription)) during3).settlePc pc
    (fun p => p.setLocalDescription answerDescription)
  handleReceivedOfferSend pc supabaseChannel w4

/-- The function `handleReceivedOffer` with the actions handled while it is
suspended.  The guard is evaluated once, on entry. -/
def handleReceivedOfferAwaiting (r : Render) (offer : SessionDescription)
    (currentPc : Option Nat) (during1 during2 during3 : List Action) (w : World) : World :=
  if notReady r currentPc w then
    w.log (.consoleWarn "Cannot handle received offer: PC, webcam, or channel not ready.")
  else
    match currentPc, r.supabaseChannel with
    | some pc, some supabaseChannel =>
      match handleReceivedOfferAwaitingTry pc supabaseChannel offer during1 during2 during3 w with
      | .ok w1 => w1
      | .error w1 => w1.log (.consoleError "Error handling received offer or sending answer:")
    | _, _ => w

/-- The participant of `scenarioReady` once React has detached the refs of
the two video elements, as the unmount cleanup finds it. -/
def scenarioDetached : World :=
  { scenarioReady with refsAttached := false }

/-- The offerer of room r1 after `startCall`: a local offer is outstanding. -/
def scenarioOffered : World :=
  step scenarioReady .clickStartCall

/-- An answer broadcast with the given SDP. -/
def answerPayload (sdp : Nat) : Payload :=
  { offer := none, answer := some { type := .answer, sdp := sdp }, candidate := none }

end VideoCall

/-!
# Route handlers, middleware and calendar

A shallow embedding of the API route handlers under `src/app/api`
(`sessions/route.js`, `sessions/[sessionId]/route.js`, `assessments/route.js`,
`assessments/[assessmentId]/route.js`, `teachers/route.js`), of
`src/middleware.js` and of the schedule list of
`src/app/components/Calendar.jsx` with its join button.

A handler is a function of the `Platform` it runs on and of its request.  The
platform holds what the Supabase client of the request answers: the user of
`auth.getUser()`, the three tables, and for every query whether the backend
rejects it (`Platform.failure`).  A rejected query changes no table.  A
handler returns its response, the tables after it, and the list of queries it
issued against the tables, in order.

* `id` is the primary key of every table; `.eq('id', x).single()` yields the
  row when exactly one row matches and the error `PGRST116` otherwise;
* `await request.json()` either yields the parsed body or rejects; the body
  is `Except String β`, the error being the message of the rejection.  Members
  of a body are strings and may be absent;
* `new Date(s).toISOString()` and `new URL(s)` are functions of the platform
  that may throw (`none`);
* rows get their `id` and their defaults from the database;
* `console` output of the handlers is not recorded.
-/

namespace Api

/-! ## Data model -/

/-- The user of `supabase.auth.getUser()`. -/
structure User where
  id : String
  email : String
deriving DecidableEq, Repr

/-- A row of `scheduled_sessions`. -/
structure SessionRow where
  id : String
  learner_id : String
  teacher_id : String
  scheduled_time : String
  status : String
deriving DecidableEq, Repr

/-- A row of `teacher_assessments`. -/
structure AssessmentRow where
  id : String
  user_id : String
  language : String
  quiz_data : String
  status : String
  submitted_at : Nat
  reviewed_at : Option Nat
deriving DecidableEq, Repr

/-- A row of `profiles`. -/
structure ProfileRow where
  id : String
  display_name : String
  role : String
deriving DecidableEq, Repr

/-- The tables the handlers use. -/
structure Database where
  scheduled_sessions : List SessionRow
  teacher_assessments : List AssessmentRow
  profiles : List ProfileRow
deriving DecidableEq, Repr

/-- The argument of `supabase.from(...)`. -/
inductive Table where
  | scheduled_sessions
  | teacher_assessments
  | profiles
deriving DecidableEq, Repr

/-- The operation of a query. -/
inductive QueryKind where
  | select
  | insert
  | update
deriving DecidableEq, Repr

/-- A query issued against a table: operation, table and the `.eq(column,
value)` filter if there is one. -/
structure Query where
  kind : QueryKind
  table : Table
  eq : Option (String × String)
deriving DecidableEq, Repr

/-- The `error` member of a query result. -/
structure PostgrestError where
  code : String
  message : String
deriving DecidableEq, Repr

/-- What the request runs on. -/
structure Platform where
  /-- The `data.user` of `auth.getUser()`. -/
  user : Option User
  /-- Whether `auth.getUser()` reports an error. -/
  authError : Bool
  db : Database
  /-- The error with which the backend rejects a query, if it does. -/
  failure : Query → Option PostgrestError
  /-- The `id` the database gives the next inserted row. -/
  newId : String
  /-- The time of `new Date()` and of the column default `now()`. -/
  now : Nat
  /-- The result of `new Date(s).toISOString()`; `none` when it throws. -/
  toISOString : String → Option String
  /-- The search parameters of `new URL(s)`; `none` when it throws. -/
  searchParams : String → Option (List (String × String))

/-- The JSON body of a response. -/
inductive Body where
  | error (error : String) (details : Option String)
  | warning (warning : String) (details : String)
  | message (message : String)
  | session (row : SessionRow)
  | sessions (rows : List SessionRow)
  | assessment (row : AssessmentRow)
  | assessments (rows : List AssessmentRow)
  | teachers (rows : List (String × String))
deriving DecidableEq, Repr

/-- The value of `NextResponse.json(body, { status })`. -/
structure Response where
  status : Nat
  body : Body
deriving DecidableEq, Repr

/-- The result of a handler: response, tables afterwards, queries issued. -/
structure Outcome where
  response : Response
  db : Database
  queries : List Query
deriving DecidableEq, Repr

/-- A response that leaves the tables as they are. -/
def Platform.reply (p : Platform) (status : Nat) (body : Body)
    (queries : List Query) : Outcome :=
  { response := { status := status, body := body }, db := p.db, queries := queries }

/-- The user after `if (authError || !user)` has let the request pass. -/
def Platform.authenticated (p : Platform) : Option User :=
  if p.authError then none else p.user

/-- The value of a body member or query parameter when it is truthy: present
and not the empty string. -/
def truthy : Option String → Option String
  | some s => if s = "" then none else some s
  | none => none

/-- The result of `.single()` on the rows a query matched. -/
def single {α : Type} : List α → Option α
  | [row] => some row
  | _ => none

/-- The row of `scheduled_sessions` with the given primary key. -/
def Database.session (db : Database) (id : String) : Option SessionRow :=
  single (db.scheduled_sessions.filter (fun row => row.id = id))

/-- The row of `teacher_assessments` with the given primary key. -/
def Database.assessment (db : Database) (id : String) : Option AssessmentRow :=
  single (db.teacher_assessments.filter (fun row => row.id = id))

/-- The query `.from(table).select(...).eq(column, value)`. -/
def selectEq (table : Table) (column value : String) : Query :=
  { kind := .select, table := table, eq := some (column, value) }

/-- The query `.from(table).update(...).eq(column, value)`. -/
def updateEq (table : Table) (column value : String) : Query :=
  { kind := .update, table := table, eq := some (column, value) }

/-- The query `.from(table).insert(...)`. -/
def insertInto (table : Table) : Query :=
  { kind := .insert, table := table, eq := none }

/-- Whether a query writes to its table. -/
def Query.isWrite (q : Query) : Bool :=
  q.kind != .select

/-! ## `src/app/api/sessions/route.js` -/

namespace Sessions

/-- The body of `POST /api/sessions` as the client sends it. -/
structure RequestBody where
  expertId : Option String
  startTime : Option String
  learnerId : Option String
deriving DecidableEq, Repr

/-- The handler `POST` of `sessions/route.js`. -/
def POST (p : Platform) (body : Except String RequestBody) : Outcome :=
  match p.authenticated with
  | none => p.reply 401 (.error "Unauthorized: Authentication required" none) []
  | some user =>
    match body with
    | .error message => p.reply 500 (.error "Failed to create session" (some message)) []
    | .ok b =>
      match truthy b.expertId, truthy b.startTime with
      | some expertId, some startTime =>
        match p.toISOString startTime with
        | none =>
          p.reply 500 (.error "Failed to create session" (some "Invalid time value")) []
        | some scheduled =>
          let row : SessionRow :=
            { id := p.newId, learner_id := user.id, teacher_id := expertId,
              scheduled_time := scheduled, status := "requested" }
          match p.failure (insertInto .scheduled_sessions) with
          | some e =>
            p.reply 500 (.error "Failed to create session" (some e.message))
              [insertInto .scheduled_sessions]
          | none =>
            { response := { status := 201, body := .session row },
              db := { p.db with scheduled_sessions := p.db.scheduled_sessions ++ [row] },
              queries := [insertInto .scheduled_sessions] }
      | _, _ =>
        p.reply 400 (.error "Missing required fields: expertId, startTime" none) []

/-- The column `GET` filters on for a role. -/
def filterColumn (role : String) : String :=
  if role = "learner" then "learner_id" else "teacher_id"

/-- The value of a row in the column `GET` filters on. -/
def column (role : String) (row : SessionRow) : String :=
  if role = "learner" then row.learner_id else row.teacher_id

/-- The handler `GET` of `sessions/route.js`; `url` is `request.url`. -/
def GET (p : Platform) (url : String) : Outcome :=
  match p.authenticated with
  | none => p.reply 401 (.error "Unauthorized: Authentication required" none) []
  | some user =>
    if url = "" then p.reply 400 (.error "Invalid request URL" none) []
    else
      match p.searchParams url with
      | none => p.reply 400 (.error "Invalid URL format" none) []
      | some searchParams =>
        match truthy (searchParams.lookup "role") with
        | none => p.reply 400 (.error "Missing required query parameter: role" none) []
        | some role =>
          if role ≠ "learner" ∧ role ≠ "teacher" then
            p.reply 400 (.error "Invalid role parameter" none) []
          else
            let query := selectEq .scheduled_sessions (filterColumn role) user.id
            match p.failure query with
            | some e =>
              p.reply 500 (.error "Failed to fetch sessions" (some e.message)) [query]
            | none =>
              p.reply 200
                (.sessions (p.db.scheduled_sessions.filter (fun row => column role row = user.id)))
                [query]

end Sessions

/-! ## `src/app/api/sessions/[sessionId]/route.js` -/

namespace Session

/-- The body of `PATCH /api/sessions/[sessionId]`. -/
structure RequestBody where
  status : Option String
deriving DecidableEq, Repr

/-- The rows of `scheduled_sessions` after `.update({ status }).eq('id', id)`. -/
def setStatus (rows : List SessionRow) (id status : String) : List SessionRow :=
  rows.map (fun row => if row.id = id then { row with status := status } else row)

/-- The handler `PATCH` of `sessions/[sessionId]/route.js`; `sessionId` is
`params.sessionId`. -/
def PATCH (p : Platform) (sessionId : String) (body : Except String RequestBody) : Outcome :=
  if sessionId = "" then p.reply 400 (.error "Session ID is required" none) []
  else
    match body with
    | .error message => p.reply 500 (.error "Failed to update session" (some message)) []
    | .ok b =>
      match truthy b.status with
      | none => p.reply 400 (.error "Status is required in request body" none) []
      | some status =>
        match p.authenticated with
        | none => p.reply 401 (.error "Unauthorized: Authentication required" none) []
        | some user =>
          let fetch := selectEq .scheduled_sessions "id" sessionId
          match p.failure fetch with
          | some e =>
            if e.code = "PGRST116" then p.reply 404 (.error "Session not found" none) [fetch]
            else p.reply 500 (.error "Failed to verify session ownership" none) [fetch]
          | none =>
            match p.db.session sessionId with
            | none => p.reply 404 (.error "Session not found" none) [fetch]
            | some sessionData =>
              if sessionData.teacher_id ≠ user.id then
                p.reply 403
                  (.error "Forbidden: You are not the teacher for this session" none) [fetch]
              else
                let update := updateEq .scheduled_sessions "id" sessionId
                match p.failure update with
                | some e =>
                  if e.code = "PGRST116" then
                    p.reply 404 (.error "Session not found" none) [fetch, update]
                  else
                    p.reply 500 (.error "Failed to update session" (some e.message))
                      [fetch, update]
                | none =>
                  { response :=
                      { status := 200, body := .session { sessionData with status := status } },
                    db := { p.db with
                            scheduled_sessions :=
                              setStatus p.db.scheduled_sessions sessionId status },
                    queries := [fetch, update] }

end Session

/-! ## `src/app/api/assessments/route.js` -/

/-- The constant `ADMIN_EMAIL`. -/
def ADMIN_EMAIL : String := "aayush.k204@gmail.com"

/-- The helper `isAdminUser`. -/
def isAdminUser (p : Platform) : Bool :=
  match p.authenticated with
  | none => false
  | some user => user.email = ADMIN_EMAIL

namespace Assessments

/-- The body of `POST /api/assessments`. -/
structure RequestBody where
  language : Option String
  quizData : Option String
deriving DecidableEq, Repr

/-- The handler `POST` of `assessments/route.js`. -/
def POST (p : Platform) (body : Except String RequestBody) : Outcome :=
  match p.authenticated with
  | none => p.reply 401 (.error "Unauthorized: Authentication required" none) []
  | some user =>
    match body with
    | .error message => p.reply 500 (.error "Failed to submit assessment" (some message)) []
    | .ok b =>
      match truthy b.language, truthy b.quizData with
      | some language, some quizData =>
        let row : AssessmentRow :=
          { id := p.newId, user_id := user.id, language := language, quiz_data := quizData,
            status := "pending", submitted_at := p.now, reviewed_at := none }
        match p.failure (insertInto .teacher_assessments) with
        | some e =>
          if e.code = "23505" then
            p.reply 409
              (.error ("You already have a pending assessment request for " ++ language ++ ".")
                none)
              [insertInto .teacher_assessments]
          else
            p.reply 500 (.error "Failed to submit assessment" (some e.message))
              [insertInto .teacher_assessments]
        | none =>
          { response := { status := 201, body := .assessment row },
            db := { p.db with teacher_assessments := p.db.teacher_assessments ++ [row] },
            queries := [insertInto .teacher_assessments] }
      | _, _ => p.reply 400 (.error "Missing required fields: language, quizData" none) []

/-- The handler `GET` of `assessments/route.js`; `url` is `request.url`. -/
def GET (p : Platform) (url : String) : Outcome :=
  if !isAdminUser p then p.reply 403 (.error "Forbidden: Admin access required" none) []
  else
    match p.searchParams url with
    | none => p.reply 500 (.error "Failed to fetch assessments" (some "Invalid URL")) []
    | some searchParams =>
      let status := truthy (searchParams.lookup "status")
      let query : Query :=
        { kind := .select, table := .teacher_assessments,
          eq := status.map (fun s => ("status", s)) }
      match p.failure query with
      | some e => p.reply 500 (.error "Failed to fetch assessments" (some e.message)) [query]
      | none =>
        let rows : List AssessmentRow :=
          match status with
          | some s => p.db.teacher_assessments.filter (fun row => row.status = s)
          | none => p.db.teacher_assessments
        p.reply 200
          (.assessments (rows.mergeSort (fun a b => decide (a.submitted_at ≤ b.submitted_at))))
          [query]

end Assessments

/-! ## `src/app/api/assessments/[assessmentId]/route.js` -/

namespace Assessment

/-- The body of `PATCH /api/assessments/[assessmentId]`. -/
structure RequestBody where
  status : Option String
deriving DecidableEq, Repr

/-- The rows of `teacher_assessments` after
`.update({ status, reviewed_at }).eq('id', id)`. -/
def review (rows : List AssessmentRow) (id status : String) (time : Nat) :
    List AssessmentRow :=
  rows.map (fun row =>
    if row.id = id then { row with status := status, reviewed_at := some time } else row)

/-- The rows of `profiles` after `.update({ role: 'teacher' }).eq('id', id)`. -/
def promote (rows : List ProfileRow) (id : String) : List ProfileRow :=
  rows.map (fun row => if row.id = id then { row with role := "teacher" } else row)

/-- The handler `PATCH` of `assessments/[assessmentId]/route.js`;
`assessmentId` is `params.assessmentId`. -/
def PATCH (p : Platform) (assessmentId : String) (body : Except String RequestBody) :
    Outcome :=
  if assessmentId = "" then p.reply 400 (.error "Assessment ID is required" none) []
  else if !isAdminUser p then
    p.reply 403 (.error "Forbidden: Admin access required" none) []
  else
    match body with
    | .error message =>
      p.reply 500 (.error "Failed to process assessment update" (some message)) []
    | .ok b =>
      match truthy b.status with
      | none =>
        p.reply 400
          (.error "Invalid status provided. Must be \"approved\" or \"rejected\"." none) []
      | some newStatus =>
        if newStatus ≠ "approved" ∧ newStatus ≠ "rejected" then
          p.reply 400
            (.error "Invalid status provided. Must be \"approved\" or \"rejected\"." none) []
        else
          let fetch := selectEq .teacher_assessments "id" assessmentId
          match p.failure fetch with
          | some _ => p.reply 404 (.error "Assessment not found" none) [fetch]
          | none =>
            match p.db.assessment assessmentId with
            | none => p.reply 404 (.error "Assessment not found" none) [fetch]
            | some assessment =>
              if assessment.status ≠ "pending" then
                p.reply 409
                  (.error ("Assessment is already " ++ assessment.status ++ ".") none) [fetch]
              else
                let update := updateEq .teacher_assessments "id" assessmentId
                match p.failure update with
                | some _ =>
                  p.reply 500
                    (.error "Failed to process assessment update"
                      (some "Failed to update assessment status."))
                    [fetch, update]
                | none =>
                  let db1 : Database :=
                    { p.db with
                      teacher_assessments :=
                        review p.db.teacher_assessments assessmentId newStatus p.now }
                  let done : Body :=
                    .message
                      ("Assessment " ++ assessmentId ++ " status updated to " ++ newStatus ++ ".")
                  if newStatus = "approved" then
                    let role := updateEq .profiles "id" assessment.user_id
                    match p.failure role with
                    | some e =>
                      { response :=
                          { status := 500,
                            body :=
                              .warning "Assessment status updated, but failed to update user role."
                                e.message },
                        db := db1, queries := [fetch, update, role] }
                    | none =>
                      { response := { status := 200, body := done },
                        db := { db1 with profiles := promote db1.profiles assessment.user_id },
                        queries := [fetch, update, role] }
                  else
                    { response := { status := 200, body := done }, db := db1,
                      queries := [fetch, update] }

/-- The `status` member a request body carries; none when the body does not
parse or has no such member. -/
def newStatus : Except String RequestBody → Option String
  | .ok b => b.status
  | .error _ => none

/-- The table of the review rule as the specification words it: the status
code of the refusal, checked in the order admin, new status, existence,
pending; `none` when the review is to be written. -/
def reviewTable (p : Platform) (assessmentId : String) (status : Option String) :
    Option Nat :=
  if !isAdminUser p then some 403
  else if status ≠ some "approved" ∧ status ≠ some "rejected" then some 400
  else
    match p.db.assessment assessmentId with
    | none => some 404
    | some assessment => if assessment.status ≠ "pending" then some 409 else none

end Assessment

/-! ## `src/app/api/teachers/route.js` -/

namespace Teachers

/-- The handler `GET` of `teachers/route.js`. -/
def GET (p : Platform) : Outcome :=
  match p.authenticated with
  | none => p.reply 401 (.error "Unauthorized: Authentication required" none) []
  | some _ =>
    let query := selectEq .profiles "role" "teacher"
    match p.failure query with
    | some e => p.reply 500 (.error "Failed to fetch teachers" (some e.message)) [query]
    | none =>
      p.reply 200
        (.teachers
          ((p.db.profiles.filter (fun (row : ProfileRow) => row.role = "teacher")).map
            (fun (row : ProfileRow) => (row.id, row.display_name))))
        [query]

end Teachers

/-! ## `src/middleware.js` -/

/-- The `nextUrl` of a request, as far as the middleware uses it. -/
structure NextUrl where
  pathname : String
  searchParams : List (String × String)
deriving DecidableEq, Repr

/-- The parameters after `URLSearchParams.set(name, value)`: the first entry
of that name gets the value and the others are removed; without one the pair
is appended. -/
def setSearchParam : List (String × String) → String → String → List (String × String)
  | [], name, value => [(name, value)]
  | (n, v) :: rest, name, value =>
    if n = name then (name, value) :: rest.filter (fun q => q.1 ≠ name)
    else (n, v) :: setSearchParam rest name value

/-- The method `String.prototype.startsWith`. -/
def startsWith (s searchString : String) : Bool :=
  searchString.data.isPrefixOf s.data

/-- What the middleware returns. -/
inductive Decision where
  /-- The value of `NextResponse.redirect(url)`. -/
  | redirect (url : NextUrl)
  /-- The response of `updateSession(req)`, returned as it is. -/
  | response
deriving DecidableEq, Repr

/-- The function `middleware`; `user` is the user read after
`updateSession(req)`. -/
def middleware (user : Option User) (nextUrl : NextUrl) : Decision :=
  let pathname := nextUrl.pathname
  if startsWith pathname "/admin" then
    match user with
    | none =>
      .redirect
        { nextUrl with
          pathname := "/login",
          searchParams := setSearchParam nextUrl.searchParams "redirectedFrom" pathname }
    | some user =>
      if user.email ≠ ADMIN_EMAIL then .redirect { nextUrl with pathname := "/dashboard" }
      else .response
  else if startsWith pathname "/dashboard" || startsWith pathname "/assessment"
      || startsWith pathname "/call" then
    match user with
    | none =>
      .redirect
        { nextUrl with
          pathname := "/login",
          searchParams := setSearchParam nextUrl.searchParams "redirectedFrom" pathname }
    | some _ => .response
  else .response

/-! ## `src/app/components/Calendar.jsx` -/

namespace Calendar

/-- A session as `/api/sessions` returns it.  `scheduled_time` is the time
value of `new Date(session.scheduled_time)` in milliseconds, `none` for an
invalid date. -/
structure ApiSession where
  id : String
  scheduled_time : Option Int
  duration : Option Int
  room_id : Option String
  status : String
deriving DecidableEq, Repr

/-- An element of the state `sessions`. -/
structure Session where
  id : String
  startTime : Option Int
  endTime : Option Int
  roomId : Option String
  status : String
deriving DecidableEq, Repr

/-- The mapping of `fetchSessions` from a row to an element of `sessions`. -/
def format (session : ApiSession) : Session :=
  { id := session.id,
    startTime := session.scheduled_time,
    endTime :=
      match session.duration with
      | some duration =>
        if duration ≠ 0 then session.scheduled_time.map (fun t => t + duration * 60000)
        else session.scheduled_time.map (fun t => t + 60 * 60000)
      | none => session.scheduled_time.map (fun t => t + 60 * 60000),
    roomId := session.room_id,
    status := session.status }

/-- The function `isSessionActive`; `now` is the time value of `new Date()`. -/
def isSessionActive (now : Int) (session : Session) : Bool :=
  match session.startTime, session.endTime with
  | some startTime, some endTime => decide (now ≥ startTime) && decide (now ≤ endTime)
  | _, _ => false

/-- The JSX condition of the Join Call button inside the list entry of a
session:
`session.status === 'confirmed' && isSessionActive(session) && session.roomId`. -/
def joinCallButton (now : Int) (session : Session) : Bool :=
  session.status = "confirmed" && isSessionActive now session && (truthy session.roomId).isSome

/-- The state cells of `SessionCalendar`: the selected date (its time value),
the sessions, the loading flag and the error text. -/
structure State where
  date : Int
  sessions : List Session
  loading : Bool
  error : String
deriving DecidableEq, Repr

/-- The state of the first render at time `now`: `useState(new Date())`,
`useState([])`, `useState(true)`, `useState('')`. -/
def State.initial (now : Int) : State :=
  { date := now, sessions := [], loading := true, error := "" }

/-- The state after `fetchSessions` has received the rows `data`. -/
def State.fetched (state : State) (data : List ApiSession) : State :=
  { state with sessions := data.map format, loading := false, error := "" }

/-- The string `startTime.toDateString()` of a session; `toDateString` gives
the string for a valid date in the time zone of the browser. -/
def dateString (toDateString : Int → String) : Option Int → String
  | some t => toDateString t
  | none => "Invalid Date"

/-- The list `sessionsForDate`: the sessions whose start has the date string
of the selected date. -/
def sessionsForDate (toDateString : Int → String) (state : State) : List Session :=
  state.sessions.filter
    (fun session => dateString toDateString session.startTime = toDateString state.date)

/-- The sessions for which the component renders a Join Call button: none
while `loading` or with an `error`; otherwise the entries of `sessionsForDate`
whose JSX condition holds. -/
def joinCallButtons (toDateString : Int → String) (now : Int) (state : State) : List Session :=
  if state.loading then []
  else if state.error ≠ "" then []
  else (sessionsForDate toDateString state).filter (joinCallButton now)

/-- The end time as the specification words it: the start plus the duration
in minutes when a duration is set, the start plus 60 minutes otherwise.  A
duration is set when the row has one other than 0. -/
def specEndTime (session : ApiSession) : Option Int :=
  match session.duration with
  | some duration =>
    if duration = 0 then session.scheduled_time.map (fun t => t + 60 * 60000)
    else session.scheduled_time.map (fun t => t + duration * 60000)
  | none => session.scheduled_time.map (fun t => t + 60 * 60000)

/-- The condition of the Join Call button as the specification words it:
the status is `confirmed`, a room id is present, and the current time lies
between the start and the end time. -/
def specJoinCall (now : Int) (session : ApiSession) : Bool :=
  session.status = "confirmed" && (truthy session.room_id).isSome &&
    (match session.scheduled_time, specEndTime session with
     | some startTime, some endTime => decide (startTime ≤ now) && decide (now ≤ endTime)
     | _, _ => false)

/-- The strings of `toDateString()` in a browser on UTC for the first two
days of 1970, the days of the scenarios; other days are not told apart. -/
def scenarioDateString (t : Int) : String :=
  if t / 86400000 = 0 then "Thu Jan 01 1970"
  else if t / 86400000 = 1 then "Fri Jan 02 1970"
  else "another day"

/-- A confirmed session with a room and no duration that starts at 23:30 on
the first day. -/
def scenarioSession : ApiSession :=
  { id := "s1", scheduled_time := some 84600000, duration := none, room_id := some "room-1",
    status := "confirmed" }

end Calendar

/-! ## Scenarios -/

/-- Tables with one requested session, one pending assessment and the
profiles of its learner and teacher. -/
def scenarioDb : Database :=
  { scheduled_sessions :=
      [{ id := "s1", learner_id := "u1", teacher_id := "t1",
         scheduled_time := "2025-05-01T10:00:00.000Z", status := "requested" }],
    teacher_assessments :=
      [{ id := "a1", user_id := "u1", language := "Spanish", quiz_data := "answers",
         status := "pending", submitted_at := 1, reviewed_at := none }],
    profiles :=
      [{ id := "u1", display_name := "Lea", role := "learner" },
       { id := "t1", display_name := "Tom", role := "teacher" }] }

/-- The search parameters of the request URLs of the scenarios. -/
def scenarioUrls : List (String × List (String × String)) :=
  [("http://localhost/api/sessions?userId=t1&role=learner",
      [("userId", "t1"), ("role", "learner")]),
   ("http://localhost/api/sessions?userId=u1&role=learner",
      [("userId", "u1"), ("role", "learner")]),
   ("http://localhost/api/sessions?userId=u1&role=admin",
      [("userId", "u1"), ("role", "admin")])]

/-- A platform on `scenarioDb` with the given user, whose backend rejects the
queries listed in `rejected`. -/
def scenarioPlatform (user : Option User) (rejected : List Query) : Platform :=
  { user := user,
    authError := false,
    db := scenarioDb,
    failure := fun q =>
      if q ∈ rejected then some { code := "XX000", message := "internal error" } else none,
    newId := "s2",
    now := 100,
    toISOString := fun s => if s = "tomorrow" then none else some s,
    searchParams := fun url => scenarioUrls.lookup url }

/-- The learner of the scenarios. -/
def lea : User := { id := "u1", email := "lea@example.com" }

/-- The teacher of the scenarios. -/
def tom : User := { id := "t1", email := "tom@example.com" }

/-- The administrator. -/
def admin : User := { id := "a0", email := ADMIN_EMAIL }


end Api

namespace VideoCall

/-! ## Offers -/

/-- C1 (failing input).  A participant mounts in room r1, the channel joins,
the webcam starts with two tracks, and an offer is delivered.  The webcam flag
is true and the channel is joined, yet the handler registered by the mount
effect runs `handleReceivedOffer` of the mount render, where
`isWebcamStarted` is false: the only effect is the warning, no remote
description is set and no answer is published. -/
theorem C1_offer_after_webcam_start_gets_no_answer :
    scenarioReady.state.isWebcamStarted = true ∧
    scenarioReady.channelState 0 = some .joined ∧
    step scenarioReady (.offer { offer := some { type := .offer, sdp := 7 }, answer := none, candidate := none })
      = scenarioReady.log (.consoleWarn "Cannot handle received offer: PC, webcam, or channel not ready.") ∧
    (step scenarioReady
      (.offer { offer := some { type := .offer, sdp := 7 }, answer := none, candidate := none })).published = [] := by
  decide

/-- C2 (counterexample).  An offer delivered before the webcam is started is
dropped: afterwards capture succeeds, and the whole trace is the warning
followed by the calls of `startWebcam`.  The offer is never applied to the
connection and nothing is published. -/
theorem C2_offer_before_capture_has_no_later_effect :
    (run scenarioJoined
        [.offer { offer := some { type := .offer, sdp := 7 }, answer := none, candidate := none },
         .clickStartWebcam (some [1, 2])]).trace =
      [.consoleWarn "Cannot handle received offer: PC, webcam, or channel not ready.",
       .getUserMedia true, .addTrack 0 1, .addTrack 0 2] ∧
    ((run scenarioJoined
        [.offer { offer := some { type := .offer, sdp := 7 }, answer := none, candidate := none },
         .clickStartWebcam (some [1, 2])]).pcs[0]?).bind (fun p => p.remoteDescription) = none := by
  decide

/-- C2 (amended).  When the webcam flag that the offer handler reads is false,
an offer is discarded: `handleOffer` logs one warning and changes nothing
else, so no call is made on the connection, nothing is published and the
offer is not kept. -/
theorem C2_offer_without_capture_is_discarded (env : EffectEnv) (payload : Payload)
    (offer : SessionDescription) (pc : Nat) (w : World)
    (hpc : env.peerConnection = some pc) (hoffer : payload.offer = some offer)
    (hflag : env.render.isWebcamStarted = false) :
    handleOffer env payload w =
      w.log (.consoleWarn "Cannot handle received offer: PC, webcam, or channel not ready.") := by
  simp [handleOffer, handleReceivedOffer, notReady, hpc, hoffer, hflag]

/-- Witness for C2 (amended): the handlers of a component mounted from its first render. -/
theorem C2_offer_without_capture_is_discarded_witness :
    handleOffer { render := World.initial.state, peerConnection := some 0, channel := 0, hasCleanup := true }
        { offer := some { type := .offer, sdp := 7 }, answer := none, candidate := none } scenarioJoined =
      scenarioJoined.log (.consoleWarn "Cannot handle received offer: PC, webcam, or channel not ready.") :=
  C2_offer_without_capture_is_discarded _ _ { type := .offer, sdp := 7 } 0 _ rfl rfl rfl

/-! ## Answers -/

/-! ## Candidates -/

/-- C4 (counterexample).  A candidate is delivered to a joined participant whose
connection has no remote description: `addIceCandidate` is invoked all the same. -/
theorem C4_candidate_without_remote_description_is_passed_on :
    (scenarioJoined.pcs[0]?).bind (fun p => p.remoteDescription) = none ∧
    Event.addIceCandidate 0 5 ∈
      (step scenarioJoined (.candidate { offer := none, answer := none, candidate := some 5 })).trace := by
  decide

/-- One candidate broadcast handled on a connection without remote description. -/
theorem handleCandidate_without_remote_description (env : EffectEnv) (payload : Payload) (pc : Nat)
    (p : RTCPeerConnection) (w : World)
    (hpc : env.peerConnection = some pc) (hp : w.pcs[pc]? = some p)
    (hnone : p.remoteDescription = none) :
    handleCandidate env payload w = { w with trace := w.trace ++ rejectedCandidateCalls pc [payload] } := by
  cases hc : payload.candidate with
  | none => simp [handleCandidate, hpc, hc, rejectedCandidateCalls]
  | some c =>
    by_cases hclosed : p.connectionState = .closed <;>
      simp [handleCandidate, hpc, hc, rejectedCandidateCalls, World.addIceCandidate, World.callPc,
        World.log, hp, RTCPeerConnection.addIceCandidate, hnone, hclosed]

/-- The calls for two lists of candidate broadcasts, one after the other. -/
theorem rejectedCandidateCalls_cons (pc : Nat) (payload : Payload) (rest : List Payload) :
    rejectedCandidateCalls pc (payload :: rest) =
      rejectedCandidateCalls pc [payload] ++ rejectedCandidateCalls pc rest := by
  cases hc : payload.candidate <;> simp [rejectedCandidateCalls, hc]

/-- C4 (amended).  For every sequence of candidate broadcasts received while the
connection has no remote description: each candidate is passed to
`addIceCandidate` on receipt, the browser rejects the call and the rejection
ends in the `.catch` callback; no candidate is added to the connection, none
is kept for later, nothing else in the world changes, and no call faults. -/
theorem C4_candidates_without_remote_description_are_rejected (env : EffectEnv)
    (payloads : List Payload) (pc : Nat) (p : RTCPeerConnection) (w : World)
    (hpc : env.peerConnection = some pc) (hp : w.pcs[pc]? = some p)
    (hnone : p.remoteDescription = none) :
    payloads.foldl (fun v payload => handleCandidate env payload v) w =
        { w with trace := w.trace ++ rejectedCandidateCalls pc payloads } ∧
    (∀ text, Event.uncaught text ∉ rejectedCandidateCalls pc payloads) := by
  constructor
  · induction payloads generalizing w with
    | nil => simp [rejectedCandidateCalls]
    | cons payload rest ih =>
      rw [List.foldl_cons, handleCandidate_without_remote_description env payload pc p w hpc hp hnone,
        ih { w with trace := w.trace ++ rejectedCandidateCalls pc [payload] } hp,
        rejectedCandidateCalls_cons pc payload rest]
      simp
  · intro text
    induction payloads with
    | nil => simp [rejectedCandidateCalls]
    | cons payload rest ih =>
      cases hc : payload.candidate <;> simp [rejectedCandidateCalls, hc, ih]

/-- Witness for C4 (amended): candidates 5 and 6 delivered before any description. -/
theorem C4_candidates_without_remote_description_are_rejected_witness :
    [({ offer := none, answer := none, candidate := some 5 } : Payload),
     { offer := none, answer := none, candidate := some 6 }].foldl
        (fun v payload => handleCandidate
          { render := World.initial.state, peerConnection := some 0, channel := 0, hasCleanup := true }
          payload v) scenarioJoined =
      { scenarioJoined with trace := scenarioJoined.trace ++ (rejectedCandidateCalls 0
          [{ offer := none, answer := none, candidate := some 5 },
           { offer := none, answer := none, candidate := some 6 }]) } ∧
    (∀ text, Event.uncaught text ∉ rejectedCandidateCalls 0
          [({ offer := none, answer := none, candidate := some 5 } : Payload),
           { offer := none, answer := none, candidate := some 6 }]) :=
  C4_candidates_without_remote_description_are_rejected _ _ 0
    { RTCPeerConnection.fresh with handlers := true } _ rfl rfl rfl

/-! ## Teardown -/

theorem stopTracks_eq (stream : MediaStream) (w : World) :
    w.stopTracks stream =
      { w with live := w.live.filter (fun t => t ∉ stream), trace := w.trace ++ stream.map Event.stop } := by
  induction stream generalizing w with
  | nil => simp [World.stopTracks]
  | cons t rest ih =>
    have := ih (w.stopTrack t)
    simp only [World.stopTracks] at this ⊢
    rw [List.foldl_cons, this]
    simp [World.stopTrack, List.filter_filter, Bool.and_comm]

theorem stopLocalStream_eq (w : World) :
    stopLocalStream w =
      { w with live := w.live.filter (fun t => t ∉ w.localStream.getD []),
               localSrcObject := if w.refsAttached then none else w.localSrcObject,
               trace := w.trace ++ (w.localStream.getD []).map Event.stop } := by
  rcases w with ⟨pcs, chs, live, refs, lsrc, rsrc, st, eff, ctr, tr⟩
  cases refs <;> cases lsrc <;> simp [stopLocalStream, World.localStream, stopTracks_eq]

theorem stopRemoteStream_eq (w : World) :
    stopRemoteStream w =
      { w with live := w.live.filter (fun t => t ∉ w.remoteStream.getD []),
               remoteSrcObject := if w.refsAttached then none else w.remoteSrcObject,
               trace := w.trace ++ (w.remoteStream.getD []).map Event.stop } := by
  rcases w with ⟨pcs, chs, live, refs, lsrc, rsrc, st, eff, ctr, tr⟩
  cases refs <;> cases rsrc <;> simp [stopRemoteStream, World.remoteStream, stopTracks_eq]

theorem set_closed_self {pcs : List RTCPeerConnection} {i : Nat} {p : RTCPeerConnection}
    (hp : pcs[i]? = some p) : pcs.set i p = pcs := by
  apply List.ext_getElem?
  intro j
  rw [List.getElem?_set]
  by_cases h : i = j
  · subst h
    simp [hp, (List.getElem?_eq_some.mp hp).1]
  · simp [h]

theorem closePeerConnection_eq (i : Nat) (w : World) :
    closePeerConnection i w =
      { w with pcs := closedPcs (some i) w.pcs, trace := w.trace ++ closeEvents (some i) w.pcs } := by
  rcases w with ⟨pcs, chs, live, refs, lsrc, rsrc, st, eff, ctr, tr⟩
  unfold closePeerConnection closedPcs closeEvents
  cases hp : pcs[i]? with
  | none => simp [hp]
  | some p =>
    by_cases hc : p.connectionState = .closed
    · simp [hp, hc, RTCPeerConnection.close]
    · simp [hp, hc, RTCPeerConnection.close]

theorem removeChannel_eq (c : Nat) (w : World) :
    w.removeChannel c =
      { w with channels := closedChannels (some c) w.channels,
               trace := w.trace ++ removeEvents (some c) } := by
  rcases w with ⟨pcs, chs, live, refs, lsrc, rsrc, st, eff, ctr, tr⟩
  unfold World.removeChannel closedChannels removeEvents
  cases hc : chs[c]? <;> simp [World.log, hc]

theorem cleanupCall_eq (r : Render) (channel pc : Option Nat) (w : World) :
    cleanupCall r channel pc w =
      { pcs := closedPcs pc w.pcs,
        channels := closedChannels channel w.channels,
        live := w.live.filter (fun t => t ∉ w.streamTracks),
        refsAttached := w.refsAttached,
        localSrcObject := if w.refsAttached then none else w.localSrcObject,
        remoteSrcObject := if w.refsAttached then none else w.remoteSrcObject,
        state := { pc := if r.pc = pc then none else w.state.pc,
                   isWebcamStarted := false,
                   supabaseChannel := if r.supabaseChannel = channel then none else w.state.supabaseChannel },
        effect := w.effect,
        sdpCounter := w.sdpCounter,
        trace := w.trace ++ w.streamTracks.map Event.stop ++ closeEvents pc w.pcs ++ removeEvents channel } := by
  rcases w with ⟨pcs, chs, live, refs, lsrc, rsrc, st, eff, ctr, tr⟩
  simp only [cleanupCall, stopLocalStream_eq, stopRemoteStream_eq]
  by_cases h1 : r.pc = pc <;> by_cases h2 : r.supabaseChannel = channel <;>
    cases pc <;> cases channel <;>
    simp [h1, h2, closePeerConnection_eq, removeChannel_eq, World.setPc, World.setSupabaseChannel,
      World.setIsWebcamStarted, World.streamTracks, World.localStream, World.remoteStream,
      closedPcs, closeEvents, closedChannels, removeEvents, List.filter_filter, Bool.and_comm]

theorem closedPcs_idem (pc : Option Nat) (pcs : List RTCPeerConnection) :
    closedPcs pc (closedPcs pc pcs) = closedPcs pc pcs := by
  cases pc with
  | none => rfl
  | some i =>
    cases hp : pcs[i]? with
    | none => simp [closedPcs, hp]
    | some p =>
      have hlt : i < pcs.length := (List.getElem?_eq_some.mp hp).1
      simp [closedPcs, hp, List.getElem?_set_self hlt]

theorem closeEvents_closedPcs (pc : Option Nat) (pcs : List RTCPeerConnection) :
    closeEvents pc (closedPcs pc pcs) = [] := by
  cases pc with
  | none => rfl
  | some i =>
    cases hp : pcs[i]? with
    | none => simp [closedPcs, closeEvents, hp]
    | some p =>
      have hlt : i < pcs.length := (List.getElem?_eq_some.mp hp).1
      simp [closedPcs, closeEvents, hp, List.getElem?_set_self hlt]

theorem closedChannels_idem (channel : Option Nat) (channels : List RealtimeChannel) :
    closedChannels channel (closedChannels channel channels) = closedChannels channel channels := by
  cases channel with
  | none => rfl
  | some c =>
    cases hc : channels[c]? with
    | none => simp [closedChannels, hc]
    | some ch =>
      have hlt : c < channels.length := (List.getElem?_eq_some.mp hc).1
      simp [closedChannels, hc, List.getElem?_set_self hlt]

theorem count_stop_closeEvents (t : TrackId) (pc : Option Nat) (pcs : List RTCPeerConnection) :
    (closeEvents pc pcs).count (.stop t) = 0 := by
  unfold closeEvents
  split
  · rfl
  · split
    · rfl
    · split <;> simp

theorem count_stop_removeEvents (t : TrackId) (channel : Option Nat) :
    (removeEvents channel).count (.stop t) = 0 := by
  cases channel <;> simp [removeEvents]

theorem count_close_removeEvents (i : Nat) (channel : Option Nat) :
    (removeEvents channel).count (.close i) = 0 := by
  cases channel <;> simp [removeEvents]

theorem count_close_stops (i : Nat) (stream : MediaStream) :
    (stream.map Event.stop).count (.close i) = 0 := by
  induction stream with
  | nil => rfl
  | cons t rest ih => simp [List.count_cons, ih]

theorem count_stop_stops (t : TrackId) (stream : MediaStream) :
    (stream.map Event.stop).count (.stop t) = stream.count t := by
  induction stream with
  | nil => rfl
  | cons u rest ih =>
    by_cases h : u = t <;> simp [List.count_cons, ih, h]

/-- A second `cleanupCall` with the same channel and connection right after
the first ends in the state the first one left: it stops no track and does
not call `close()`, it only repeats `removeChannel`.  Over both calls each
track of a stream that a video element holds, as far as the refs reach it, is
stopped exactly once, and `close()` is called exactly once on a connection
that was not closed before. -/
theorem cleanupCall_twice (r : Render) (channel pc : Option Nat) (w : World) :
    cleanupCall r channel pc (cleanupCall r channel pc w) =
      { cleanupCall r channel pc w with
        trace := (cleanupCall r channel pc w).trace ++ removeEvents channel } ∧
    (∀ t, (cleanupCall r channel pc (cleanupCall r channel pc w)).stopCalls t =
      (cleanupCall r channel pc w).stopCalls t) ∧
    (∀ i, (cleanupCall r channel pc (cleanupCall r channel pc w)).closeCalls i =
      (cleanupCall r channel pc w).closeCalls i) ∧
    (w.streamTracks.Nodup → ∀ t ∈ w.streamTracks,
      (cleanupCall r channel pc (cleanupCall r channel pc w)).stopCalls t = w.stopCalls t + 1) ∧
    (∀ i p, pc = some i → w.pcs[i]? = some p → p.connectionState ≠ .closed →
      (cleanupCall r channel pc (cleanupCall r channel pc w)).closeCalls i = w.closeCalls i + 1) := by
  have htwice : cleanupCall r channel pc (cleanupCall r channel pc w) =
      { cleanupCall r channel pc w with
        trace := (cleanupCall r channel pc w).trace ++ removeEvents channel } := by
    rw [cleanupCall_eq r channel pc (cleanupCall r channel pc w), cleanupCall_eq r channel pc w]
    rcases w with ⟨pcs, chs, live, refs, lsrc, rsrc, st, eff, ctr, tr⟩
    cases refs <;>
      simp [closedPcs_idem, closeEvents_closedPcs, closedChannels_idem, World.streamTracks,
        World.localStream, World.remoteStream] <;>
      constructor <;> split <;> simp_all
  refine ⟨htwice, ?_, ?_, ?_, ?_⟩
  · intro t
    rw [htwice]
    simp [World.stopCalls, List.count_append, count_stop_removeEvents]
  · intro i
    rw [htwice]
    simp [World.closeCalls, List.count_append, count_close_removeEvents]
  · intro hnodup t ht
    rw [htwice, cleanupCall_eq]
    simp [World.stopCalls, List.count_append, count_stop_removeEvents, count_stop_closeEvents,
      count_stop_stops, List.count_eq_one_of_mem hnodup ht]
  · intro i p hpc hp hopen
    rw [htwice, cleanupCall_eq]
    subst hpc
    simp [World.closeCalls, List.count_append, count_close_removeEvents, count_close_stops,
      closeEvents, hp, hopen]

/-- C6 (failing input).  A participant with the camera on leaves the view.  The
effect cleanup runs `cleanupCall` after React has detached the video refs, so
`localVideoRef.current?.srcObject` is undefined: the connection is closed and
the channel is released, but no `stop()` is called and both camera tracks are
still live when `removeChannel` is issued. -/
theorem C6_unmount_releases_channel_with_tracks_live :
    scenarioReady.localSrcObject = some [1, 2] ∧
    (step scenarioReady .unmount).trace = scenarioReady.trace ++ [.close 0, .removeChannel 0] ∧
    (step scenarioReady .unmount).live = [1, 2] ∧
    (step scenarioReady .unmount).stopCalls 1 = 0 ∧
    (step scenarioReady .unmount).stopCalls 2 = 0 := by
  decide

theorem published_append_silent (w : World) (events : List Event)
    (h : ∀ e ∈ events, ∀ c m, e ≠ Event.send c m) :
    ({ w with trace := w.trace ++ events } : World).published = w.published := by
  simp only [World.published, List.filterMap_append]
  have : events.filterMap (fun e => match e with
      | .send c m => some (c, m)
      | _ => none) = [] := by
    induction events with
    | nil => rfl
    | cons e rest ih =>
      have hrest := ih (fun e he => h e (List.mem_cons_of_mem _ he))
      have he := h e (List.mem_cons_self _ _)
      cases e <;> simp_all [List.filterMap_cons]
  rw [this, List.append_nil]

theorem cleanupCall_published (r : Render) (channel pc : Option Nat) (w : World) :
    (cleanupCall r channel pc w).published = w.published := by
  rw [cleanupCall_eq]
  have := published_append_silent w
    (w.streamTracks.map Event.stop ++ closeEvents pc w.pcs ++ removeEvents channel) (by
      intro e he c m
      simp only [List.mem_append, List.mem_map] at he
      rcases he with (⟨t, _, rfl⟩ | he) | he
      · simp
      · unfold closeEvents at he
        split at he
        · simp at he
        · split at he
          · simp at he
          · split at he <;> simp at he
            subst he
            simp
      · cases channel <;> simp [removeEvents] at he
        subst he
        simp)
  simpa [World.published, List.append_assoc] using this

theorem cleanupCall_live (r : Render) (channel pc : Option Nat) (w : World)
    (h : ∀ t ∈ w.live, t ∈ w.streamTracks) : (cleanupCall r channel pc w).live = [] := by
  rw [cleanupCall_eq]
  simp only [List.filter_eq_nil_iff]
  intro t ht
  simp [h t ht]

theorem cleanupCall_closed (r : Render) (channel : Option Nat) (i : Nat) (p : RTCPeerConnection)
    (w : World) (hp : w.pcs[i]? = some p) :
    ((cleanupCall r channel (some i) w).pcs[i]?).map (fun q => q.connectionState) = some .closed := by
  have hlt : i < w.pcs.length := (List.getElem?_eq_some.mp hp).1
  rw [cleanupCall_eq]
  simp [closedPcs, hp, List.getElem?_set_self hlt]

/-- C10.  User A, whose channel is joined, hangs up, and peer B handles the
hangup broadcast.  A publishes exactly one message, `hangup` with no payload,
and B publishes nothing.  Both had their live tracks in the local and remote
streams of their video elements; afterwards neither has a live track, and the
peer connection of each is in state `closed`. -/
theorem C10_hangup_ends_both_sessions (a b : World) (env : EffectEnv) (c i j : Nat)
    (pa pb : RTCPeerConnection)
    (hac : a.state.supabaseChannel = some c) (haj : a.channelState c = some .joined)
    (hai : a.state.pc = some i) (hap : a.pcs[i]? = some pa)
    (halive : ∀ t ∈ a.live, t ∈ a.streamTracks)
    (hbj : env.peerConnection = some j) (hbp : b.pcs[j]? = some pb)
    (hblive : ∀ t ∈ b.live, t ∈ b.streamTracks) :
    (hangupCall a.state a).published = a.published ++ [(c, .hangup)] ∧
    (handleHangup env b).published = b.published ∧
    (hangupCall a.state a).live = [] ∧
    (handleHangup env b).live = [] ∧
    ((hangupCall a.state a).pcs[i]?).map (fun q => q.connectionState) = some .closed ∧
    ((handleHangup env b).pcs[j]?).map (fun q => q.connectionState) = some .closed := by
  have hsend : hangupCall a.state a = cleanupCall a.state (some c) (some i) (a.log (.send c .hangup)) := by
    simp [hangupCall, hac, haj, hai]
  refine ⟨?_, ?_, ?_, ?_, ?_, ?_⟩
  · rw [hsend, cleanupCall_published]
    simp [World.published, World.log, List.filterMap_append]
  · rw [handleHangup, cleanupCall_published]
  · rw [hsend]
    exact cleanupCall_live _ _ _ _ halive
  · rw [handleHangup]
    exact cleanupCall_live _ _ _ _ hblive
  · rw [hsend]
    exact cleanupCall_closed _ _ i pa _ hap
  · rw [handleHangup, hbj]
    exact cleanupCall_closed _ _ j pb _ hbp

/-! ## Attaching tracks and starting the call -/

theorem callPc_ok {w : World} {e : Event} {i : Nat} {f : RTCPeerConnection → Option RTCPeerConnection}
    {p q : RTCPeerConnection} (hp : w.pcs[i]? = some p) (hf : f p = some q) :
    w.callPc e i f = .ok { w with pcs := w.pcs.set i q, trace := w.trace ++ [e] } := by
  simp [World.callPc, World.log, hp, hf]

theorem addMissingTracks_open (i : Nat) (stream : MediaStream) (w : World) (p : RTCPeerConnection)
    (hp : w.pcs[i]? = some p) (hopen : p.connectionState ≠ .closed) :
    addMissingTracks i stream w =
      .ok { w with pcs := w.pcs.set i { p with senders := attachedSenders p.senders stream },
                   trace := w.trace ++ attachCalls i p.senders stream } := by
  induction stream generalizing w p with
  | nil =>
    have : w.pcs.set i p = w.pcs := set_closed_self hp
    simp [addMissingTracks, attachedSenders, attachCalls, this]
  | cons t rest ih =>
    have hlt : i < w.pcs.length := (List.getElem?_eq_some.mp hp).1
    by_cases hs : p.senders.any (fun sender => sender.track = some t) = true
    · have hs2 : p.hasSender t = true := hs
      rw [addMissingTracks]
      simp only [hp, Option.map_some', hs2, if_true]
      rw [ih w p hp hopen]
      simp [attachedSenders, attachCalls, hs]
    · have hs2 : p.hasSender t = false := by simpa [RTCPeerConnection.hasSender] using hs
      rw [addMissingTracks]
      simp only [hp, Option.map_some', hs2]
      have hadd : p.addTrack t = some { p with senders := p.senders ++ [{ track := some t }] } := by
        simp [RTCPeerConnection.addTrack, hopen, hs2]
      rw [World.addTrack, callPc_ok hp hadd]
      simp only [Option.some.injEq, Bool.false_eq_true, if_false]
      rw [ih _ { p with senders := p.senders ++ [{ track := some t }] } (List.getElem?_set_self hlt) hopen]
      simp [attachedSenders, attachCalls, hs, List.set_set]

theorem any_sender_iff (senders : List RTCRtpSender) (t : TrackId) :
    senders.any (fun sender => sender.track = some t) = true ↔
      ({ track := some t } : RTCRtpSender) ∈ senders := by
  simp only [List.any_eq_true, decide_eq_true_eq]
  constructor
  · rintro ⟨x, hx, hxt⟩
    cases x
    simp_all
  · intro h
    exact ⟨_, h, rfl⟩

theorem count_attachedSenders (senders : List RTCRtpSender) (stream : MediaStream) (t : TrackId) :
    (attachedSenders senders stream).count { track := some t } =
      if ({ track := some t } : RTCRtpSender) ∈ senders then senders.count { track := some t }
      else if t ∈ stream then 1 else 0 := by
  induction stream generalizing senders with
  | nil =>
    by_cases h : ({ track := some t } : RTCRtpSender) ∈ senders
    · simp [attachedSenders, h]
    · simp [attachedSenders, h, List.count_eq_zero.mpr h]
  | cons u rest ih =>
    by_cases hu : senders.any (fun sender => sender.track = some u) = true
    · rw [attachedSenders, if_pos hu, ih]
      have hmem := (any_sender_iff senders u).mp hu
      by_cases h : ({ track := some t } : RTCRtpSender) ∈ senders
      · simp [h]
      · have hne : t ≠ u := by
          rintro rfl
          exact h hmem
        simp [h, hne]
    · rw [attachedSenders, if_neg hu, ih]
      have hnot : ({ track := some u } : RTCRtpSender) ∉ senders := fun h =>
        hu ((any_sender_iff senders u).mpr h)
      by_cases htu : t = u
      · subst htu
        simp [hnot, List.count_append, List.count_eq_zero.mpr hnot]
      · have hne : ({ track := some t } : RTCRtpSender) ≠ { track := some u } := by
          simp [htu]
        have hne2 : ({ track := some u } : RTCRtpSender) ≠ { track := some t } := fun h => hne h.symm
        by_cases h : ({ track := some t } : RTCRtpSender) ∈ senders
        · simp [h, List.count_append, List.count_cons, hne2]
        · simp [h, htu, hne]

theorem count_attachedSenders_twice (senders : List RTCRtpSender) (stream : MediaStream) (t : TrackId)
    (ht : t ∈ stream) (hle : senders.count { track := some t } ≤ 1) :
    (attachedSenders senders stream).count { track := some t } = 1 ∧
    (attachedSenders (attachedSenders senders stream) stream).count { track := some t } = 1 := by
  have h1 : (attachedSenders senders stream).count { track := some t } = 1 := by
    rw [count_attachedSenders]
    by_cases h : ({ track := some t } : RTCRtpSender) ∈ senders
    · have := List.count_pos_iff.mpr h
      simp [h]
      omega
    · simp [h, ht]
  refine ⟨h1, ?_⟩
  rw [count_attachedSenders]
  have hmem : ({ track := some t } : RTCRtpSender) ∈ attachedSenders senders stream :=
    List.count_pos_iff.mp (by omega)
  simp [hmem, h1]

theorem startWebcam_ok (r : Render) (stream : MediaStream) (i : Nat) (p : RTCPeerConnection) (w : World)
    (hr : r.pc = some i) (hp : w.pcs[i]? = some p) (hopen : p.connectionState ≠ .closed) :
    startWebcam r (some stream) w =
      { w with pcs := w.pcs.set i { p with senders := attachedSenders p.senders stream },
               live := w.live ++ stream,
               localSrcObject := if w.refsAttached then some stream else w.localSrcObject,
               state := { w.state with isWebcamStarted := true },
               trace := w.trace ++ .getUserMedia true :: attachCalls i p.senders stream } := by
  unfold startWebcam startWebcamTry
  simp only [hr, World.getUserMedia, bind, Except.bind, pure, Except.pure]
  by_cases hrefs : w.refsAttached = true
  · simp only [hrefs, if_true]
    rw [addMissingTracks_open i stream _ p ?_ hopen]
    · simp [World.setIsWebcamStarted]
    · exact hp
  · simp only [hrefs, Bool.false_eq_true, if_false]
    rw [addMissingTracks_open i stream _ p ?_ hopen]
    · simp [World.setIsWebcamStarted]
    · exact hp

theorem attachLocalTracks_open (i : Nat) (w : World) (p : RTCPeerConnection)
    (hp : w.pcs[i]? = some p) (hopen : p.connectionState ≠ .closed) :
    attachLocalTracks i w =
      .ok { w with pcs := w.pcs.set i { p with senders := attachedSenders p.senders (w.localStream.getD []) },
                   trace := w.trace ++ attachCalls i p.senders (w.localStream.getD []) } := by
  unfold attachLocalTracks
  cases hl : w.localStream with
  | none =>
    have : w.pcs.set i p = w.pcs := set_closed_self hp
    simp [attachedSenders, attachCalls, this]
  | some stream => simp [addMissingTracks_open i stream w p hp hopen]

theorem startCall_ok (r : Render) (i c : Nat) (p : RTCPeerConnection) (w : World)
    (hr : r.pc = some i) (hweb : r.isWebcamStarted = true) (hch : r.supabaseChannel = some c)
    (hj : w.channelState c = some .joined)
    (hp : w.pcs[i]? = some p) (hopen : p.connectionState ≠ .closed)
    (hsig : p.signalingState ≠ .haveRemoteOffer) :
    startCall r w =
      { w with pcs := w.pcs.set i
                 { p with senders := attachedSenders p.senders (w.localStream.getD []),
                          pendingLocalDescription := some { type := .offer, sdp := w.sdpCounter },
                          signalingState := .haveLocalOffer },
               sdpCounter := w.sdpCounter + 1,
               trace := w.trace ++ attachCalls i p.senders (w.localStream.getD []) ++
                 [.createOffer i, .setLocalDescription i { type := .offer, sdp := w.sdpCounter },
                  .send c (.offer { type := .offer, sdp := w.sdpCounter })] } := by
  have hlt : i < w.pcs.length := (List.getElem?_eq_some.mp hp).1
  have hguard : notReady r r.pc w = false := by simp [notReady, hr, hweb, hch, hj]
  unfold startCall startCallTry
  rw [hguard]
  simp only [hr, hch, Bool.false_eq_true, if_false, attachLocalTracks_open i w p hp hopen]
  cases hs : p.signalingState <;>
    first
    | exact absurd hs hsig
    | simp [bind, Except.bind, pure, Except.pure, World.createOffer, World.log,
        World.setLocalDescription, World.callPc, RTCPeerConnection.setLocalDescription,
        RTCPeerConnection.localDescription, List.getElem?_set_self hlt, List.set_set, hopen, hs]

theorem handleReceivedOffer_ok (r : Render) (offer : SessionDescription) (i c : Nat)
    (p : RTCPeerConnection) (w : World)
    (hweb : r.isWebcamStarted = true) (hch : r.supabaseChannel = some c)
    (hj : w.channelState c = some .joined)
    (hp : w.pcs[i]? = some p) (hopen : p.connectionState ≠ .closed)
    (hsig : p.signalingState = .stable) (hoffer : offer.type = .offer) :
    handleReceivedOffer r offer (some i) w =
      { w with pcs := w.pcs.set i
                 { p with senders := attachedSenders p.senders (w.localStream.getD []),
                          pendingLocalDescription := none,
                          pendingRemoteDescription := none,
                          currentLocalDescription := some { type := .answer, sdp := w.sdpCounter },
                          currentRemoteDescription := some offer,
                          signalingState := .stable },
               sdpCounter := w.sdpCounter + 1,
               trace := w.trace ++ attachCalls i p.senders (w.localStream.getD []) ++
                 [.setRemoteDescription i offer, .createAnswer i,
                  .setLocalDescription i { type := .answer, sdp := w.sdpCounter },
                  .send c (.answer { type := .answer, sdp := w.sdpCounter })] } := by
  have hlt : i < w.pcs.length := (List.getElem?_eq_some.mp hp).1
  have hguard : notReady r (some i) w = false := by simp [notReady, hweb, hch, hj]
  unfold handleReceivedOffer handleReceivedOfferTry
  rw [hguard]
  simp only [hch, Bool.false_eq_true, if_false, attachLocalTracks_open i w p hp hopen]
  simp [bind, Except.bind, pure, Except.pure, World.createAnswer, World.log,
      World.setLocalDescription, World.setRemoteDescription, World.callPc,
      RTCPeerConnection.setLocalDescription, RTCPeerConnection.setRemoteDescription,
      RTCPeerConnection.localDescription, List.getElem?_set_self hlt, List.set_set, hopen, hsig,
      hoffer]

theorem attachCalls_silent (i : Nat) (senders : List RTCRtpSender) (stream : MediaStream) :
    ∀ e ∈ attachCalls i senders stream, ∀ c m, e ≠ Event.send c m := by
  induction stream generalizing senders with
  | nil => simp [attachCalls]
  | cons t rest ih =>
    intro e he c m
    rw [attachCalls] at he
    split at he
    · exact ih _ e he c m
    · rcases List.mem_cons.mp he with rfl | he
      · simp
      · exact ih _ e he c m

/-- C7.  On an open connection with no negotiation under way, the tracks of a
captured stream are attached by `startWebcam` and the attach loop runs again
in `startCall` or in `handleReceivedOffer`.  After the first pass and after
either second pass, every track of the stream is carried by exactly one
sender of the connection. -/
theorem C7_tracks_attached_twice_appear_once (r r2 : Render) (offer : SessionDescription)
    (i c : Nat) (p : RTCPeerConnection) (stream : MediaStream) (w : World)
    (hr : r.pc = some i) (hp : w.pcs[i]? = some p) (hopen : p.connectionState ≠ .closed)
    (hstable : p.signalingState = .stable) (hrefs : w.refsAttached = true)
    (hsenders : ∀ t ∈ stream, p.senders.count { track := some t } ≤ 1)
    (hr2 : r2.pc = some i) (hweb : r2.isWebcamStarted = true) (hch : r2.supabaseChannel = some c)
    (hj : w.channelState c = some .joined) (hoffer : offer.type = .offer) :
    ∀ t ∈ stream,
      (startWebcam r (some stream) w).senderCount i t = 1 ∧
      (startCall r2 (startWebcam r (some stream) w)).senderCount i t = 1 ∧
      (handleReceivedOffer r2 offer (some i) (startWebcam r (some stream) w)).senderCount i t = 1 := by
  intro t ht
  have hlt : i < w.pcs.length := (List.getElem?_eq_some.mp hp).1
  have hcount := count_attachedSenders_twice p.senders stream t ht (hsenders t ht)
  have hw1 := startWebcam_ok r stream i p w hr hp hopen
  have hp1 : (startWebcam r (some stream) w).pcs[i]? =
      some { p with senders := attachedSenders p.senders stream } := by
    rw [hw1]
    exact List.getElem?_set_self hlt
  have hj1 : (startWebcam r (some stream) w).channelState c = some .joined := by
    rw [hw1]
    exact hj
  have hl1 : (startWebcam r (some stream) w).localStream = some stream := by
    rw [hw1]
    simp [World.localStream, hrefs]
  have hlt1 : i < (startWebcam r (some stream) w).pcs.length := (List.getElem?_eq_some.mp hp1).1
  refine ⟨?_, ?_, ?_⟩
  · simp [World.senderCount, hp1, hcount.1]
  · rw [startCall_ok r2 i c _ _ hr2 hweb hch hj1 hp1 hopen (by simp [hstable])]
    simp [World.senderCount, List.getElem?_set_self hlt1, hl1, hcount.2]
  · rw [handleReceivedOffer_ok r2 offer i c _ _ hweb hch hj1 hp1 hopen hstable hoffer]
    simp [World.senderCount, List.getElem?_set_self hlt1, hl1, hcount.2]

/-- Witness for C7: the joined participant of room r1 captures tracks 1 and 2. -/
theorem C7_tracks_attached_twice_appear_once_witness :
    (startWebcam scenarioJoined.state (some [1, 2]) scenarioJoined).senderCount 0 1 = 1 ∧
    (startCall scenarioReady.state
      (startWebcam scenarioJoined.state (some [1, 2]) scenarioJoined)).senderCount 0 1 = 1 ∧
    (handleReceivedOffer scenarioReady.state { type := .offer, sdp := 7 } (some 0)
      (startWebcam scenarioJoined.state (some [1, 2]) scenarioJoined)).senderCount 0 1 = 1 :=
  C7_tracks_attached_twice_appear_once scenarioJoined.state scenarioReady.state { type := .offer, sdp := 7 }
    0 0 { RTCPeerConnection.fresh with handlers := true } [1, 2] scenarioJoined
    rfl rfl (by decide) rfl rfl (by decide) rfl rfl rfl rfl rfl 1 (by decide)

/-- The mount effect names its channel after the room. -/
theorem mountEffect_channel_topic (r : Render) (roomId : String) (available : Bool) (w : World)
    (hroom : roomId ≠ "") :
    ((mountEffect r roomId available w).effect).map (fun env => env.channel) = some w.channels.length ∧
    ((mountEffect r roomId available w).channels[w.channels.length]?).map (fun ch => ch.topic) =
      some ("room-" ++ roomId) := by
  cases available <;>
    simp [mountEffect, hroom, initializePeerConnection, World.setPc, World.log]

/-- C8.  When the click handler's render has a peer connection, the webcam
flag set and a channel that is joined and named after room `roomId`, and the
connection is open with no remote offer pending, `startCall` runs the attach
loop, then `createOffer`, then `setLocalDescription` with that offer, then
one `send`: exactly one message is published, on that channel, and it is the
offer that is now the local description. -/
theorem C8_startCall_publishes_one_offer (roomId : String) (r : Render) (i c : Nat)
    (p : RTCPeerConnection) (ch : RealtimeChannel) (w : World)
    (hr : r.pc = some i) (hweb : r.isWebcamStarted = true) (hch : r.supabaseChannel = some c)
    (hc : w.channels[c]? = some ch) (htopic : ch.topic = "room-" ++ roomId) (hj : ch.state = .joined)
    (hp : w.pcs[i]? = some p) (hopen : p.connectionState ≠ .closed)
    (hsig : p.signalingState ≠ .haveRemoteOffer) :
    (startCall r w).trace =
      w.trace ++ attachCalls i p.senders (w.localStream.getD []) ++
        [.createOffer i, .setLocalDescription i { type := .offer, sdp := w.sdpCounter },
         .send c (.offer { type := .offer, sdp := w.sdpCounter })] ∧
    ((startCall r w).pcs[i]?).bind (fun q => q.localDescription) =
      some { type := .offer, sdp := w.sdpCounter } ∧
    (startCall r w).published = w.published ++ [(c, .offer { type := .offer, sdp := w.sdpCounter })] ∧
    ((startCall r w).channels[c]?).map (fun x => x.topic) = some ("room-" ++ roomId) := by
  have hlt : i < w.pcs.length := (List.getElem?_eq_some.mp hp).1
  have hjoined : w.channelState c = some .joined := by simp [World.channelState, hc, hj]
  rw [startCall_ok r i c p w hr hweb hch hjoined hp hopen hsig]
  refine ⟨rfl, ?_, ?_, ?_⟩
  · simp [List.getElem?_set_self hlt, RTCPeerConnection.localDescription]
  · have hsilent := published_append_silent w (attachCalls i p.senders (w.localStream.getD []))
      (attachCalls_silent i p.senders _)
    simp only [World.published, List.filterMap_append] at hsilent ⊢
    rw [hsilent]
    simp
  · simp [hc, htopic]

/-- Witness for C8: room r1, camera started with tracks 1 and 2, channel joined. -/
theorem C8_startCall_publishes_one_offer_witness :
    (startCall scenarioReady.state scenarioReady).published =
      scenarioReady.published ++ [(0, .offer { type := .offer, sdp := scenarioReady.sdpCounter })] :=
  (C8_startCall_publishes_one_offer "r1" scenarioReady.state 0 0
    { RTCPeerConnection.fresh with senders := [{ track := some 1 }, { track := some 2 }], handlers := true }
    { topic := "room-r1", state := .joined } scenarioReady
    rfl rfl rfl rfl (by decide) rfl rfl (by decide) (by decide)).2.2.1

theorem startCall_not_started (r : Render) (w : World) (hflag : r.isWebcamStarted = false) :
    startCall r w = w.log (.consoleWarn "Cannot start call: PC, webcam, or channel not ready.") := by
  simp [startCall, notReady, hflag]

/-- C9.  When `getUserMedia` rejects in `startWebcam`, the rejection is logged
and nothing else changes: the webcam flag stays false, no `addTrack` is
called and no stream is stored.  Any number of `startCall` clicks that follow
each add one warning and nothing else: no `createOffer`, and nothing is
published. -/
theorem C9_failed_capture_blocks_startCall (i n : Nat) (w : World)
    (hpc : w.state.pc = some i) (hflag : w.state.isWebcamStarted = false) :
    startWebcam w.state none w =
      { w with trace := w.trace ++ [.getUserMedia false, .consoleError "Error starting webcam:"] } ∧
    (startWebcam w.state none w).state.isWebcamStarted = false ∧
    Nat.iterate (fun v => startCall v.state v) n (startWebcam w.state none w) =
      { w with trace := w.trace ++ [.getUserMedia false, .consoleError "Error starting webcam:"] ++
          List.replicate n (.consoleWarn "Cannot start call: PC, webcam, or channel not ready.") } ∧
    (Nat.iterate (fun v => startCall v.state v) n (startWebcam w.state none w)).published = w.published := by
  have h1 : startWebcam w.state none w =
      { w with trace := w.trace ++ [.getUserMedia false, .consoleError "Error starting webcam:"] } := by
    simp [startWebcam, startWebcamTry, hpc, World.getUserMedia, World.log, bind, Except.bind]
  have h2 : Nat.iterate (fun v => startCall v.state v) n (startWebcam w.state none w) =
      { w with trace := w.trace ++ [.getUserMedia false, .consoleError "Error starting webcam:"] ++
          List.replicate n (.consoleWarn "Cannot start call: PC, webcam, or channel not ready.") } := by
    rw [h1]
    induction n with
    | zero => simp
    | succ k ih =>
      rw [Function.iterate_succ_apply', ih, startCall_not_started _ _ hflag]
      simp [World.log, List.replicate_succ']
  refine ⟨h1, ?_, h2, ?_⟩
  · rw [h1]
    exact hflag
  · rw [h2]
    have := published_append_silent w
      ([.getUserMedia false, .consoleError "Error starting webcam:"] ++
        List.replicate n (.consoleWarn "Cannot start call: PC, webcam, or channel not ready.")) (by
        intro e he c m
        simp only [List.mem_append, List.mem_cons, List.mem_singleton, List.mem_replicate,
          List.not_mem_nil, or_false] at he
        rcases he with (rfl | rfl) | ⟨_, rfl⟩ <;> simp)
    simpa [List.append_assoc] using this

/-- Witness for C9: the joined participant of room r1 is refused the camera, then clicks twice. -/
theorem C9_failed_capture_blocks_startCall_witness :
    (Nat.iterate (fun v => startCall v.state v) 2
      (startWebcam scenarioJoined.state none scenarioJoined)).published = scenarioJoined.published :=
  (C9_failed_capture_blocks_startCall 0 2 scenarioJoined rfl rfl).2.2.2

/-- Witness for C10: two participants of room r1 with the camera on; the first
has started the call and hangs up, the second handles the broadcast. -/
theorem C10_hangup_ends_both_sessions_witness :
    (hangupCall (step scenarioReady .clickStartCall).state (step scenarioReady .clickStartCall)).published =
      (step scenarioReady .clickStartCall).published ++ [(0, .hangup)] ∧
    (hangupCall (step scenarioReady .clickStartCall).state (step scenarioReady .clickStartCall)).live = [] ∧
    (handleHangup { render := World.initial.state, peerConnection := some 0, channel := 0, hasCleanup := true }
      scenarioReady).live = [] :=
  have h := C10_hangup_ends_both_sessions (step scenarioReady .clickStartCall) scenarioReady
    { render := World.initial.state, peerConnection := some 0, channel := 0, hasCleanup := true } 0 0 0
    { RTCPeerConnection.fresh with
      signalingState := .haveLocalOffer, pendingLocalDescription := some { type := .offer, sdp := 0 },
      senders := [{ track := some 1 }, { track := some 2 }], handlers := true }
    { RTCPeerConnection.fresh with senders := [{ track := some 1 }, { track := some 2 }], handlers := true }
    rfl rfl rfl rfl (by decide) rfl rfl (by decide)
  ⟨h.1, h.2.2.1, h.2.2.2.1⟩

/-! ## Calls that neither publish nor tear down -/

theorem set_self_of_getElem? {α : Type} {l : List α} {i : Nat} {a : α} (h : l[i]? = some a) :
    l.set i a = l := by
  apply List.ext_getElem?
  intro j
  rw [List.getElem?_set]
  by_cases hij : i = j
  · subst hij
    simp [h, (List.getElem?_eq_some.mp h).1]
  · simp [hij]

theorem Quiet.refl (w : World) : Quiet w w :=
  ⟨rfl, rfl, rfl, rfl, rfl, rfl, rfl, rfl, [], by simp, by simp⟩

theorem Quiet.trans {a b c : World} (hab : Quiet a b) (hbc : Quiet b c) : Quiet a c := by
  obtain ⟨e1, ht1, hq1⟩ := hab.trace
  obtain ⟨e2, ht2, hq2⟩ := hbc.trace
  refine ⟨hbc.channels.trans hab.channels, hbc.live.trans hab.live,
    hbc.refsAttached.trans hab.refsAttached, hbc.localSrcObject.trans hab.localSrcObject,
    hbc.remoteSrcObject.trans hab.remoteSrcObject, hbc.state.trans hab.state,
    hbc.effect.trans hab.effect, hbc.connectionStates.trans hab.connectionStates,
    e1 ++ e2, ?_, ?_⟩
  · rw [ht2, ht1, List.append_assoc]
  · intro e he
    rcases List.mem_append.mp he with h | h
    · exact hq1 e h
    · exact hq2 e h

theorem Quiet.log (w : World) (e : Event) (he : e.isQuiet = true) : Quiet w (w.log e) :=
  ⟨rfl, rfl, rfl, rfl, rfl, rfl, rfl, rfl, [e], rfl, by simpa using he⟩

theorem Quiet.published {w w' : World} (h : Quiet w w') : w'.published = w.published := by
  obtain ⟨events, ht, hq⟩ := h.trace
  have := published_append_silent w events (by
    intro e he c m hsend
    have := hq e he
    rw [hsend] at this
    simp [Event.isQuiet] at this)
  simpa [World.published, ht] using this

theorem Quiet.stopCalls {w w' : World} (h : Quiet w w') (t : TrackId) :
    w'.stopCalls t = w.stopCalls t := by
  obtain ⟨events, ht, hq⟩ := h.trace
  have hzero : events.count (.stop t) = 0 := by
    rw [List.count_eq_zero]
    intro hmem
    have := hq _ hmem
    simp [Event.isQuiet] at this
  simp [World.stopCalls, ht, List.count_append, hzero]

theorem Quiet.closeCalls {w w' : World} (h : Quiet w w') (i : Nat) :
    w'.closeCalls i = w.closeCalls i := by
  obtain ⟨events, ht, hq⟩ := h.trace
  have hzero : events.count (.close i) = 0 := by
    rw [List.count_eq_zero]
    intro hmem
    have := hq _ hmem
    simp [Event.isQuiet] at this
  simp [World.closeCalls, ht, List.count_append, hzero]

theorem callPc_quiet (w : World) (e : Event) (i : Nat)
    (f : RTCPeerConnection → Option RTCPeerConnection) (he : e.isQuiet = true)
    (hf : ∀ p q, f p = some q → q.connectionState = p.connectionState) :
    Quiet w (outcome (w.callPc e i f)) := by
  unfold World.callPc
  simp only [World.log]
  cases hp : w.pcs[i]? with
  | none => simpa [outcome, hp] using Quiet.log w e he
  | some p =>
    cases hq : f p with
    | none => simpa [outcome, hp, hq] using Quiet.log w e he
    | some q =>
      simp only [outcome, hp, hq]
      refine ⟨rfl, rfl, rfl, rfl, rfl, rfl, rfl, ?_, [e], rfl, by simpa using he⟩
      simp only [List.map_set, hf p q hq]
      exact set_self_of_getElem? (by simp [hp])

theorem addTrack_quiet (w : World) (i : Nat) (t : TrackId) : Quiet w (outcome (w.addTrack i t)) := by
  unfold World.addTrack
  refine callPc_quiet _ _ _ _ rfl ?_
  intro p q h
  unfold RTCPeerConnection.addTrack at h
  split at h
  · simp at h
  · split at h
    · simp at h
    · simp at h
      rw [← h]

theorem setLocalDescription_quiet (w : World) (i : Nat) (d : SessionDescription) :
    Quiet w (outcome (w.setLocalDescription i d)) := by
  unfold World.setLocalDescription
  refine callPc_quiet _ _ _ _ rfl ?_
  intro p q h
  unfold RTCPeerConnection.setLocalDescription at h
  split at h
  · simp at h
  · split at h <;> simp at h <;> rw [← h]

theorem setRemoteDescription_quiet (w : World) (i : Nat) (d : SessionDescription) :
    Quiet w (outcome (w.setRemoteDescription i d)) := by
  unfold World.setRemoteDescription
  refine callPc_quiet _ _ _ _ rfl ?_
  intro p q h
  unfold RTCPeerConnection.setRemoteDescription at h
  split at h
  · simp at h
  · split at h <;> simp at h <;> rw [← h]

theorem addIceCandidate_quiet (w : World) (i : Nat) (c : IceCandidate) :
    Quiet w (outcome (w.addIceCandidate i c)) := by
  unfold World.addIceCandidate
  refine callPc_quiet _ _ _ _ rfl ?_
  intro p q h
  unfold RTCPeerConnection.addIceCandidate at h
  split at h
  · simp at h
  · split at h <;> simp at h
    rw [← h]

theorem createOffer_quiet (w : World) (i : Nat) : Quiet w (outcomeOf (w.createOffer i)) := by
  unfold World.createOffer
  simp only [World.log]
  have hlog : Quiet w { w with trace := w.trace ++ [.createOffer i] } := Quiet.log w _ rfl
  have hok : Quiet w { w with trace := w.trace ++ [.createOffer i], sdpCounter := w.sdpCounter + 1 } :=
    ⟨rfl, rfl, rfl, rfl, rfl, rfl, rfl, rfl, [.createOffer i], rfl, by simp [Event.isQuiet]⟩
  cases hp : w.pcs[i]? with
  | none => simpa [outcomeOf, hp] using hlog
  | some p =>
    by_cases hc : p.connectionState = .closed
    · simpa [outcomeOf, hp, hc] using hlog
    · simpa [outcomeOf, hp, hc] using hok

theorem createAnswer_quiet (w : World) (i : Nat) : Quiet w (outcomeOf (w.createAnswer i)) := by
  unfold World.createAnswer
  simp only [World.log]
  have hlog : Quiet w { w with trace := w.trace ++ [.createAnswer i] } := Quiet.log w _ rfl
  have hok : Quiet w { w with trace := w.trace ++ [.createAnswer i], sdpCounter := w.sdpCounter + 1 } :=
    ⟨rfl, rfl, rfl, rfl, rfl, rfl, rfl, rfl, [.createAnswer i], rfl, by simp [Event.isQuiet]⟩
  cases hp : w.pcs[i]? with
  | none => simpa [outcomeOf, hp] using hlog
  | some p =>
    by_cases hc : p.connectionState = .closed
    · simpa [outcomeOf, hp, hc] using hlog
    · by_cases hs : p.signalingState = .haveRemoteOffer
      · simpa [outcomeOf, hp, hc, hs] using hok
      · simpa [outcomeOf, hp, hc, hs] using hlog

theorem addMissingTracks_quiet (i : Nat) (stream : MediaStream) (w : World) :
    Quiet w (outcome (addMissingTracks i stream w)) := by
  induction stream generalizing w with
  | nil => simpa [addMissingTracks, outcome] using Quiet.refl w
  | cons t rest ih =>
    rw [addMissingTracks]
    split
    · exact ih w
    · have h1 := addTrack_quiet w i t
      cases h : w.addTrack i t with
      | error w1 =>
        rw [h] at h1
        simpa [outcome] using h1
      | ok w1 =>
        rw [h] at h1
        exact Quiet.trans (by simpa [outcome] using h1) (ih w1)

theorem attachLocalTracks_quiet (i : Nat) (w : World) : Quiet w (outcome (attachLocalTracks i w)) := by
  unfold attachLocalTracks
  split
  · exact addMissingTracks_quiet i _ w
  · simpa [outcome] using Quiet.refl w

theorem startCallTry_cases (pc ch : Nat) (w : World) :
    (∃ w1, startCallTry pc ch w = .error w1 ∧ Quiet w w1) ∨
    (∃ w1 d, startCallTry pc ch w = .ok (w1.log (.send ch (.offer d))) ∧ Quiet w w1) := by
  unfold startCallTry
  simp only [bind, Except.bind, pure, Except.pure, throw, throwThe, MonadExceptOf.throw]
  have q1 := attachLocalTracks_quiet pc w
  cases h1 : attachLocalTracks pc w with
  | error w1 =>
    rw [h1] at q1
    exact Or.inl ⟨w1, rfl, q1⟩
  | ok w1 =>
    rw [h1] at q1
    have q2 := createOffer_quiet w1 pc
    cases h2 : w1.createOffer pc with
    | error w2 =>
      rw [h2] at q2
      exact Or.inl ⟨w2, by simp [h2], q1.trans q2⟩
    | ok v =>
      obtain ⟨d, w2⟩ := v
      rw [h2] at q2
      have q3 := setLocalDescription_quiet w2 pc d
      cases h3 : w2.setLocalDescription pc d with
      | error w3 =>
        rw [h3] at q3
        exact Or.inl ⟨w3, by simp [h2, h3], (q1.trans q2).trans q3⟩
      | ok w3 =>
        rw [h3] at q3
        cases h4 : (w3.pcs[pc]?).bind (fun p => p.localDescription) with
        | none => exact Or.inl ⟨w3, by simp [h2, h3, h4], (q1.trans q2).trans q3⟩
        | some d1 => exact Or.inr ⟨w3, d1, by simp [h2, h3, h4], (q1.trans q2).trans q3⟩

theorem handleReceivedOfferTry_cases (pc ch : Nat) (offer : SessionDescription) (w : World) :
    (∃ w1, handleReceivedOfferTry pc ch offer w = .error w1 ∧ Quiet w w1) ∨
    (∃ w1 d, handleReceivedOfferTry pc ch offer w = .ok (w1.log (.send ch (.answer d))) ∧ Quiet w w1) := by
  unfold handleReceivedOfferTry
  simp only [bind, Except.bind, pure, Except.pure, throw, throwThe, MonadExceptOf.throw]
  have q1 := attachLocalTracks_quiet pc w
  cases h1 : attachLocalTracks pc w with
  | error w1 =>
    rw [h1] at q1
    exact Or.inl ⟨w1, rfl, q1⟩
  | ok w1 =>
    rw [h1] at q1
    have q2 := setRemoteDescription_quiet w1 pc offer
    cases h2 : w1.setRemoteDescription pc offer with
    | error w2 =>
      rw [h2] at q2
      exact Or.inl ⟨w2, by simp [h2], q1.trans q2⟩
    | ok w2 =>
      rw [h2] at q2
      have q3 := createAnswer_quiet w2 pc
      cases h3 : w2.createAnswer pc with
      | error w3 =>
        rw [h3] at q3
        exact Or.inl ⟨w3, by simp [h2, h3], (q1.trans q2).trans q3⟩
      | ok v =>
        obtain ⟨d, w3⟩ := v
        rw [h3] at q3
        have q4 := setLocalDescription_quiet w3 pc d
        cases h4 : w3.setLocalDescription pc d with
        | error w4 =>
          rw [h4] at q4
          exact Or.inl ⟨w4, by simp [h2, h3, h4], ((q1.trans q2).trans q3).trans q4⟩
        | ok w4 =>
          rw [h4] at q4
          cases h5 : (w4.pcs[pc]?).bind (fun p => p.localDescription) with
          | none => exact Or.inl ⟨w4, by simp [h2, h3, h4, h5], ((q1.trans q2).trans q3).trans q4⟩
          | some d1 =>
            exact Or.inr ⟨w4, d1, by simp [h2, h3, h4, h5], ((q1.trans q2).trans q3).trans q4⟩

theorem notReady_false {r : Render} {pc : Option Nat} {w : World} (h : notReady r pc w = false) :
    ∃ i c, pc = some i ∧ r.isWebcamStarted = true ∧ r.supabaseChannel = some c ∧
      w.channelState c = some .joined := by
  unfold notReady at h
  cases pc with
  | none => simp at h
  | some i =>
    cases hc : r.supabaseChannel with
    | none => simp [hc] at h
    | some c =>
      simp [hc] at h
      exact ⟨i, c, rfl, h.1, rfl, h.2⟩

theorem startCall_cases (r : Render) (w : World) :
    Quiet w (startCall r w) ∨
    ∃ c w1 d, r.supabaseChannel = some c ∧ w.channelState c = some .joined ∧ Quiet w w1 ∧
      startCall r w = w1.log (.send c (.offer d)) := by
  unfold startCall
  by_cases hg : notReady r r.pc w = true
  · simp only [hg, if_true]
    exact Or.inl (Quiet.log w _ rfl)
  · have hg2 : notReady r r.pc w = false := by simpa using hg
    obtain ⟨i, c, hpc, _, hch, hj⟩ := notReady_false hg2
    rw [hpc] at hg2
    simp only [hpc, hg2, Bool.false_eq_true, if_false, hch]
    rcases startCallTry_cases i c w with ⟨w1, h, q⟩ | ⟨w1, d, h, q⟩
    · simp only [h]
      exact Or.inl (q.trans (Quiet.log w1 _ rfl))
    · simp only [h]
      exact Or.inr ⟨c, w1, d, rfl, hj, q, rfl⟩

theorem handleReceivedOffer_cases (r : Render) (offer : SessionDescription) (pc : Option Nat)
    (w : World) :
    Quiet w (handleReceivedOffer r offer pc w) ∨
    ∃ c w1 d, r.supabaseChannel = some c ∧ w.channelState c = some .joined ∧ Quiet w w1 ∧
      handleReceivedOffer r offer pc w = w1.log (.send c (.answer d)) := by
  unfold handleReceivedOffer
  by_cases hg : notReady r pc w = true
  · simp only [hg, if_true]
    exact Or.inl (Quiet.log w _ rfl)
  · have hg2 : notReady r pc w = false := by simpa using hg
    obtain ⟨i, c, hpc, _, hch, hj⟩ := notReady_false hg2
    subst hpc
    simp only [hg2, Bool.false_eq_true, if_false, hch]
    rcases handleReceivedOfferTry_cases i c offer w with ⟨w1, h, q⟩ | ⟨w1, d, h, q⟩
    · simp only [h]
      exact Or.inl (q.trans (Quiet.log w1 _ rfl))
    · simp only [h]
      exact Or.inr ⟨c, w1, d, rfl, hj, q, rfl⟩

theorem handleAnswer_quiet (env : EffectEnv) (payload : Payload) (w : World) :
    Quiet w (handleAnswer env payload w) := by
  unfold handleAnswer
  split
  · rename_i pc answer _ _
    split
    · have q := setRemoteDescription_quiet w pc answer
      cases h : w.setRemoteDescription pc answer with
      | ok w1 =>
        rw [h] at q
        exact q
      | error w1 =>
        rw [h] at q
        exact Quiet.trans q (Quiet.log w1 _ rfl)
    · exact Quiet.refl w
  · exact Quiet.refl w

theorem handleCandidate_quiet (env : EffectEnv) (payload : Payload) (w : World) :
    Quiet w (handleCandidate env payload w) := by
  unfold handleCandidate
  split
  · rename_i pc candidate _ _
    have q := addIceCandidate_quiet w pc candidate
    cases h : w.addIceCandidate pc candidate with
    | ok w1 =>
      rw [h] at q
      exact q
    | error w1 =>
      rw [h] at q
      exact Quiet.trans q (Quiet.log w1 _ rfl)
  · exact Quiet.refl w

theorem NoneOpened.of_eq {w w' : World} (hp : w'.pcs = w.pcs) (he : w'.effect = w.effect) :
    NoneOpened w w' := by
  refine ⟨by rw [hp], he, ?_⟩
  intro i q hq hopen
  exact ⟨q, by rw [← hp]; exact hq, hopen⟩

theorem NoneOpened.andThen {a b c : World} (hab : NoneOpened a b) (hbc : NoneOpened b c) :
    NoneOpened a c := by
  refine ⟨hbc.1.trans hab.1, hbc.2.1.trans hab.2.1, ?_⟩
  intro i q hq hopen
  obtain ⟨p, hp, hpo⟩ := hbc.2.2 i q hq hopen
  exact hab.2.2 i p hp hpo

theorem Quiet.noneOpened {w w' : World} (h : Quiet w w') : NoneOpened w w' := by
  have hlen : w'.pcs.length = w.pcs.length := by
    have := congrArg List.length h.connectionStates
    simpa using this
  refine ⟨hlen, h.effect, ?_⟩
  intro i q hq hopen
  have hi : i < w'.pcs.length := (List.getElem?_eq_some.mp hq).1
  have hi2 : i < w.pcs.length := hlen ▸ hi
  refine ⟨w.pcs[i], List.getElem?_eq_getElem hi2, ?_⟩
  have h1 : (w'.pcs.map (fun p => p.connectionState))[i]? = some q.connectionState := by
    simp [hq]
  rw [h.connectionStates] at h1
  simp [List.getElem?_eq_getElem hi2] at h1
  rw [h1]
  exact hopen

theorem cleanupCall_noneOpened (r : Render) (channel pc : Option Nat) (w : World) :
    NoneOpened w (cleanupCall r channel pc w) := by
  rw [cleanupCall_eq]
  refine ⟨?_, rfl, ?_⟩
  · cases pc with
    | none => rfl
    | some i => cases hp : w.pcs[i]? <;> simp [closedPcs, hp]
  · intro i q hq hopen
    cases pc with
    | none => exact ⟨q, hq, hopen⟩
    | some j =>
      simp only [closedPcs] at hq
      cases hp : w.pcs[j]? with
      | none =>
        rw [hp] at hq
        exact ⟨q, hq, hopen⟩
      | some p =>
        rw [hp] at hq
        simp only [List.getElem?_set] at hq
        by_cases hji : j = i
        · subst hji
          have hlt : j < w.pcs.length := (List.getElem?_eq_some.mp hp).1
          simp [hlt] at hq
          rw [← hq] at hopen
          simp at hopen
        · simp [hji] at hq
          exact ⟨q, hq, hopen⟩

theorem startWebcam_some_cases (r : Render) (i : Nat) (stream : MediaStream) (w : World)
    (hr : r.pc = some i) :
    ∃ w1, Quiet (w.captured stream) w1 ∧
      (startWebcam r (some stream) w = w1.setIsWebcamStarted true ∨
       startWebcam r (some stream) w = w1.log (.consoleError "Error starting webcam:")) := by
  unfold startWebcam startWebcamTry
  simp only [hr, World.getUserMedia, bind, Except.bind, pure, Except.pure]
  have hw : (if w.refsAttached = true then
      ({ w with live := w.live ++ stream, trace := w.trace ++ [.getUserMedia true],
                localSrcObject := some stream } : World)
      else { w with live := w.live ++ stream, trace := w.trace ++ [.getUserMedia true] }) =
      w.captured stream := by
    unfold World.captured
    split <;> rfl
  simp only [hw]
  have q := addMissingTracks_quiet i stream (w.captured stream)
  cases h : addMissingTracks i stream (w.captured stream) with
  | ok w1 =>
    rw [h] at q
    exact ⟨w1, q, Or.inl rfl⟩
  | error w1 =>
    rw [h] at q
    exact ⟨w1, q, Or.inr rfl⟩

theorem startWebcam_noneOpened (r : Render) (result : Option MediaStream) (w : World) :
    NoneOpened w (startWebcam r result w) ∧ (startWebcam r result w).published = w.published := by
  cases hr : r.pc with
  | none =>
    simp only [startWebcam, hr]
    exact ⟨NoneOpened.of_eq rfl rfl,
      (Quiet.log w (.consoleError "PeerConnection not initialized. Cannot start webcam.") rfl).published⟩
  | some i =>
    cases result with
    | none =>
      have : startWebcam r none w =
          (w.log (.getUserMedia false)).log (.consoleError "Error starting webcam:") := by
        simp [startWebcam, startWebcamTry, hr, World.getUserMedia, bind, Except.bind]
      rw [this]
      exact ⟨NoneOpened.of_eq rfl rfl,
        ((Quiet.log w (.getUserMedia false) rfl).trans
          (Quiet.log _ (.consoleError "Error starting webcam:") rfl)).published⟩
    | some stream =>
      obtain ⟨w1, q, h | h⟩ := startWebcam_some_cases r i stream w hr
      · rw [h]
        refine ⟨(NoneOpened.of_eq rfl rfl).andThen (q.noneOpened.andThen (NoneOpened.of_eq rfl rfl)), ?_⟩
        have hp := q.published
        have hc := published_append_silent w [.getUserMedia true] (by simp)
        simp only [World.published, World.setIsWebcamStarted, World.captured] at hp hc ⊢
        rw [hp, hc]
      · rw [h]
        refine ⟨(NoneOpened.of_eq rfl rfl).andThen (q.noneOpened.andThen (NoneOpened.of_eq rfl rfl)), ?_⟩
        have hp := (q.trans (Quiet.log w1 (.consoleError "Error starting webcam:") rfl)).published
        have hc := published_append_silent w [.getUserMedia true] (by simp)
        simp only [World.published, World.captured] at hp hc ⊢
        rw [hp, hc]

/-! ## Hangup received, and what may follow a teardown -/

/-- C11.  For every call state, handling a received hangup is `cleanupCall` for
the effect's channel and connection and nothing more: the tracks of the local
and remote streams are stopped and no longer live, the connection is closed,
the channel is released, the calls come in that order, and the list of
published messages is the same as before. -/
theorem C11_received_hangup_tears_down_and_publishes_nothing (env : EffectEnv) (w : World) :
    (handleHangup env w).published = w.published ∧
    (handleHangup env w).trace =
      w.trace ++ w.streamTracks.map Event.stop ++ closeEvents env.peerConnection w.pcs ++
        [.removeChannel env.channel] ∧
    (∀ t ∈ w.streamTracks, t ∉ (handleHangup env w).live) ∧
    (∀ i p, env.peerConnection = some i → w.pcs[i]? = some p →
      ((handleHangup env w).pcs[i]?).map (fun q => q.connectionState) = some .closed) ∧
    (∀ ch, w.channels[env.channel]? = some ch →
      (handleHangup env w).channelState env.channel = some .closed) := by
  refine ⟨cleanupCall_published _ _ _ _, ?_, ?_, ?_, ?_⟩
  · rw [handleHangup, cleanupCall_eq]
    rfl
  · intro t ht hmem
    rw [handleHangup, cleanupCall_eq] at hmem
    simp only [List.mem_filter, decide_eq_true_eq] at hmem
    exact hmem.2 ht
  · intro i p hpc hp
    rw [handleHangup, hpc]
    exact cleanupCall_closed _ _ i p _ hp
  · intro ch hch
    have hlt : env.channel < w.channels.length := (List.getElem?_eq_some.mp hch).1
    rw [handleHangup, cleanupCall_eq]
    simp [World.channelState, closedChannels, hch, List.getElem?_set_self hlt]

/-- Witness for C11: the participant of room r1 with the camera on handles a hangup. -/
theorem C11_received_hangup_tears_down_and_publishes_nothing_witness :
    (handleHangup { render := World.initial.state, peerConnection := some 0, channel := 0, hasCleanup := true }
      scenarioReady).published = scenarioReady.published ∧
    1 ∉ (handleHangup { render := World.initial.state, peerConnection := some 0, channel := 0, hasCleanup := true }
      scenarioReady).live :=
  ⟨(C11_received_hangup_tears_down_and_publishes_nothing _ scenarioReady).1,
    (C11_received_hangup_tears_down_and_publishes_nothing _ scenarioReady).2.2.1 1 (by decide)⟩

/-- C12 (failing input).  A participant with the camera on handles a hangup from
the peer: tracks 1 and 2 are stopped and the connection is closed.  The
`cleanupCall` that ran is the one of the mount render, where `pc` is null, so
`setPc(null)` is skipped and the Start Webcam button is enabled.  The click
captures tracks 3 and 4 and stores them in the local video element; `addTrack`
throws on the closed connection and is caught, and the tracks stay live.
After the user's own hangup the button is disabled and the click does nothing. -/
theorem C12_start_webcam_after_received_hangup_goes_live :
    scenarioRemoteHangup.live = [] ∧
    (scenarioRemoteHangup.pcs[0]?).map (fun p => p.connectionState) = some .closed ∧
    scenarioRemoteHangup.state.pc = some 0 ∧
    scenarioRemoteHangup.startWebcamButton = true ∧
    (step scenarioRemoteHangup (.clickStartWebcam (some [3, 4]))).live = [3, 4] ∧
    (step scenarioRemoteHangup (.clickStartWebcam (some [3, 4]))).localSrcObject = some [3, 4] ∧
    (step scenarioRemoteHangup (.clickStartWebcam (some [3, 4]))).stopCalls 3 = 0 ∧
    (run scenarioReady [.clickHangup]).startWebcamButton = false ∧
    (run scenarioReady [.clickHangup, .clickStartWebcam (some [3, 4])]).live = [] := by
  decide

/-! ## Connection state changes -/

/-- C13 (counterexample).  The connection of a participant with the camera on
moves to `failed`.  The callback logs its warning and that is all: no track
is stopped, `close()` is not called, the channel stays joined. -/
theorem C13_failed_connection_is_not_torn_down :
    (step scenarioReady (.connectionStateChange .failed)).trace =
      scenarioReady.trace ++ [.consoleWarn "PeerConnection state is failed. Cleaning up."] ∧
    (step scenarioReady (.connectionStateChange .failed)).live = [1, 2] ∧
    ((step scenarioReady (.connectionStateChange .failed)).pcs[0]?).map (fun p => p.connectionState) =
      some .failed ∧
    (step scenarioReady (.connectionStateChange .failed)).channelState 0 = some .joined := by
  decide

/-- C13 (amended).  When the connection state has become `failed` or `closed`,
the state-change callback logs one warning and changes nothing else: no
teardown is performed and nothing is published. -/
theorem C13_failed_connection_only_warns (env : EffectEnv) (i : Nat) (p : RTCPeerConnection)
    (w : World) (hpc : env.peerConnection = some i) (hp : w.pcs[i]? = some p)
    (hstate : p.connectionState = .failed ∨ p.connectionState = .closed) :
    onconnectionstatechange env w =
      w.log (.consoleWarn ("PeerConnection state is " ++ p.connectionState.text ++ ". Cleaning up.")) ∧
    (onconnectionstatechange env w).published = w.published := by
  have h : onconnectionstatechange env w =
      w.log (.consoleWarn ("PeerConnection state is " ++ p.connectionState.text ++ ". Cleaning up.")) := by
    rcases hstate with h | h <;> simp [onconnectionstatechange, hpc, hp, h]
  exact ⟨h, by rw [h]; exact (Quiet.log w (.consoleWarn _) rfl).published⟩

/-- Witness for C13 (amended): the browser has moved the connection of room r1 to `failed`. -/
theorem C13_failed_connection_only_warns_witness :
    (onconnectionstatechange scenarioEnv (scenarioInState .failed)).published =
      (scenarioInState .failed).published :=
  (C13_failed_connection_only_warns scenarioEnv 0
    { RTCPeerConnection.fresh with connectionState := .failed } (scenarioInState .failed)
    rfl rfl (Or.inl rfl)).2

/-- C14.  When the connection state has become `disconnected`, the state-change
callback logs one warning and performs no teardown: connections, channels,
live tracks, the streams of the video elements and the React state are what
they were, and nothing is published. -/
theorem C14_disconnected_connection_is_left_alone (env : EffectEnv) (i : Nat)
    (p : RTCPeerConnection) (w : World) (hpc : env.peerConnection = some i)
    (hp : w.pcs[i]? = some p) (hstate : p.connectionState = .disconnected) :
    onconnectionstatechange env w =
      { w with trace := w.trace ++ [.consoleWarn "PeerConnection state is disconnected. Cleaning up."] } ∧
    (onconnectionstatechange env w).pcs = w.pcs ∧
    (onconnectionstatechange env w).channels = w.channels ∧
    (onconnectionstatechange env w).live = w.live ∧
    (onconnectionstatechange env w).localSrcObject = w.localSrcObject ∧
    (onconnectionstatechange env w).remoteSrcObject = w.remoteSrcObject ∧
    (onconnectionstatechange env w).state = w.state ∧
    (onconnectionstatechange env w).published = w.published := by
  have h : onconnectionstatechange env w =
      { w with trace := w.trace ++ [.consoleWarn "PeerConnection state is disconnected. Cleaning up."] } := by
    simp [onconnectionstatechange, hpc, hp, hstate, World.log, ConnectionState.text]
  refine ⟨h, ?_, ?_, ?_, ?_, ?_, ?_, ?_⟩ <;> rw [h]
  exact published_append_silent w _ (by simp)

/-- Witness for C14: the browser has moved the connection of room r1 to `disconnected`. -/
theorem C14_disconnected_connection_is_left_alone_witness :
    (onconnectionstatechange scenarioEnv (scenarioInState .disconnected)).channels =
      (scenarioInState .disconnected).channels :=
  (C14_disconnected_connection_is_left_alone scenarioEnv 0
    { RTCPeerConnection.fresh with connectionState := .disconnected } (scenarioInState .disconnected)
    rfl rfl rfl).2.2.1

/-! ## Leaving the view and changing the room -/

theorem mountEffect_published (r : Render) (roomId : String) (available : Bool) (w : World) :
    (mountEffect r roomId available w).published = w.published := by
  by_cases hroom : roomId = ""
  · simp [mountEffect, hroom]
  · cases available
    · simp [mountEffect, hroom, initializePeerConnection, World.setPc, World.log, World.published]
    · simp [mountEffect, hroom, initializePeerConnection, World.setPc, World.published]

theorem mountEffect_pcs_old (r : Render) (roomId : String) (available : Bool) (w : World) (i : Nat)
    (hi : i < w.pcs.length) : (mountEffect r roomId available w).pcs[i]? = w.pcs[i]? := by
  by_cases hroom : roomId = ""
  · simp [mountEffect, hroom]
  · cases available
    · simp [mountEffect, hroom, initializePeerConnection, World.setPc, World.log]
    · have hne : w.pcs.length ≠ i := by omega
      simp [mountEffect, hroom, initializePeerConnection, World.setPc, List.getElem?_modify, hne,
        List.getElem?_append_left hi]

theorem mountEffect_channels_old (r : Render) (roomId : String) (available : Bool) (w : World)
    (c : Nat) (hc : c < w.channels.length) :
    (mountEffect r roomId available w).channels[c]? = w.channels[c]? := by
  by_cases hroom : roomId = ""
  · simp [mountEffect, hroom]
  · cases available <;>
      simp [mountEffect, hroom, initializePeerConnection, World.setPc, World.log,
        List.getElem?_append_left hc]

theorem unmount_eq (w : World) (env : EffectEnv) (heff : w.effect = some env)
    (hclean : env.hasCleanup = true) :
    unmount w =
      { cleanupCall env.render (some env.channel) env.peerConnection { w with refsAttached := false } with
        effect := none } := by
  simp [unmount, heff, hclean]

theorem changeRoom_eq (roomId : String) (available : Bool) (w : World) (env : EffectEnv)
    (heff : w.effect = some env) (hclean : env.hasCleanup = true) :
    changeRoom roomId available w =
      mountEffect w.state roomId available
        { cleanupCall env.render (some env.channel) env.peerConnection w with effect := none } := by
  simp [changeRoom, heff, hclean]

/-- C15 (counterexample).  A participant whose channel is joined leaves the view,
or moves to room r2: in both cases nothing has been published afterwards. -/
theorem C15_leaving_with_joined_channel_publishes_no_hangup :
    scenarioReady.channelState 0 = some .joined ∧
    (step scenarioReady .unmount).published = [] ∧
    (step scenarioReady (.changeRoom "r2" true)).published = [] := by
  decide

/-- C15 (amended).  When the view unmounts or its room id changes while an
effect with a cleanup function is running, `cleanupCall` runs for the effect's
connection and channel: the connection ends closed and the channel released,
and no message is published, whatever the state of the channel. -/
theorem C15_effect_cleanup_closes_and_publishes_nothing (roomId : String) (available : Bool)
    (w : World) (env : EffectEnv) (i : Nat) (p : RTCPeerConnection) (ch : RealtimeChannel)
    (heff : w.effect = some env) (hclean : env.hasCleanup = true)
    (hpc : env.peerConnection = some i) (hp : w.pcs[i]? = some p)
    (hch : w.channels[env.channel]? = some ch) :
    (unmount w).published = w.published ∧
    (changeRoom roomId available w).published = w.published ∧
    ((unmount w).pcs[i]?).map (fun q => q.connectionState) = some .closed ∧
    ((changeRoom roomId available w).pcs[i]?).map (fun q => q.connectionState) = some .closed ∧
    (unmount w).channelState env.channel = some .closed ∧
    (changeRoom roomId available w).channelState env.channel = some .closed := by
  have hlt : i < w.pcs.length := (List.getElem?_eq_some.mp hp).1
  have hclt : env.channel < w.channels.length := (List.getElem?_eq_some.mp hch).1
  have hpcs : ∀ v : World, v.pcs = w.pcs →
      ((cleanupCall env.render (some env.channel) env.peerConnection v).pcs[i]?).map
        (fun q => q.connectionState) = some .closed := by
    intro v hv
    rw [hpc]
    exact cleanupCall_closed _ _ i p v (by rw [hv]; exact hp)
  have hchs : ∀ v : World, v.channels = w.channels →
      ((cleanupCall env.render (some env.channel) env.peerConnection v).channels[env.channel]?).map
        (fun x => x.state) = some .closed := by
    intro v hv
    rw [cleanupCall_eq]
    simp [closedChannels, hv, hch, List.getElem?_set_self hclt]
  have hlen : ∀ v : World, v.pcs = w.pcs →
      (cleanupCall env.render (some env.channel) env.peerConnection v).pcs.length = w.pcs.length := by
    intro v hv
    rw [(cleanupCall_noneOpened _ _ _ v).1, hv]
  have hclen : ∀ v : World, v.channels = w.channels →
      (cleanupCall env.render (some env.channel) env.peerConnection v).channels.length =
        w.channels.length := by
    intro v hv
    rw [cleanupCall_eq]
    simp [closedChannels, hv, hch]
  rw [unmount_eq w env heff hclean, changeRoom_eq roomId available w env heff hclean]
  refine ⟨?_, ?_, ?_, ?_, ?_, ?_⟩
  · exact cleanupCall_published _ _ _ { w with refsAttached := false }
  · rw [mountEffect_published]
    exact cleanupCall_published _ _ _ w
  · exact hpcs { w with refsAttached := false } rfl
  · rw [mountEffect_pcs_old _ _ _ _ i (by rw [show _ = w.pcs.length from hlen w rfl]; exact hlt)]
    exact hpcs w rfl
  · exact hchs { w with refsAttached := false } rfl
  · unfold World.channelState
    rw [mountEffect_channels_old _ _ _ _ env.channel
      (by rw [show _ = w.channels.length from hclen w rfl]; exact hclt)]
    exact hchs w rfl

/-- Witness for C15 (amended): the participant of room r1 with the camera on. -/
theorem C15_effect_cleanup_closes_and_publishes_nothing_witness :
    (unmount scenarioReady).published = scenarioReady.published ∧
    (changeRoom "r2" true scenarioReady).published = scenarioReady.published :=
  have h := C15_effect_cleanup_closes_and_publishes_nothing "r2" true scenarioReady scenarioEnv 0
    { RTCPeerConnection.fresh with senders := [{ track := some 1 }, { track := some 2 }], handlers := true }
    { topic := "room-r1", state := .joined } rfl rfl rfl rfl rfl
  ⟨h.1, h.2.1⟩

/-! ## Failures -/

/-- C16 (counterexample).  An answer reaches a participant who has no offer
outstanding: `setRemoteDescription` rejects, the rejection is logged, and the
call is not torn down: the connection is not closed, the tracks are live and
the channel is joined. -/
theorem C16_rejected_answer_is_not_torn_down :
    (step scenarioReady
        (.answer { offer := none, answer := some { type := .answer, sdp := 5 }, candidate := none })).trace =
      scenarioReady.trace ++
        [.setRemoteDescription 0 { type := .answer, sdp := 5 },
         .consoleError "Error setting remote description (answer):"] ∧
    ((step scenarioReady
        (.answer { offer := none, answer := some { type := .answer, sdp := 5 }, candidate := none })).pcs[0]?).map
      (fun p => p.connectionState) = some .new ∧
    (step scenarioReady
        (.answer { offer := none, answer := some { type := .answer, sdp := 5 }, candidate := none })).live =
      [1, 2] ∧
    (step scenarioReady
        (.answer { offer := none, answer := some { type := .answer, sdp := 5 }, candidate := none })).channelState 0 =
      some .joined := by
  decide

/-- C16 (amended).  When a step of the `try` block of `startCall` or of
`handleReceivedOffer` fails, or `setRemoteDescription` rejects in
`handleAnswer`, the failure is logged with `console.error` and that ends the
handler.  No teardown is performed: no track is stopped, no connection is
closed, no channel is released, and the channels, live tracks, streams,
connection states and React state are what they were. -/
theorem C16_failed_negotiation_is_logged_without_teardown (r : Render) (env : EffectEnv)
    (payload : Payload) (description : SessionDescription) (i c : Nat) (w w1 : World) :
    (notReady r r.pc w = false → r.pc = some i → r.supabaseChannel = some c →
      startCallTry i c w = .error w1 →
      startCall r w = w1.log (.consoleError "Error creating or sending offer:") ∧
      Quiet w (startCall r w)) ∧
    (notReady r (some i) w = false → r.supabaseChannel = some c →
      handleReceivedOfferTry i c description w = .error w1 →
      handleReceivedOffer r description (some i) w =
        w1.log (.consoleError "Error handling received offer or sending answer:") ∧
      Quiet w (handleReceivedOffer r description (some i) w)) ∧
    (env.peerConnection = some i → payload.answer = some description →
      (w.pcs[i]?).bind (fun p => p.currentRemoteDescription) = none →
      w.setRemoteDescription i description = .error w1 →
      handleAnswer env payload w = w1.log (.consoleError "Error setting remote description (answer):") ∧
      Quiet w (handleAnswer env payload w)) := by
  refine ⟨?_, ?_, ?_⟩
  · intro hg hpc hch hfail
    have h : startCall r w = w1.log (.consoleError "Error creating or sending offer:") := by
      rw [hpc] at hg
      simp [startCall, hpc, hg, hch, hfail]
    refine ⟨h, ?_⟩
    rcases startCallTry_cases i c w with ⟨w2, h2, q⟩ | ⟨w2, d, h2, _⟩
    · rw [hfail] at h2
      cases h2
      rw [h]
      exact q.trans (Quiet.log w1 (.consoleError _) rfl)
    · rw [hfail] at h2
      cases h2
  · intro hg hch hfail
    have h : handleReceivedOffer r description (some i) w =
        w1.log (.consoleError "Error handling received offer or sending answer:") := by
      simp [handleReceivedOffer, hg, hch, hfail]
    refine ⟨h, ?_⟩
    rcases handleReceivedOfferTry_cases i c description w with ⟨w2, h2, q⟩ | ⟨w2, d, h2, _⟩
    · rw [hfail] at h2
      cases h2
      rw [h]
      exact q.trans (Quiet.log w1 (.consoleError _) rfl)
    · rw [hfail] at h2
      cases h2
  · intro hpc hanswer hnone hfail
    have h : handleAnswer env payload w =
        w1.log (.consoleError "Error setting remote description (answer):") := by
      simp [handleAnswer, hpc, hanswer, hnone, hfail]
    exact ⟨h, handleAnswer_quiet env payload w⟩

/-- Witness for C16 (amended): an answer with no offer outstanding in room r1. -/
theorem C16_failed_negotiation_is_logged_without_teardown_witness :
    Quiet scenarioReady
      (handleAnswer scenarioEnv
        { offer := none, answer := some { type := .answer, sdp := 5 }, candidate := none } scenarioReady) :=
  ((C16_failed_negotiation_is_logged_without_teardown scenarioReady.state scenarioEnv
    { offer := none, answer := some { type := .answer, sdp := 5 }, candidate := none }
    { type := .answer, sdp := 5 } 0 0 scenarioReady
    (scenarioReady.log (.setRemoteDescription 0 { type := .answer, sdp := 5 }))).2.2
      rfl rfl rfl rfl).2

/-- C17 (failing input).  The view mounts in room r1 and the constructor of the
peer connection throws.  `initializePeerConnection` logs and returns null, the
channel is created and subscribed, and the assignment
`peerConnection.ontrack = ...` then throws a TypeError that nothing catches:
the effect body ends with an uncaught exception and returns no cleanup. -/
theorem C17_mount_with_failed_constructor_throws :
    (step World.initial (.mount "r1" false)).trace =
      [.consoleError "Error creating RTCPeerConnection:",
       .uncaught "TypeError: Cannot set properties of null (setting ontrack)"] ∧
    ((step World.initial (.mount "r1" false)).effect).map (fun env => env.hasCleanup) = some false ∧
    ((step World.initial (.mount "r1" false)).channels[0]?).map (fun ch => ch.topic) = some "room-r1" := by
  decide

/-! ## Capturing again -/

/-- C19 (counterexample).  After a hangup from the peer the user starts the
webcam twice.  The second capture replaces the stream of the first in the
local video element, and tracks 3 and 4 of the first capture are never stopped
and stay live. -/
theorem C19_second_capture_leaves_first_tracks_live :
    (step scenarioRemoteHangup (.clickStartWebcam (some [3, 4]))).localSrcObject = some [3, 4] ∧
    (step scenarioRemoteHangup (.clickStartWebcam (some [3, 4]))).startWebcamButton = true ∧
    (run scenarioRemoteHangup
      [.clickStartWebcam (some [3, 4]), .clickStartWebcam (some [5, 6])]).localSrcObject = some [5, 6] ∧
    (run scenarioRemoteHangup
      [.clickStartWebcam (some [3, 4]), .clickStartWebcam (some [5, 6])]).live = [3, 4, 5, 6] ∧
    (run scenarioRemoteHangup
      [.clickStartWebcam (some [3, 4]), .clickStartWebcam (some [5, 6])]).stopCalls 3 = 0 ∧
    (run scenarioRemoteHangup
      [.clickStartWebcam (some [3, 4]), .clickStartWebcam (some [5, 6])]).stopCalls 4 = 0 := by
  decide

/-- C19 (amended).  Whenever `startWebcam` captures a stream, the stream
replaces whatever the local video element held, every track that was live
before is still live, and `startWebcam` calls `stop()` on no track. -/
theorem C19_capture_replaces_without_stopping (r : Render) (i : Nat) (stream : MediaStream)
    (w : World) (hr : r.pc = some i) :
    (startWebcam r (some stream) w).live = w.live ++ stream ∧
    (∀ t, (startWebcam r (some stream) w).stopCalls t = w.stopCalls t) ∧
    (w.refsAttached = true → (startWebcam r (some stream) w).localSrcObject = some stream) := by
  obtain ⟨w1, q, h | h⟩ := startWebcam_some_cases r i stream w hr
  · rw [h]
    refine ⟨q.live, ?_, ?_⟩
    · intro t
      have := q.stopCalls t
      simpa [World.stopCalls, World.setIsWebcamStarted, World.captured, List.count_append] using this
    · intro hrefs
      have := q.localSrcObject
      simpa [World.setIsWebcamStarted, World.captured, hrefs] using this
  · rw [h]
    refine ⟨q.live, ?_, ?_⟩
    · intro t
      have := q.stopCalls t
      simpa [World.stopCalls, World.log, World.captured, List.count_append] using this
    · intro hrefs
      have := q.localSrcObject
      simpa [World.log, World.captured, hrefs] using this

/-- Witness for C19 (amended): a second capture by the participant of room r1. -/
theorem C19_capture_replaces_without_stopping_witness :
    (startWebcam scenarioReady.state (some [3, 4]) scenarioReady).live = scenarioReady.live ++ [3, 4] :=
  (C19_capture_replaces_without_stopping scenarioReady.state 0 [3, 4] scenarioReady rfl).1

/-! ## What one action can publish -/

theorem published_log_send (w : World) (c : Nat) (m : SignalingMessage) :
    (w.log (.send c m)).published = w.published ++ [(c, m)] := by
  simp [World.published, World.log, List.filterMap_append]

theorem hangupCall_published (r : Render) (w : World) :
    (hangupCall r w).published = w.published ∨
    ∃ c, r.supabaseChannel = some c ∧ w.channelState c = some .joined ∧
      (hangupCall r w).published = w.published ++ [(c, .hangup)] := by
  unfold hangupCall
  cases hc : r.supabaseChannel with
  | none => exact Or.inl (cleanupCall_published _ _ _ _)
  | some c =>
    by_cases hj : w.channelState c = some .joined
    · refine Or.inr ⟨c, rfl, hj, ?_⟩
      simp only [hj, if_true]
      rw [cleanupCall_published, published_log_send]
    · simp only [hj, if_false]
      exact Or.inl (cleanupCall_published _ _ _ _)

theorem subscribeCallback_published (env : EffectEnv) (status : SubscribeStatus) (w : World) :
    (subscribeCallback env status w).published = w.published := by
  cases status <;> simp [subscribeCallback, World.setSupabaseChannel, World.log, World.published]

theorem unmount_published (w : World) : (unmount w).published = w.published := by
  unfold unmount
  simp only
  cases he : w.effect with
  | none => rfl
  | some env =>
    by_cases hc : env.hasCleanup = true
    · simp only [hc, if_true]
      have h := cleanupCall_published env.render (some env.channel) env.peerConnection
        { w with refsAttached := false, effect := some env }
      simp only [World.published] at h ⊢
      exact h
    · simp [hc, World.published]

theorem changeRoom_published (roomId : String) (available : Bool) (w : World) :
    (changeRoom roomId available w).published = w.published := by
  unfold changeRoom
  rw [mountEffect_published]
  cases he : w.effect with
  | none => rfl
  | some env =>
    by_cases hc : env.hasCleanup = true
    · simp only [hc, if_true]
      have h := cleanupCall_published env.render (some env.channel) env.peerConnection w
      simp only [World.published] at h ⊢
      exact h
    · simp [hc, World.published]

theorem onconnectionstatechange_eq (env : EffectEnv) (w : World) :
    onconnectionstatechange env w = w ∨
    ∃ text, onconnectionstatechange env w = w.log (.consoleWarn text) := by
  unfold onconnectionstatechange
  split
  · exact Or.inl rfl
  · split
    · exact Or.inr ⟨_, rfl⟩
    · exact Or.inl rfl

theorem step_published (w : World) (a : Action) :
    (step w a).published = w.published ∨
    ∃ c m, (step w a).published = w.published ++ [(c, m)] ∧ w.channelState c = some .joined := by
  cases a with
  | mount roomId available => exact Or.inl (mountEffect_published _ _ _ _)
  | unmount => exact Or.inl (unmount_published w)
  | changeRoom roomId available => exact Or.inl (changeRoom_published _ _ w)
  | subscribeStatus status =>
    simp only [step]
    cases w.effect with
    | none => exact Or.inl rfl
    | some env => exact Or.inl (subscribeCallback_published env status w)
  | clickStartWebcam result =>
    simp only [step]
    split
    · exact Or.inl (startWebcam_noneOpened _ _ _).2
    · exact Or.inl rfl
  | clickStartCall =>
    simp only [step]
    split
    · rcases startCall_cases w.state w with q | ⟨c, w1, d, _, hj, q, h⟩
      · exact Or.inl q.published
      · exact Or.inr ⟨c, .offer d, by rw [h, published_log_send, q.published], hj⟩
    · exact Or.inl rfl
  | clickHangup =>
    simp only [step]
    split
    · rcases hangupCall_published w.state w with h | ⟨c, _, hj, h⟩
      · exact Or.inl h
      · exact Or.inr ⟨c, .hangup, h, hj⟩
    · exact Or.inl rfl
  | offer payload =>
    simp only [step, World.deliver]
    cases w.effect with
    | none => exact Or.inl rfl
    | some env =>
      simp only
      split
      · unfold handleOffer
        split
        · rename_i description _ _
          rcases handleReceivedOffer_cases env.render description env.peerConnection w with
            q | ⟨c, w1, d, _, hj, q, h⟩
          · exact Or.inl q.published
          · exact Or.inr ⟨c, .answer d, by rw [h, published_log_send, q.published], hj⟩
        · exact Or.inl rfl
      · exact Or.inl rfl
  | answer payload =>
    simp only [step, World.deliver]
    cases w.effect with
    | none => exact Or.inl rfl
    | some env =>
      simp only
      split
      · exact Or.inl (handleAnswer_quiet env payload w).published
      · exact Or.inl rfl
  | candidate payload =>
    simp only [step, World.deliver]
    cases w.effect with
    | none => exact Or.inl rfl
    | some env =>
      simp only
      split
      · exact Or.inl (handleCandidate_quiet env payload w).published
      · exact Or.inl rfl
  | hangup =>
    simp only [step, World.deliver]
    cases w.effect with
    | none => exact Or.inl rfl
    | some env =>
      simp only
      split
      · exact Or.inl (cleanupCall_published _ _ _ _)
      · exact Or.inl rfl
  | track stream =>
    simp only [step]
    cases w.effect with
    | none => exact Or.inl rfl
    | some env =>
      simp only
      split
      · unfold ontrack
        split <;> exact Or.inl rfl
      · exact Or.inl rfl
  | icecandidate candidate =>
    simp only [step]
    cases w.listeningPc with
    | none => exact Or.inl rfl
    | some v =>
      obtain ⟨env, i, p⟩ := v
      simp only [onicecandidate]
      cases candidate with
      | none => exact Or.inl rfl
      | some c =>
        simp only
        split
        · rename_i hj
          exact Or.inr ⟨env.channel, .candidate c, published_log_send _ _ _, hj⟩
        · exact Or.inl rfl
  | connectionStateChange next =>
    simp only [step]
    cases w.listeningPc with
    | none => exact Or.inl rfl
    | some v =>
      obtain ⟨env, i, p⟩ := v
      simp only
      split
      · exact Or.inl rfl
      · rcases onconnectionstatechange_eq env
          { w with pcs := w.pcs.set i { p with connectionState := next } } with h | ⟨text, h⟩
        · rw [h]
          exact Or.inl rfl
        · rw [h]
          exact Or.inl (Quiet.log _ (.consoleWarn text) rfl).published

theorem notReady_of_not_joined (r : Render) (pc : Option Nat) (w : World)
    (h : ∀ c, r.supabaseChannel = some c → w.channelState c ≠ some .joined) :
    notReady r pc w = true := by
  unfold notReady
  cases hc : r.supabaseChannel with
  | none => simp
  | some c => simp [h c hc]

/-! ## One open connection at a time -/

theorem allClosed_onlyEffectOpen {w : World} (h : w.allClosed) : w.onlyEffectOpen := by
  intro i p hp hopen
  exact absurd (h i p hp) hopen

theorem onlyEffectOpen_of_noneOpened {w w' : World} (h : w.onlyEffectOpen) (hn : NoneOpened w w') :
    w'.onlyEffectOpen := by
  intro i q hq hopen
  obtain ⟨p, hp, hpo⟩ := hn.2.2 i q hq hopen
  obtain ⟨hlast, env, he, hpc, hc⟩ := h i p hp hpo
  exact ⟨by rw [hn.1]; exact hlast, env, by rw [hn.2.1]; exact he, hpc, hc⟩

theorem allClosed_of_no_cleanup {w : World} (h : w.onlyEffectOpen)
    (hno : ∀ env, w.effect = some env → env.hasCleanup = false) : w.allClosed := by
  intro i p hp
  by_contra hopen
  obtain ⟨_, env, he, _, hc⟩ := h i p hp hopen
  rw [hno env he] at hc
  exact Bool.false_ne_true hc

theorem cleanupCall_allClosed (w v : World) (env : EffectEnv) (h : w.onlyEffectOpen)
    (he : w.effect = some env) (hv : v.pcs = w.pcs) :
    (cleanupCall env.render (some env.channel) env.peerConnection v).allClosed := by
  intro i q hq
  by_contra hopen
  obtain ⟨p, hp, hpo⟩ := (cleanupCall_noneOpened _ _ _ v).2.2 i q hq hopen
  rw [hv] at hp
  obtain ⟨_, env2, he2, hpc, _⟩ := h i p hp hpo
  rw [he] at he2
  cases he2
  have hclosed := cleanupCall_closed env.render (some env.channel) i p v (by rw [hv]; exact hp)
  rw [hpc] at hq
  rw [hq] at hclosed
  simp at hclosed
  exact hopen hclosed

theorem mountEffect_onlyEffectOpen (r : Render) (roomId : String) (available : Bool) (w : World)
    (h : w.allClosed) : (mountEffect r roomId available w).onlyEffectOpen := by
  by_cases hroom : roomId = ""
  · simpa [mountEffect, hroom] using allClosed_onlyEffectOpen h
  · cases available
    · apply allClosed_onlyEffectOpen
      intro i p hp
      have : w.pcs[i]? = some p := by
        simpa [mountEffect, hroom, initializePeerConnection, World.setPc, World.log] using hp
      exact h i p this
    · intro i p hp hopen
      have hlen : (mountEffect r roomId true w).pcs.length = w.pcs.length + 1 := by
        simp [mountEffect, hroom, initializePeerConnection, World.setPc]
      have hi : i < w.pcs.length + 1 := hlen ▸ (List.getElem?_eq_some.mp hp).1
      by_cases hlt : i < w.pcs.length
      · rw [mountEffect_pcs_old r roomId true w i hlt] at hp
        exact absurd (h i p hp) hopen
      · have hieq : i = w.pcs.length := by omega
        refine ⟨by rw [hlen, hieq], ?_⟩
        simp [mountEffect, hroom, initializePeerConnection, World.setPc, hieq]

theorem allClosed_congr (w v : World) (hv : v.pcs = w.pcs) (h : w.allClosed) : v.allClosed := by
  intro i p hp
  exact h i p (by rw [← hv]; exact hp)

theorem unmount_allClosed (w : World) (h : w.onlyEffectOpen) : (unmount w).allClosed := by
  cases he : w.effect with
  | none =>
    have hw : unmount w = { w with refsAttached := false } := by
      simp [unmount, he]
    rw [hw]
    exact allClosed_congr w _ rfl (allClosed_of_no_cleanup h (by simp [he]))
  | some env =>
    by_cases hc : env.hasCleanup = true
    · rw [unmount_eq w env he hc]
      exact allClosed_congr _ _ rfl
        (cleanupCall_allClosed w { w with refsAttached := false } env h he rfl)
    · have hw : unmount w = { w with refsAttached := false, effect := none } := by
        simp [unmount, he, hc]
      rw [hw]
      exact allClosed_congr w _ rfl (allClosed_of_no_cleanup h (by
        intro env2 he2
        rw [he] at he2
        cases he2
        simpa using hc))

theorem changeRoom_onlyEffectOpen (roomId : String) (available : Bool) (w : World)
    (h : w.onlyEffectOpen) : (changeRoom roomId available w).onlyEffectOpen := by
  cases he : w.effect with
  | none =>
    have hw : changeRoom roomId available w =
        mountEffect w.state roomId available { w with effect := none } := by
      simp [changeRoom, he]
    rw [hw]
    exact mountEffect_onlyEffectOpen _ _ _ _
      (allClosed_congr w _ rfl (allClosed_of_no_cleanup h (by simp [he])))
  | some env =>
    by_cases hc : env.hasCleanup = true
    · rw [changeRoom_eq roomId available w env he hc]
      exact mountEffect_onlyEffectOpen _ _ _ _
        (allClosed_congr _ _ rfl (cleanupCall_allClosed w w env h he rfl))
    · have hw : changeRoom roomId available w =
          mountEffect w.state roomId available { w with effect := none } := by
        simp [changeRoom, he, hc]
      rw [hw]
      exact mountEffect_onlyEffectOpen _ _ _ _
        (allClosed_congr w _ rfl (allClosed_of_no_cleanup h (by
          intro env2 he2
          rw [he] at he2
          cases he2
          simpa using hc)))

theorem NoneOpened.unchanged (w : World) : NoneOpened w w := NoneOpened.of_eq rfl rfl

theorem listeningPc_some {w : World} {env : EffectEnv} {i : Nat} {p : RTCPeerConnection}
    (h : w.listeningPc = some (env, i, p)) : w.pcs[i]? = some p := by
  unfold World.listeningPc at h
  split at h
  · simp at h
  · split at h
    · simp at h
    · split at h
      · simp at h
      · rename_i hp
        split at h
        · simp at h
          obtain ⟨_, hi, hpp⟩ := h
          subst hi
          subst hpp
          exact hp
        · simp at h

theorem step_noneOpened (w : World) (a : Action) (ha : a.isMount = false)
    (hunmount : a ≠ .unmount) (hroom : ∀ roomId available, a ≠ .changeRoom roomId available) :
    NoneOpened w (step w a) := by
  cases a with
  | mount roomId available => simp [Action.isMount] at ha
  | unmount => exact absurd rfl hunmount
  | changeRoom roomId available => exact absurd rfl (hroom roomId available)
  | subscribeStatus status =>
    simp only [step]
    split
    · exact NoneOpened.unchanged w
    · apply NoneOpened.of_eq <;>
        cases status <;> simp [subscribeCallback, World.setSupabaseChannel, World.log]
  | clickStartWebcam result =>
    simp only [step]
    split
    · exact (startWebcam_noneOpened _ _ _).1
    · exact NoneOpened.unchanged w
  | clickStartCall =>
    simp only [step]
    split
    · rcases startCall_cases w.state w with q | ⟨c, w1, d, _, _, q, h⟩
      · exact q.noneOpened
      · rw [h]
        exact q.noneOpened.andThen (NoneOpened.of_eq rfl rfl)
    · exact NoneOpened.unchanged w
  | clickHangup =>
    simp only [step]
    split
    · unfold hangupCall
      simp only
      split
      · split
        · exact (NoneOpened.of_eq rfl rfl).andThen (cleanupCall_noneOpened _ _ _ _)
        · exact cleanupCall_noneOpened _ _ _ _
      · exact cleanupCall_noneOpened _ _ _ _
    · exact NoneOpened.unchanged w
  | offer payload =>
    simp only [step, World.deliver]
    split
    · exact NoneOpened.unchanged w
    · rename_i env _
      split
      · unfold handleOffer
        split
        · rename_i description _ _
          rcases handleReceivedOffer_cases env.render description env.peerConnection w with
            q | ⟨c, w1, d, _, _, q, h⟩
          · exact q.noneOpened
          · rw [h]
            exact q.noneOpened.andThen (NoneOpened.of_eq rfl rfl)
        · exact NoneOpened.unchanged w
      · exact NoneOpened.unchanged w
  | answer payload =>
    simp only [step, World.deliver]
    split
    · exact NoneOpened.unchanged w
    · split
      · exact (handleAnswer_quiet _ payload w).noneOpened
      · exact NoneOpened.unchanged w
  | candidate payload =>
    simp only [step, World.deliver]
    split
    · exact NoneOpened.unchanged w
    · split
      · exact (handleCandidate_quiet _ payload w).noneOpened
      · exact NoneOpened.unchanged w
  | hangup =>
    simp only [step, World.deliver]
    split
    · exact NoneOpened.unchanged w
    · split
      · exact cleanupCall_noneOpened _ _ _ _
      · exact NoneOpened.unchanged w
  | track stream =>
    simp only [step]
    split
    · exact NoneOpened.unchanged w
    · split
      · unfold ontrack
        split <;> exact NoneOpened.of_eq rfl rfl
      · exact NoneOpened.unchanged w
  | icecandidate candidate =>
    simp only [step]
    split
    · exact NoneOpened.unchanged w
    · simp only [onicecandidate]
      split
      · exact NoneOpened.unchanged w
      · split
        · exact NoneOpened.of_eq rfl rfl
        · exact NoneOpened.unchanged w
  | connectionStateChange next =>
    simp only [step]
    split
    · exact NoneOpened.unchanged w
    · rename_i env i p hl
      have hp := listeningPc_some hl
      split
      · exact NoneOpened.unchanged w
      · rename_i hopen
        have hset : NoneOpened w { w with pcs := w.pcs.set i { p with connectionState := next } } := by
          refine ⟨by simp, rfl, ?_⟩
          intro j q hq _
          simp only [List.getElem?_set] at hq
          by_cases hij : i = j
          · subst hij
            exact ⟨p, hp, hopen⟩
          · simp [hij] at hq
            exact ⟨q, hq, by assumption⟩
        rcases onconnectionstatechange_eq env
          { w with pcs := w.pcs.set i { p with connectionState := next } } with h | ⟨text, h⟩
        · rw [h]
          exact hset
        · rw [h]
          exact hset.andThen (NoneOpened.of_eq rfl rfl)

theorem step_onlyEffectOpen (w : World) (a : Action) (h : w.onlyEffectOpen)
    (ha : a.isMount = false) : (step w a).onlyEffectOpen := by
  by_cases hu : a = .unmount
  · subst hu
    exact allClosed_onlyEffectOpen (unmount_allClosed w h)
  · by_cases hr : ∃ roomId available, a = .changeRoom roomId available
    · obtain ⟨roomId, available, rfl⟩ := hr
      exact changeRoom_onlyEffectOpen roomId available w h
    · exact onlyEffectOpen_of_noneOpened h
        (step_noneOpened w a ha hu (fun roomId available heq => hr ⟨roomId, available, heq⟩))

theorem run_onlyEffectOpen (w : World) (actions : List Action) (h : w.onlyEffectOpen)
    (ha : ∀ a ∈ actions, a.isMount = false) : (run w actions).onlyEffectOpen := by
  induction actions generalizing w with
  | nil => exact h
  | cons a rest ih =>
    rw [run, List.foldl_cons]
    exact ih (step w a) (step_onlyEffectOpen w a h (ha a (List.mem_cons_self _ _)))
      (fun b hb => ha b (List.mem_cons_of_mem _ hb))

theorem filter_open_length_le_one (pcs : List RTCPeerConnection)
    (h : ∀ (i : Nat) (p : RTCPeerConnection), pcs[i]? = some p → p.connectionState ≠ .closed →
      i + 1 = pcs.length) :
    (pcs.filter (fun p => p.connectionState ≠ .closed)).length ≤ 1 := by
  induction pcs with
  | nil => simp
  | cons p rest ih =>
    cases rest with
    | nil =>
      by_cases hp : p.connectionState = .closed <;> simp [hp]
    | cons q rest2 =>
      have hclosed : p.connectionState = .closed := by
        by_contra hopen
        have := h 0 p rfl hopen
        simp at this
      have hrest := ih (by
        intro i x hx hopen
        have := h (i + 1) x (by simpa using hx) hopen
        simp at this ⊢
        omega)
      simpa [List.filter_cons, hclosed] using hrest

theorem openConnections_le_one (w : World) (h : w.onlyEffectOpen) : w.openConnections ≤ 1 :=
  filter_open_length_le_one w.pcs (fun i p hp hopen => (h i p hp hopen).1)

theorem openConnections_zero (w : World) (h : w.allClosed) : w.openConnections = 0 := by
  unfold World.openConnections
  rw [List.length_eq_zero, List.filter_eq_nil_iff]
  intro p hp
  obtain ⟨i, hi, hpi⟩ := List.getElem_of_mem hp
  have := h i p (by rw [List.getElem?_eq_getElem hi, hpi])
  simp [this]

/-- C20.  The view mounts once, and then any sequence of room changes, unmounts,
clicks, broadcasts and connection callbacks follows.  After every such
sequence at most one peer connection is not closed: the effect cleanup closes
the connection of the previous room before the effect body creates the next.
When the sequence ends with an unmount, no connection is left open. -/
theorem C20_at_most_one_open_connection (roomId : String) (available : Bool)
    (actions : List Action) (h : ∀ a ∈ actions, a.isMount = false) :
    (run World.initial (.mount roomId available :: actions)).openConnections ≤ 1 ∧
    (run World.initial (.mount roomId available :: actions ++ [.unmount])).openConnections = 0 := by
  have hinit : World.initial.allClosed := by
    intro i p hp
    simp [World.initial] at hp
  have hmount : (step World.initial (.mount roomId available)).onlyEffectOpen :=
    mountEffect_onlyEffectOpen _ _ _ _ hinit
  have hrun : (run (step World.initial (.mount roomId available)) actions).onlyEffectOpen :=
    run_onlyEffectOpen _ actions hmount h
  constructor
  · rw [run, List.foldl_cons]
    exact openConnections_le_one _ hrun
  · have hlast : run World.initial (.mount roomId available :: actions ++ [.unmount]) =
        unmount (run (step World.initial (.mount roomId available)) actions) := by
      simp [run, List.foldl_append, step]
    rw [hlast]
    exact openConnections_zero _ (unmount_allClosed _ hrun)

/-- Witness for C20: mount in r1, camera, move to r2, move to r3, leave. -/
theorem C20_at_most_one_open_connection_witness :
    (run World.initial
      [.mount "r1" true, .subscribeStatus .SUBSCRIBED, .clickStartWebcam (some [1, 2]),
       .changeRoom "r2" true, .changeRoom "r3" true]).openConnections ≤ 1 :=
  (C20_at_most_one_open_connection "r1" true
    [.subscribeStatus .SUBSCRIBED, .clickStartWebcam (some [1, 2]),
     .changeRoom "r2" true, .changeRoom "r3" true] (by decide)).1

/-! ## Calls and their settlement -/

theorem callPc_eq_settlePc (w : World) (e : Event) (i : Nat)
    (f : RTCPeerConnection → Option RTCPeerConnection) :
    w.callPc e i f = (w.log e).settlePc i f := rfl

theorem createOffer_eq_settle (w : World) (i : Nat) :
    w.createOffer i = (w.log (.createOffer i)).settleCreateOffer i := rfl

theorem createAnswer_eq_settle (w : World) (i : Nat) :
    w.createAnswer i = (w.log (.createAnswer i)).settleCreateAnswer i := rfl

/-- The function `handleAnswer` is the call followed at once by its
settlement. -/
theorem handleAnswer_eq_settleAnswer (env : EffectEnv) (payload : Payload) (w : World) :
    handleAnswer env payload w =
      settleAnswer (handleAnswerCall env payload w).2 (handleAnswerCall env payload w).1 := by
  unfold handleAnswer handleAnswerCall settleAnswer
  cases env.peerConnection with
  | none => rfl
  | some pc =>
    cases payload.answer with
    | none => rfl
    | some answer =>
      by_cases h : ((w.pcs[pc]?).bind (fun p => p.currentRemoteDescription)).isNone = true
      · simp only [h, if_true]
        rfl
      · simp only [h]
        rfl

/-- The function `startCall` is `startCallAwaiting` with nothing handled in
between. -/
theorem startCallAwaiting_nil (r : Render) (w : World) :
    startCallAwaiting r [] [] w = startCall r w := by
  have h : ∀ pc c, startCallAwaitingTry pc c [] [] w = startCallTry pc c w := by
    intro pc c
    unfold startCallAwaitingTry startCallTry startCallSend
    simp only [run, List.foldl_nil]
    rfl
  unfold startCallAwaiting startCall
  simp only [h]

/-- The function `handleReceivedOffer` is `handleReceivedOfferAwaiting` with
nothing handled in between. -/
theorem handleReceivedOfferAwaiting_nil (r : Render) (offer : SessionDescription)
    (currentPc : Option Nat) (w : World) :
    handleReceivedOfferAwaiting r offer currentPc [] [] [] w =
      handleReceivedOffer r offer currentPc w := by
  have h : ∀ pc c, handleReceivedOfferAwaitingTry pc c offer [] [] [] w =
      handleReceivedOfferTry pc c offer w := by
    intro pc c
    unfold handleReceivedOfferAwaitingTry handleReceivedOfferTry handleReceivedOfferSend
    simp only [run, List.foldl_nil]
    rfl
  unfold handleReceivedOfferAwaiting handleReceivedOffer
  simp only [h]

/-! ## Two answers -/

/-- C3, the claim fails as stated.  The offerer of room r1 has a local offer
outstanding and receives the answers 5 and 6 of that round one after the
other, before the promise of the first `setRemoteDescription` has settled:
the guard still reads a null `currentRemoteDescription`, so the second answer
is passed to `setRemoteDescription` as well; the browser rejects that call
and the rejection is logged.  And once answer 5 has been applied, the answer
6 of a second round started by another `startCall` is dropped: the remote
description stays answer 5 and the local offer stays outstanding. -/
theorem C3_second_answer_is_passed_on_while_first_is_pending :
    scenarioOffered.effect = some scenarioEnv ∧
    (handleAnswerCall scenarioEnv (answerPayload 6)
      (handleAnswerCall scenarioEnv (answerPayload 5) scenarioOffered).1).2 =
      some (0, { type := .answer, sdp := 6 }) ∧
    (answersBeforeSettlement scenarioEnv (answerPayload 5) (answerPayload 6)
      scenarioOffered).trace =
      scenarioOffered.trace ++
        [.setRemoteDescription 0 { type := .answer, sdp := 5 },
         .setRemoteDescription 0 { type := .answer, sdp := 6 },
         .consoleError "Error setting remote description (answer):"] ∧
    run scenarioOffered [.answer (answerPayload 5), .clickStartCall, .answer (answerPayload 6)] =
      run scenarioOffered [.answer (answerPayload 5), .clickStartCall] ∧
    ((run scenarioOffered
        [.answer (answerPayload 5), .clickStartCall, .answer (answerPayload 6)]).pcs[0]?).map
      (fun p => (p.signalingState, p.currentRemoteDescription)) =
      some (.haveLocalOffer, some { type := .answer, sdp := 5 }) := by
  decide

/-- With a local offer outstanding and no remote description, the first
answer is applied when its promise settles, and a second answer handled after
that leaves the world, trace included, as it was. -/
theorem handleAnswer_second_after_first (env : EffectEnv) (first second : Payload)
    (answer : SessionDescription) (pc : Nat) (p : RTCPeerConnection) (w : World)
    (hpc : env.peerConnection = some pc) (hp : w.pcs[pc]? = some p)
    (hopen : p.connectionState ≠ .closed) (hround : p.signalingState = .haveLocalOffer)
    (hnone : p.currentRemoteDescription = none)
    (hfirst : first.answer = some answer) (htype : answer.type = .answer) :
    handleAnswer env first w =
      { w with
        pcs := w.pcs.set pc
          { p with currentRemoteDescription := some answer,
                   currentLocalDescription := p.pendingLocalDescription,
                   pendingLocalDescription := none, pendingRemoteDescription := none,
                   signalingState := .stable },
        trace := w.trace ++ [.setRemoteDescription pc answer] } ∧
    handleAnswer env second (handleAnswer env first w) = handleAnswer env first w := by
  have hlt : pc < w.pcs.length := (List.getElem?_eq_some.mp hp).1
  have h1 : handleAnswer env first w =
      { w with
        pcs := w.pcs.set pc
          { p with currentRemoteDescription := some answer,
                   currentLocalDescription := p.pendingLocalDescription,
                   pendingLocalDescription := none, pendingRemoteDescription := none,
                   signalingState := .stable },
        trace := w.trace ++ [.setRemoteDescription pc answer] } := by
    simp [handleAnswer, hpc, hfirst, hp, hnone, World.setRemoteDescription, World.callPc, World.log,
      RTCPeerConnection.setRemoteDescription, hopen, hround, htype]
  refine ⟨h1, ?_⟩
  rw [h1]
  simp only [handleAnswer, hpc]
  cases second.answer with
  | none => rfl
  | some a => simp [List.getElem?_set_self hlt]

/-- C3, as amended.  An answer broadcast is passed to `setRemoteDescription`
when the connection has no current remote description at the time the
broadcast is handled, and otherwise causes no call and no state change.  On a
connection with a local offer outstanding and no remote description, the
remote description is set from the first answer when its promise settles.  A
second answer handled after that changes nothing.  A second answer handled
before that is passed on too; the browser rejects it, the rejection is
logged, and the remote description is the first answer. -/
theorem C3_answer_passes_while_no_remote_description_is_current (env : EffectEnv)
    (first second : Payload) (answer : SessionDescription) (pc : Nat)
    (p : RTCPeerConnection) (w : World)
    (hpc : env.peerConnection = some pc) (hp : w.pcs[pc]? = some p)
    (hfirst : first.answer = some answer) :
    (p.currentRemoteDescription = none →
      handleAnswerCall env first w =
        (w.log (.setRemoteDescription pc answer), some (pc, answer))) ∧
    (p.currentRemoteDescription ≠ none →
      handleAnswerCall env first w = (w, none) ∧ handleAnswer env first w = w) ∧
    (p.connectionState ≠ .closed → p.signalingState = .haveLocalOffer →
      p.currentRemoteDescription = none → answer.type = .answer →
      ((settleAnswer (some (pc, answer)) (w.log (.setRemoteDescription pc answer))).pcs[pc]?).bind
          (fun q => q.currentRemoteDescription) = some answer ∧
      handleAnswer env second (handleAnswer env first w) = handleAnswer env first w ∧
      (∀ later, second.answer = some later → later.type = .answer →
        answersBeforeSettlement env first second w =
          ((handleAnswer env first w).log (.setRemoteDescription pc later)).log
            (.consoleError "Error setting remote description (answer):"))) := by
  have hlt : pc < w.pcs.length := (List.getElem?_eq_some.mp hp).1
  refine ⟨?_, ?_, ?_⟩
  · intro hnone
    simp [handleAnswerCall, hpc, hfirst, hp, hnone]
  · intro hsome
    have hg : ((w.pcs[pc]?).bind (fun p => p.currentRemoteDescription)).isNone = false := by
      cases hc : p.currentRemoteDescription with
      | none => exact absurd hc hsome
      | some d => simp [hp, hc]
    constructor
    · simp [handleAnswerCall, hpc, hfirst, hg]
    · simp [handleAnswer, hpc, hfirst, hg]
  · intro hopen hround hnone htype
    obtain ⟨h1, h2⟩ := handleAnswer_second_after_first env first second answer pc p w hpc hp hopen
      hround hnone hfirst htype
    have hcall : handleAnswerCall env first w =
        (w.log (.setRemoteDescription pc answer), some (pc, answer)) := by
      simp [handleAnswerCall, hpc, hfirst, hp, hnone]
    have hsettle : settleAnswer (some (pc, answer)) (w.log (.setRemoteDescription pc answer)) =
        handleAnswer env first w := by
      rw [handleAnswer_eq_settleAnswer, hcall]
    refine ⟨?_, h2, ?_⟩
    · rw [hsettle, h1]
      simp [List.getElem?_set_self hlt]
    · intro later hsecond hlater
      have hcall2 : handleAnswerCall env second (w.log (.setRemoteDescription pc answer)) =
          ((w.log (.setRemoteDescription pc answer)).log (.setRemoteDescription pc later),
            some (pc, later)) := by
        simp [handleAnswerCall, hpc, hsecond, World.log, hp, hnone]
      unfold answersBeforeSettlement
      rw [hcall]
      simp only [hcall2]
      rw [h1]
      simp [settleAnswer, World.settlePc, World.log, hp, RTCPeerConnection.setRemoteDescription,
        hopen, hround, htype, hlater, List.getElem?_set_self hlt]

/-- C3, an instance: the offerer of room r1 with its offer outstanding
receives the answers 5 and 6 before the first call has settled. -/
theorem C3_answer_passes_while_no_remote_description_is_current_witness :
    answersBeforeSettlement scenarioEnv (answerPayload 5) (answerPayload 6) scenarioOffered =
      ((handleAnswer scenarioEnv (answerPayload 5) scenarioOffered).log
        (.setRemoteDescription 0 { type := .answer, sdp := 6 })).log
        (.consoleError "Error setting remote description (answer):") :=
  ((C3_answer_passes_while_no_remote_description_is_current scenarioEnv (answerPayload 5)
    (answerPayload 6) { type := .answer, sdp := 5 } 0
    { connectionState := .new, signalingState := .haveLocalOffer,
      pendingLocalDescription := some { type := .offer, sdp := 0 }, currentLocalDescription := none,
      pendingRemoteDescription := none, currentRemoteDescription := none,
      senders := [{ track := some 1 }, { track := some 2 }], remoteCandidates := [], handlers := true }
    scenarioOffered rfl (by decide) rfl).2.2 (by decide) rfl rfl rfl).2.2
      { type := .answer, sdp := 6 } rfl rfl

/-! ## Teardown with the video elements gone -/

/-- C5, the failing input.  The participant of room r1 has the camera on
(tracks 1 and 2 live) and leaves the view: the refs of the video elements are
detached and the unmount cleanup invokes `cleanupCall` with the channel and
the connection of the effect.  `cleanupCall` is invoked a second time with
the same arguments.  The second invocation leaves the state as the first left
it and `close()` is called once, but no `stop()` is ever called: both tracks
are live at the end. -/
theorem C5_cleanupCall_twice_leaves_unreachable_tracks_live :
    unmount scenarioReady =
      { cleanupCall scenarioEnv.render (some 0) (some 0) scenarioDetached with effect := none } ∧
    scenarioDetached.live = [1, 2] ∧
    (cleanupCall scenarioEnv.render (some 0) (some 0)
      (cleanupCall scenarioEnv.render (some 0) (some 0) scenarioDetached)).live = [1, 2] ∧
    (cleanupCall scenarioEnv.render (some 0) (some 0)
      (cleanupCall scenarioEnv.render (some 0) (some 0) scenarioDetached)).stopCalls 1 = 0 ∧
    (cleanupCall scenarioEnv.render (some 0) (some 0)
      (cleanupCall scenarioEnv.render (some 0) (some 0) scenarioDetached)).stopCalls 2 = 0 ∧
    (cleanupCall scenarioEnv.render (some 0) (some 0)
      (cleanupCall scenarioEnv.render (some 0) (some 0) scenarioDetached)).closeCalls 0 = 1 ∧
    (cleanupCall scenarioEnv.render (some 0) (some 0)
      (cleanupCall scenarioEnv.render (some 0) (some 0) scenarioDetached)).trace =
      scenarioDetached.trace ++ [.close 0, .removeChannel 0, .removeChannel 0] := by
  decide

/-! ## The channel test and the send -/

/-- C18, the claim fails as stated.  The participant of room r1 clicks Start
Call while the channel is joined.  While `createOffer` is pending the channel
fails and the subscribe callback reports `CHANNEL_ERROR`.  `startCall` goes
on after its awaits and sends the offer without testing the channel again:
the offer is published on a channel whose state is `errored`. -/
theorem C18_offer_is_sent_after_the_channel_left_joined :
    scenarioReady.channelState 0 = some .joined ∧
    (startCallAwaiting scenarioReady.state [.subscribeStatus .CHANNEL_ERROR] []
      scenarioReady).trace =
      scenarioReady.trace ++
        [.createOffer 0, .consoleError "Error subscribing to channel",
         .setLocalDescription 0 { type := .offer, sdp := 0 },
         .send 0 (.offer { type := .offer, sdp := 0 })] ∧
    (startCallAwaiting scenarioReady.state [.subscribeStatus .CHANNEL_ERROR] []
      scenarioReady).channelState 0 = some .errored := by
  decide

/-- C18, as amended.  When the channel handle is null or not joined at the
test, `startCall` and `handleReceivedOffer` warn and do nothing else,
whatever is handled afterwards, `hangupCall` publishes nothing and the
ICE-candidate callback publishes nothing.  `hangupCall`, the ICE-candidate
callback and every action whose promises settle before the next one publish
at most one message, on a channel that is joined at that moment.  The send of
`startCall` and of `handleReceivedOffer`, reached after their awaits, does
not read the state of the channel. -/
theorem C18_channel_is_tested_once_before_the_send (r : Render) (env : EffectEnv)
    (offer : SessionDescription) (pc : Option Nat) (candidate : Option IceCandidate)
    (during1 during2 during3 : List Action) (w : World) :
    ((∀ c, r.supabaseChannel = some c → w.channelState c ≠ some .joined) →
      startCallAwaiting r during1 during2 w =
        w.log (.consoleWarn "Cannot start call: PC, webcam, or channel not ready.") ∧
      handleReceivedOfferAwaiting r offer pc during1 during2 during3 w =
        w.log (.consoleWarn "Cannot handle received offer: PC, webcam, or channel not ready.") ∧
      (startCall r w).published = w.published ∧
      (handleReceivedOffer r offer pc w).published = w.published ∧
      (hangupCall r w).published = w.published) ∧
    (w.channelState env.channel ≠ some .joined →
      (onicecandidate env candidate w).published = w.published) ∧
    ((hangupCall r w).published = w.published ∨
      ∃ c, r.supabaseChannel = some c ∧ w.channelState c = some .joined ∧
        (hangupCall r w).published = w.published ++ [(c, .hangup)]) ∧
    ((onicecandidate env candidate w).published = w.published ∨
      ∃ found, candidate = some found ∧ w.channelState env.channel = some .joined ∧
        (onicecandidate env candidate w).published =
          w.published ++ [(env.channel, .candidate found)]) ∧
    (∀ a, (step w a).published = w.published ∨
      ∃ c m, (step w a).published = w.published ++ [(c, m)] ∧
        w.channelState c = some .joined) ∧
    (∀ i c d, (w.pcs[i]?).bind (fun p => p.localDescription) = some d →
      startCallSend i c w = .ok (w.log (.send c (.offer d))) ∧
      handleReceivedOfferSend i c w = .ok (w.log (.send c (.answer d)))) := by
  refine ⟨?_, ?_, hangupCall_published r w, ?_, fun a => step_published w a, ?_⟩
  · intro h
    refine ⟨?_, ?_, ?_, ?_, ?_⟩
    · unfold startCallAwaiting
      simp only [notReady_of_not_joined r r.pc w h, if_true]
    · unfold handleReceivedOfferAwaiting
      simp only [notReady_of_not_joined r pc w h, if_true]
    · unfold startCall
      simp only [notReady_of_not_joined r r.pc w h, if_true]
      exact (Quiet.log w (.consoleWarn _) rfl).published
    · unfold handleReceivedOffer
      simp only [notReady_of_not_joined r pc w h, if_true]
      exact (Quiet.log w (.consoleWarn _) rfl).published
    · rcases hangupCall_published r w with hp | ⟨c, hc, hj, _⟩
      · exact hp
      · exact absurd hj (h c hc)
  · intro h
    unfold onicecandidate
    cases candidate with
    | none => rfl
    | some c => simp [h]
  · cases candidate with
    | none => exact Or.inl rfl
    | some found =>
      by_cases hj : w.channelState env.channel = some .joined
      · refine Or.inr ⟨found, rfl, hj, ?_⟩
        simp only [onicecandidate, hj, if_true]
        exact published_log_send _ _ _
      · refine Or.inl ?_
        simp [onicecandidate, hj]
  · intro i c d hd
    simp [startCallSend, handleReceivedOfferSend, hd]

/-- C18, an instance: before the channel of room r1 has joined, `startCall`
warns and publishes nothing, whatever is handled afterwards. -/
theorem C18_channel_is_tested_once_before_the_send_witness :
    startCallAwaiting { pc := some 0, isWebcamStarted := true, supabaseChannel := some 0 }
        [.subscribeStatus .SUBSCRIBED] [] (step World.initial (.mount "r1" true)) =
      (step World.initial (.mount "r1" true)).log
        (.consoleWarn "Cannot start call: PC, webcam, or channel not ready.") ∧
    (onicecandidate scenarioEnv (some 9) (step World.initial (.mount "r1" true))).published = [] :=
  have h := C18_channel_is_tested_once_before_the_send
    { pc := some 0, isWebcamStarted := true, supabaseChannel := some 0 } scenarioEnv
    { type := .offer, sdp := 7 } (some 0) (some 9) [.subscribeStatus .SUBSCRIBED] [] []
    (step World.initial (.mount "r1" true))
  ⟨(h.1 (by decide)).1, h.2.1 (by decide)⟩

end VideoCall

/-!
# Route handlers, middleware and calendar: theorems
-/

namespace Api

/-! ## Queries -/

@[simp] theorem isWrite_selectEq (table : Table) (column value : String) :
    (selectEq table column value).isWrite = false := rfl

@[simp] theorem isWrite_updateEq (table : Table) (column value : String) :
    (updateEq table column value).isWrite = true := rfl

@[simp] theorem isWrite_insertInto (table : Table) :
    (insertInto table).isWrite = true := rfl

/-! ## Who may change a session -/

/-- A query that writes is issued, or a table changes, only after the session
was found and its teacher is the authenticated user. -/
theorem Session.patch_writes_authorized (p : Platform) (sessionId : String)
    (body : Except String Session.RequestBody)
    (h : (Session.PATCH p sessionId body).db ≠ p.db ∨
      ∃ q ∈ (Session.PATCH p sessionId body).queries, q.isWrite = true) :
    ∃ user row, p.authenticated = some user ∧ p.db.session sessionId = some row ∧
      row.teacher_id = user.id := by
  by_cases hid : sessionId = ""
  · simp [Session.PATCH, hid, Platform.reply] at h
  cases body with
  | error message => simp [Session.PATCH, hid, Platform.reply] at h
  | ok b =>
    cases hs : truthy b.status with
    | none => simp [Session.PATCH, hid, hs, Platform.reply] at h
    | some status =>
      cases hu : p.authenticated with
      | none => simp [Session.PATCH, hid, hs, hu, Platform.reply] at h
      | some user =>
        cases hf : p.failure (selectEq .scheduled_sessions "id" sessionId) with
        | some e =>
          by_cases hc : e.code = "PGRST116" <;>
            simp [Session.PATCH, hid, hs, hu, hf, hc, Platform.reply] at h
        | none =>
          cases hr : p.db.session sessionId with
          | none =>
            simp [Session.PATCH, hid, hs, hu, hf, hr, Platform.reply] at h
          | some row =>
            by_cases ht : row.teacher_id = user.id
            · exact ⟨user, row, rfl, rfl, ht⟩
            · simp [Session.PATCH, hid, hs, hu, hf, hr, ht, Platform.reply] at h

/-- C21, the claim fails as stated: Lea is authenticated and is not the
teacher of session `s1`, and her request without a status is answered 400,
not 403. -/
theorem C21_other_user_without_status_gets_400 :
    (scenarioPlatform (some lea) []).authenticated = some lea ∧
    ((scenarioPlatform (some lea) []).db.session "s1").map (fun row => row.teacher_id)
      = some "t1" ∧
    lea.id ≠ "t1" ∧
    (Session.PATCH (scenarioPlatform (some lea) []) "s1"
      (.ok { status := none })).response.status = 400 := by
  decide

/-- C21, as amended: for every PATCH request to a session, the tables change
(or a writing query is issued) only if the authenticated user is the teacher
of the session; for every other authenticated user nothing changes, and the
response is 403 when the request carries a non-empty status and the lookup of
the session is answered.  A request without a status is answered 400 and
issues no query, whoever sends it. -/
theorem C21_only_the_teacher_updates_the_session (p : Platform) (sessionId : String)
    (body : Except String Session.RequestBody) :
    (((Session.PATCH p sessionId body).db ≠ p.db ∨
        ∃ q ∈ (Session.PATCH p sessionId body).queries, q.isWrite = true) →
      ∃ user row, p.authenticated = some user ∧ p.db.session sessionId = some row ∧
        row.teacher_id = user.id) ∧
    (∀ user row, p.authenticated = some user → p.db.session sessionId = some row →
      row.teacher_id ≠ user.id →
        (Session.PATCH p sessionId body).db = p.db ∧
        (∀ status, sessionId ≠ "" → body = .ok { status := some status } → status ≠ "" →
          p.failure (selectEq .scheduled_sessions "id" sessionId) = none →
          (Session.PATCH p sessionId body).response.status = 403)) ∧
    (∀ b : Session.RequestBody, sessionId ≠ "" → truthy b.status = none →
      (Session.PATCH p sessionId (.ok b)).response.status = 400 ∧
      (Session.PATCH p sessionId (.ok b)).queries = []) := by
  refine ⟨Session.patch_writes_authorized p sessionId body, ?_, ?_⟩
  swap
  · intro b hid hs
    simp [Session.PATCH, hid, hs, Platform.reply]
  intro user row hu hrow hne
  refine ⟨?_, ?_⟩
  · by_contra hdb
    obtain ⟨user2, row2, hu2, hrow2, ht⟩ := Session.patch_writes_authorized p sessionId body (Or.inl hdb)
    rw [hu] at hu2
    rw [hrow] at hrow2
    cases hu2
    cases hrow2
    exact hne ht
  · intro status hid hbody hstatus hfetch
    subst hbody
    simp [Session.PATCH, hid, truthy, hstatus, hu, hfetch, hrow, hne, Platform.reply]

/-- C21, an instance: Lea asks to confirm session `s1`, which Tom teaches. -/
theorem C21_only_the_teacher_updates_the_session_witness :
    (Session.PATCH (scenarioPlatform (some lea) []) "s1"
        (.ok { status := some "confirmed" })).db = (scenarioPlatform (some lea) []).db ∧
    (Session.PATCH (scenarioPlatform (some lea) []) "s1"
        (.ok { status := some "confirmed" })).response.status = 403 :=
  have h := (C21_only_the_teacher_updates_the_session (scenarioPlatform (some lea) []) "s1"
    (.ok { status := some "confirmed" })).2.1 lea
    { id := "s1", learner_id := "u1", teacher_id := "t1",
      scheduled_time := "2025-05-01T10:00:00.000Z", status := "requested" }
    (by decide) (by decide) (by decide)
  ⟨h.1, h.2 "confirmed" (by decide) rfl (by decide) (by decide)⟩

/-! ## Unauthenticated requests -/

/-- C22: when the auth provider reports no authenticated user, each of the
seven route handlers issues no query against any table, leaves the tables as
they are and answers with a status of at least 400. -/
theorem C22_unauthenticated_request_touches_no_table (p : Platform)
    (h : p.authenticated = none) (sessionId assessmentId url : String)
    (b1 : Except String Sessions.RequestBody) (b2 : Except String Session.RequestBody)
    (b3 : Except String Assessments.RequestBody)
    (b4 : Except String Assessment.RequestBody) :
    ((Sessions.POST p b1).queries = [] ∧ (Sessions.POST p b1).db = p.db ∧
      400 ≤ (Sessions.POST p b1).response.status) ∧
    ((Sessions.GET p url).queries = [] ∧ (Sessions.GET p url).db = p.db ∧
      400 ≤ (Sessions.GET p url).response.status) ∧
    ((Session.PATCH p sessionId b2).queries = [] ∧ (Session.PATCH p sessionId b2).db = p.db ∧
      400 ≤ (Session.PATCH p sessionId b2).response.status) ∧
    ((Assessments.POST p b3).queries = [] ∧ (Assessments.POST p b3).db = p.db ∧
      400 ≤ (Assessments.POST p b3).response.status) ∧
    ((Assessments.GET p url).queries = [] ∧ (Assessments.GET p url).db = p.db ∧
      400 ≤ (Assessments.GET p url).response.status) ∧
    ((Assessment.PATCH p assessmentId b4).queries = [] ∧
      (Assessment.PATCH p assessmentId b4).db = p.db ∧
      400 ≤ (Assessment.PATCH p assessmentId b4).response.status) ∧
    ((Teachers.GET p).queries = [] ∧ (Teachers.GET p).db = p.db ∧
      400 ≤ (Teachers.GET p).response.status) := by
  have hadmin : isAdminUser p = false := by simp [isAdminUser, h]
  refine ⟨?_, ?_, ?_, ?_, ?_, ?_, ?_⟩
  · simp [Sessions.POST, h, Platform.reply]
  · simp [Sessions.GET, h, Platform.reply]
  · by_cases hid : sessionId = ""
    · simp [Session.PATCH, hid, Platform.reply]
    · cases b2 with
      | error message => simp [Session.PATCH, hid, Platform.reply]
      | ok b =>
        cases hs : truthy b.status <;> simp [Session.PATCH, hid, hs, h, Platform.reply]
  · simp [Assessments.POST, h, Platform.reply]
  · simp [Assessments.GET, hadmin, Platform.reply]
  · by_cases hid : assessmentId = "" <;>
      simp [Assessment.PATCH, hid, hadmin, Platform.reply]
  · simp [Teachers.GET, h, Platform.reply]

/-- C22, an instance: the seven handlers on a platform without a user. -/
theorem C22_unauthenticated_request_touches_no_table_witness :
    (Session.PATCH (scenarioPlatform none []) "s1" (.ok { status := some "confirmed" })).queries
      = [] ∧
    (Assessment.PATCH (scenarioPlatform none []) "a1" (.ok { status := some "approved" })).db
      = scenarioDb ∧
    400 ≤ (Teachers.GET (scenarioPlatform none [])).response.status :=
  have h := C22_unauthenticated_request_touches_no_table (scenarioPlatform none []) (by decide)
    "s1" "a1" "http://localhost/api/sessions?userId=u1&role=learner"
    (.ok { expertId := some "t1", startTime := some "2025-05-02T09:00:00.000Z",
           learnerId := none })
    (.ok { status := some "confirmed" })
    (.ok { language := some "Spanish", quizData := some "answers" })
    (.ok { status := some "approved" })
  ⟨h.2.2.1.1, h.2.2.2.2.2.1.2.1, h.2.2.2.2.2.2.2.2⟩


/-! ## Reviewing an assessment -/

theorem single_map {α β : Type} (f : α → β) (l : List α) :
    single (l.map f) = (single l).map f := by
  match l with
  | [] => rfl
  | [_] => rfl
  | _ :: _ :: _ => rfl

theorem Assessment.filter_review (rows : List AssessmentRow) (id status : String) (time : Nat) :
    (Assessment.review rows id status time).filter (fun row => row.id = id) =
      (rows.filter (fun row => row.id = id)).map
        (fun row => { row with status := status, reviewed_at := some time }) := by
  induction rows with
  | nil => rfl
  | cons row rows ih =>
    simp only [Assessment.review, List.map_cons] at ih ⊢
    by_cases h : row.id = id
    · simp [h, List.filter_cons, ih]
    · simp [h, List.filter_cons, ih]

/-- The lookup of an assessment after `review`. -/
theorem Assessment.assessment_review (db : Database) (id status : String) (time : Nat) :
    Database.assessment
        { db with teacher_assessments := Assessment.review db.teacher_assessments id status time }
        id =
      (db.assessment id).map
        (fun row => { row with status := status, reviewed_at := some time }) := by
  simp only [Database.assessment, Assessment.filter_review, single_map]

/-- After `promote` every profile of the user has the role `teacher`. -/
theorem Assessment.promote_role (rows : List ProfileRow) (id : String) (row : ProfileRow)
    (h : row ∈ Assessment.promote rows id) (hid : row.id = id) : row.role = "teacher" := by
  simp only [Assessment.promote, List.mem_map] at h
  obtain ⟨r, _, hr⟩ := h
  by_cases hrid : r.id = id
  · simp [hrid] at hr
    rw [← hr]
  · simp [hrid] at hr
    rw [hr] at hrid
    exact absurd hid hrid

/-- The new status of a body that passes the check of `PATCH`. -/
theorem Assessment.truthy_of_valid (status : Option String)
    (h : ¬ (status ≠ some "approved" ∧ status ≠ some "rejected")) :
    ∃ s, truthy status = some s ∧ status = some s ∧ (s = "approved" ∨ s = "rejected") := by
  rcases status with _ | s
  · simp at h
  · by_cases h1 : s = "approved"
    · subst h1
      exact ⟨_, by decide, rfl, Or.inl rfl⟩
    · by_cases h2 : s = "rejected"
      · subst h2
        exact ⟨_, by decide, rfl, Or.inr rfl⟩
      · simp [h1, h2] at h

/-- A refused review: nothing is written, and the status code is the one of
the table when the lookup of the assessment is answered. -/
theorem Assessment.review_refused (p : Platform) (assessmentId : String)
    (b : Assessment.RequestBody) (code : Nat) (hid : assessmentId ≠ "")
    (h : Assessment.reviewTable p assessmentId b.status = some code) :
    (Assessment.PATCH p assessmentId (.ok b)).db = p.db ∧
    (∀ q ∈ (Assessment.PATCH p assessmentId (.ok b)).queries, q.isWrite = false) ∧
    (p.failure (selectEq .teacher_assessments "id" assessmentId) = none →
      (Assessment.PATCH p assessmentId (.ok b)).response.status = code) := by
  unfold Assessment.reviewTable at h
  by_cases hadmin : isAdminUser p = true
  · simp only [hadmin, Bool.not_true, Bool.false_eq_true, if_false] at h
    by_cases hvalid : b.status ≠ some "approved" ∧ b.status ≠ some "rejected"
    · rw [if_pos hvalid] at h
      cases h
      cases hs : truthy b.status with
      | none => simp [Assessment.PATCH, hid, hadmin, hs, Platform.reply]
      | some s =>
        have hb : b.status = some s := by
          rcases hb : b.status with _ | t
          · simp [hb, truthy] at hs
          · simp only [hb, truthy] at hs
            split at hs
            · cases hs
            · cases hs
              rfl
        rw [hb] at hvalid
        have hv : s ≠ "approved" ∧ s ≠ "rejected" := by simpa using hvalid
        simp [Assessment.PATCH, hid, hadmin, hs, hv, Platform.reply]
    · rw [if_neg hvalid] at h
      obtain ⟨s, hs, _, hs2⟩ := Assessment.truthy_of_valid b.status hvalid
      have hv : ¬ (s ≠ "approved" ∧ s ≠ "rejected") := by
        rcases hs2 with h1 | h1 <;> simp [h1]
      cases hf : p.failure (selectEq .teacher_assessments "id" assessmentId) with
      | some e => simp [Assessment.PATCH, hid, hadmin, hs, hv, hf, Platform.reply]
      | none =>
        cases ha : p.db.assessment assessmentId with
        | none =>
          simp only [ha] at h
          cases h
          simp [Assessment.PATCH, hid, hadmin, hs, hv, hf, ha, Platform.reply]
        | some a =>
          simp only [ha] at h
          by_cases hp : a.status = "pending"
          · simp [hp] at h
          · simp only [ne_eq, hp, not_false_eq_true, if_true] at h
            cases h
            simp [Assessment.PATCH, hid, hadmin, hs, hv, hf, ha, hp, Platform.reply]
  · have hadmin2 : isAdminUser p = false := by simpa using hadmin
    simp only [hadmin2, Bool.not_false, if_true] at h
    cases h
    simp [Assessment.PATCH, hid, hadmin2, Platform.reply]

/-- A review that writes, or issues a writing query, is one the table lets
through. -/
theorem Assessment.review_writes_allowed (p : Platform) (assessmentId : String)
    (b : Assessment.RequestBody) (hid : assessmentId ≠ "")
    (h : (Assessment.PATCH p assessmentId (.ok b)).db ≠ p.db ∨
      ∃ q ∈ (Assessment.PATCH p assessmentId (.ok b)).queries, q.isWrite = true) :
    Assessment.reviewTable p assessmentId b.status = none := by
  cases ht : Assessment.reviewTable p assessmentId b.status with
  | none => rfl
  | some code =>
    obtain ⟨hdb, hq, _⟩ := Assessment.review_refused p assessmentId b code hid ht
    rcases h with h | ⟨q, hmem, hw⟩
    · exact absurd hdb h
    · rw [hq q hmem] at hw
      cases hw

/-- C23, the claim fails as stated: the admin sends a body that does not
parse, so there is no new status and the table of the claim gives 400; the
response is 500. -/
theorem C23_admin_with_unparsed_body_gets_500 :
    isAdminUser (scenarioPlatform (some admin) []) = true ∧
    Assessment.reviewTable (scenarioPlatform (some admin) []) "a1"
      (Assessment.newStatus (.error "Unexpected end of JSON input")) = some 400 ∧
    (Assessment.PATCH (scenarioPlatform (some admin) []) "a1"
      (.error "Unexpected end of JSON input")).response.status = 500 := by
  decide

/-- C23, as amended: for every PATCH request to an assessment whose body
parses, the tables change (or a writing query is issued) only when the caller
is the admin, the new status is `approved` or `rejected`, the assessment
exists and is `pending`; otherwise nothing is written and, the lookup of the
assessment being answered, the response is 403, 400, 404 or 409 respectively,
checked in that order.  A body that does not parse is answered 500 to the
admin and 403 to anyone else, and nothing is written. -/
theorem C23_review_is_written_only_through_the_table (p : Platform) (assessmentId : String)
    (hid : assessmentId ≠ "") :
    (∀ b : Assessment.RequestBody,
      (((Assessment.PATCH p assessmentId (.ok b)).db ≠ p.db ∨
          ∃ q ∈ (Assessment.PATCH p assessmentId (.ok b)).queries, q.isWrite = true) →
        Assessment.reviewTable p assessmentId b.status = none) ∧
      (∀ code, Assessment.reviewTable p assessmentId b.status = some code →
        (Assessment.PATCH p assessmentId (.ok b)).db = p.db ∧
        (∀ q ∈ (Assessment.PATCH p assessmentId (.ok b)).queries, q.isWrite = false) ∧
        (p.failure (selectEq .teacher_assessments "id" assessmentId) = none →
          (Assessment.PATCH p assessmentId (.ok b)).response.status = code))) ∧
    (∀ message : String,
      (Assessment.PATCH p assessmentId (.error message)).db = p.db ∧
      (Assessment.PATCH p assessmentId (.error message)).queries = [] ∧
      (Assessment.PATCH p assessmentId (.error message)).response.status =
        if isAdminUser p then 500 else 403) := by
  refine ⟨fun b => ⟨Assessment.review_writes_allowed p assessmentId b hid,
    fun code h => Assessment.review_refused p assessmentId b code hid h⟩, ?_⟩
  intro message
  by_cases hadmin : isAdminUser p = true
  · simp [Assessment.PATCH, hid, hadmin, Platform.reply]
  · have hadmin2 : isAdminUser p = false := by simpa using hadmin
    simp [Assessment.PATCH, hid, hadmin2, Platform.reply]

/-- C23, an instance: the admin reviews assessment `a1` with the status
`done`. -/
theorem C23_review_is_written_only_through_the_table_witness :
    (Assessment.PATCH (scenarioPlatform (some admin) []) "a1"
      (.ok { status := some "done" })).db = scenarioDb ∧
    (Assessment.PATCH (scenarioPlatform (some admin) []) "a1"
      (.ok { status := some "done" })).response.status = 400 :=
  have h := ((C23_review_is_written_only_through_the_table (scenarioPlatform (some admin) [])
    "a1" (by decide)).1 { status := some "done" }).2 400 (by decide)
  ⟨h.1, h.2.2 (by decide)⟩


/-! ## The role of the reviewed user -/

/-- C24: for every successful assessment review (a response with status 200)
the new status is `approved` or `rejected`; when it is `approved` the role of
every profile of the reviewed user is set to `teacher` by an update of
`profiles`, and when it is `rejected` no query is issued against `profiles`
and the profiles stay as they are. -/
theorem C24_role_is_set_exactly_on_approval (p : Platform) (assessmentId : String)
    (body : Except String Assessment.RequestBody)
    (h : (Assessment.PATCH p assessmentId body).response.status = 200) :
    ∃ newStatus assessment,
      Assessment.newStatus body = some newStatus ∧
      p.db.assessment assessmentId = some assessment ∧
      (newStatus = "approved" ∨ newStatus = "rejected") ∧
      (newStatus = "approved" →
        updateEq .profiles "id" assessment.user_id ∈
          (Assessment.PATCH p assessmentId body).queries ∧
        (Assessment.PATCH p assessmentId body).db.profiles =
          Assessment.promote p.db.profiles assessment.user_id ∧
        ∀ row ∈ (Assessment.PATCH p assessmentId body).db.profiles,
          row.id = assessment.user_id → row.role = "teacher") ∧
      (newStatus = "rejected" →
        (∀ q ∈ (Assessment.PATCH p assessmentId body).queries, q.table ≠ .profiles) ∧
        (Assessment.PATCH p assessmentId body).db.profiles = p.db.profiles) := by
  by_cases hid : assessmentId = ""
  · simp [Assessment.PATCH, hid, Platform.reply] at h
  by_cases hadmin : isAdminUser p = true
  swap
  · have hadmin2 : isAdminUser p = false := by simpa using hadmin
    simp [Assessment.PATCH, hid, hadmin2, Platform.reply] at h
  cases body with
  | error message => simp [Assessment.PATCH, hid, hadmin, Platform.reply] at h
  | ok b =>
    cases hs : truthy b.status with
    | none => simp [Assessment.PATCH, hid, hadmin, hs, Platform.reply] at h
    | some s =>
      have hb : b.status = some s := by
        rcases hb : b.status with _ | t
        · simp [hb, truthy] at hs
        · simp only [hb, truthy] at hs
          split at hs
          · cases hs
          · cases hs
            rfl
      by_cases hv : s ≠ "approved" ∧ s ≠ "rejected"
      · simp [Assessment.PATCH, hid, hadmin, hs, hv, Platform.reply] at h
      cases hf : p.failure (selectEq .teacher_assessments "id" assessmentId) with
      | some e => simp [Assessment.PATCH, hid, hadmin, hs, hv, hf, Platform.reply] at h
      | none =>
        cases ha : p.db.assessment assessmentId with
        | none => simp [Assessment.PATCH, hid, hadmin, hs, hv, hf, ha, Platform.reply] at h
        | some a =>
          by_cases hp : a.status = "pending"
          swap
          · simp [Assessment.PATCH, hid, hadmin, hs, hv, hf, ha, hp, Platform.reply] at h
          cases hu : p.failure (updateEq .teacher_assessments "id" assessmentId) with
          | some e =>
            simp [Assessment.PATCH, hid, hadmin, hs, hv, hf, ha, hp, hu, Platform.reply] at h
          | none =>
            have hs2 : s = "approved" ∨ s = "rejected" := by
              by_cases h1 : s = "approved"
              · exact Or.inl h1
              · by_cases h2 : s = "rejected"
                · exact Or.inr h2
                · exact absurd ⟨h1, h2⟩ hv
            refine ⟨s, a, hb, rfl, hs2, ?_, ?_⟩
            · intro happ
              subst happ
              cases hr : p.failure (updateEq .profiles "id" a.user_id) with
              | some e =>
                simp [Assessment.PATCH, hid, hadmin, hs, hf, ha, hp, hu, hr,
                  Platform.reply] at h
              | none =>
                have hdb : (Assessment.PATCH p assessmentId (.ok b)).db.profiles =
                    Assessment.promote p.db.profiles a.user_id := by
                  simp [Assessment.PATCH, hid, hadmin, hs, hf, ha, hp, hu, hr, Platform.reply]
                refine ⟨?_, hdb, ?_⟩
                · simp [Assessment.PATCH, hid, hadmin, hs, hf, ha, hp, hu, hr, Platform.reply]
                · intro row hrow hrid
                  rw [hdb] at hrow
                  exact Assessment.promote_role _ _ row hrow hrid
            · intro hrej
              subst hrej
              simp only [selectEq, updateEq] at hf hu
              simp [Assessment.PATCH, hid, hadmin, hs, hf, ha, hp, hu, Platform.reply,
                selectEq, updateEq]

/-- C24, an instance: the admin approves the pending assessment `a1` of
Lea. -/
theorem C24_role_is_set_exactly_on_approval_witness :
    ∃ newStatus assessment,
      Assessment.newStatus (.ok { status := some "approved" }) = some newStatus ∧
      (scenarioPlatform (some admin) []).db.assessment "a1" = some assessment ∧
      (newStatus = "approved" ∨ newStatus = "rejected") ∧
      (newStatus = "approved" →
        updateEq .profiles "id" assessment.user_id ∈
          (Assessment.PATCH (scenarioPlatform (some admin) []) "a1"
            (.ok { status := some "approved" })).queries ∧
        (Assessment.PATCH (scenarioPlatform (some admin) []) "a1"
            (.ok { status := some "approved" })).db.profiles =
          Assessment.promote (scenarioPlatform (some admin) []).db.profiles
            assessment.user_id ∧
        ∀ row ∈ (Assessment.PATCH (scenarioPlatform (some admin) []) "a1"
            (.ok { status := some "approved" })).db.profiles,
          row.id = assessment.user_id → row.role = "teacher") ∧
      (newStatus = "rejected" →
        (∀ q ∈ (Assessment.PATCH (scenarioPlatform (some admin) []) "a1"
            (.ok { status := some "approved" })).queries, q.table ≠ .profiles) ∧
        (Assessment.PATCH (scenarioPlatform (some admin) []) "a1"
            (.ok { status := some "approved" })).db.profiles =
          (scenarioPlatform (some admin) []).db.profiles) :=
  C24_role_is_set_exactly_on_approval (scenarioPlatform (some admin) []) "a1"
    (.ok { status := some "approved" }) (by decide)

/-- C25: when the admin approves a pending assessment, the update of the
assessment succeeds and the update of the profile is rejected, the response
is 500 with the warning body, the assessment is `approved` in the table, and
the profiles are as they were. -/
theorem C25_failed_role_update_leaves_assessment_approved (p : Platform)
    (assessmentId : String) (b : Assessment.RequestBody) (assessment : AssessmentRow)
    (e : PostgrestError)
    (hid : assessmentId ≠ "") (hadmin : isAdminUser p = true)
    (hstatus : b.status = some "approved")
    (hfound : p.db.assessment assessmentId = some assessment)
    (hpending : assessment.status = "pending")
    (hfetch : p.failure (selectEq .teacher_assessments "id" assessmentId) = none)
    (hupdate : p.failure (updateEq .teacher_assessments "id" assessmentId) = none)
    (hrole : p.failure (updateEq .profiles "id" assessment.user_id) = some e) :
    (Assessment.PATCH p assessmentId (.ok b)).response =
      { status := 500,
        body := .warning "Assessment status updated, but failed to update user role."
          e.message } ∧
    (Assessment.PATCH p assessmentId (.ok b)).db.assessment assessmentId =
      some { assessment with status := "approved", reviewed_at := some p.now } ∧
    (Assessment.PATCH p assessmentId (.ok b)).db.profiles = p.db.profiles := by
  have hs : truthy b.status = some "approved" := by rw [hstatus]; decide
  have hdb : (Assessment.PATCH p assessmentId (.ok b)).db =
      { p.db with
        teacher_assessments :=
          Assessment.review p.db.teacher_assessments assessmentId "approved" p.now } := by
    simp [Assessment.PATCH, hid, hadmin, hs, hfound, hpending, hfetch, hupdate, hrole]
  refine ⟨?_, ?_, ?_⟩
  · simp [Assessment.PATCH, hid, hadmin, hs, hfound, hpending, hfetch, hupdate, hrole]
  · rw [hdb, Assessment.assessment_review, hfound]
    rfl
  · rw [hdb]

/-- C25, an instance: the admin approves `a1` while the backend rejects the
update of the profile of Lea. -/
theorem C25_failed_role_update_leaves_assessment_approved_witness :
    (Assessment.PATCH (scenarioPlatform (some admin) [updateEq .profiles "id" "u1"]) "a1"
      (.ok { status := some "approved" })).response =
      { status := 500,
        body := .warning "Assessment status updated, but failed to update user role."
          "internal error" } ∧
    (Assessment.PATCH (scenarioPlatform (some admin) [updateEq .profiles "id" "u1"]) "a1"
      (.ok { status := some "approved" })).db.assessment "a1" =
      some { id := "a1", user_id := "u1", language := "Spanish", quiz_data := "answers",
             status := "approved", submitted_at := 1, reviewed_at := some 100 } ∧
    (Assessment.PATCH (scenarioPlatform (some admin) [updateEq .profiles "id" "u1"]) "a1"
      (.ok { status := some "approved" })).db.profiles = scenarioDb.profiles :=
  C25_failed_role_update_leaves_assessment_approved
    (scenarioPlatform (some admin) [updateEq .profiles "id" "u1"]) "a1"
    { status := some "approved" }
    { id := "a1", user_id := "u1", language := "Spanish", quiz_data := "answers",
      status := "pending", submitted_at := 1, reviewed_at := none }
    { code := "XX000", message := "internal error" }
    (by decide) (by decide) rfl (by decide) rfl (by decide) (by decide) (by decide)


/-! ## Creating and listing sessions -/

/-- C26, the claim fails as stated: Lea is authenticated and posts a body
that does not parse, so `expertId` and `startTime` are missing; the response
is 500, not 400. -/
theorem C26_post_with_unparsed_body_gets_500 :
    (scenarioPlatform (some lea) []).authenticated = some lea ∧
    (Sessions.POST (scenarioPlatform (some lea) [])
      (.error "Unexpected end of JSON input")).response.status = 500 := by
  decide

/-- C26, as amended: for every authenticated POST to `/api/sessions` whose
body parses, with `expertId` and `startTime` present the table is left as it
is or gets exactly one new row, whose `learner_id` is the id of the
authenticated user and whose `teacher_id` is `expertId`, and it gets that row
with status 201 when the start time is a date and the backend accepts the
insert; the outcome does not depend on the `learnerId` of the body; when
`expertId` or `startTime` is missing the response is 400 and nothing is
inserted.  A body that does not parse is answered 500 and nothing is
inserted. -/
theorem C26_learner_is_the_authenticated_user (p : Platform) (user : User)
    (hauth : p.authenticated = some user) :
    (∀ b : Sessions.RequestBody,
      (∀ expertId startTime, truthy b.expertId = some expertId →
        truthy b.startTime = some startTime →
        ((Sessions.POST p (.ok b)).db = p.db ∨
          ∃ row, (Sessions.POST p (.ok b)).db =
              { p.db with scheduled_sessions := p.db.scheduled_sessions ++ [row] } ∧
            row.learner_id = user.id ∧ row.teacher_id = expertId) ∧
        (∀ scheduled, p.toISOString startTime = some scheduled →
          p.failure (insertInto .scheduled_sessions) = none →
          (Sessions.POST p (.ok b)).response.status = 201 ∧
          (Sessions.POST p (.ok b)).db.scheduled_sessions =
            p.db.scheduled_sessions ++
              [{ id := p.newId, learner_id := user.id, teacher_id := expertId,
                 scheduled_time := scheduled, status := "requested" }])) ∧
      (∀ learnerId, Sessions.POST p (.ok { b with learnerId := learnerId }) =
        Sessions.POST p (.ok b)) ∧
      (truthy b.expertId = none ∨ truthy b.startTime = none →
        (Sessions.POST p (.ok b)).response.status = 400 ∧
        (Sessions.POST p (.ok b)).db = p.db ∧
        (Sessions.POST p (.ok b)).queries = [])) ∧
    (∀ message : String,
      (Sessions.POST p (.error message)).response.status = 500 ∧
      (Sessions.POST p (.error message)).db = p.db ∧
      (Sessions.POST p (.error message)).queries = []) := by
  refine ⟨fun b => ⟨?_, ?_, ?_⟩, ?_⟩
  · intro expertId startTime he hs
    refine ⟨?_, ?_⟩
    · cases ht : p.toISOString startTime with
      | none => exact Or.inl (by simp [Sessions.POST, hauth, he, hs, ht, Platform.reply])
      | some scheduled =>
        cases hf : p.failure (insertInto .scheduled_sessions) with
        | some e => exact Or.inl (by simp [Sessions.POST, hauth, he, hs, ht, hf, Platform.reply])
        | none =>
          refine Or.inr ⟨SessionRow.mk p.newId user.id expertId scheduled "requested",
            ?_, rfl, rfl⟩
          simp [Sessions.POST, hauth, he, hs, ht, hf]
    · intro scheduled ht hf
      simp [Sessions.POST, hauth, he, hs, ht, hf]
  · intro learnerId
    simp [Sessions.POST]
  · intro h
    cases he : truthy b.expertId with
    | none => simp [Sessions.POST, hauth, he, Platform.reply]
    | some expertId =>
      have hs : truthy b.startTime = none := by
        rcases h with h | h
        · rw [he] at h
          cases h
        · exact h
      simp [Sessions.POST, hauth, he, hs, Platform.reply]
  · intro message
    simp [Sessions.POST, hauth, Platform.reply]

/-- C26, an instance: Lea asks for a session with Tom and names Tom as the
learner in the body. -/
theorem C26_learner_is_the_authenticated_user_witness :
    (Sessions.POST (scenarioPlatform (some lea) [])
      (.ok { expertId := some "t1", startTime := some "2025-05-02T09:00:00.000Z",
             learnerId := some "t1" })).response.status = 201 ∧
    (Sessions.POST (scenarioPlatform (some lea) [])
      (.ok { expertId := some "t1", startTime := some "2025-05-02T09:00:00.000Z",
             learnerId := some "t1" })).db.scheduled_sessions =
      scenarioDb.scheduled_sessions ++
        [{ id := "s2", learner_id := "u1", teacher_id := "t1",
           scheduled_time := "2025-05-02T09:00:00.000Z", status := "requested" }] :=
  (((C26_learner_is_the_authenticated_user (scenarioPlatform (some lea) []) lea
    (by decide)).1
      { expertId := some "t1", startTime := some "2025-05-02T09:00:00.000Z",
        learnerId := some "t1" }).1 "t1" "2025-05-02T09:00:00.000Z" (by decide)
      (by decide)).2 "2025-05-02T09:00:00.000Z" (by decide) (by decide)

/-- C27: for every authenticated GET to `/api/sessions`, with the role
`learner` the query selects on `learner_id` equal to the id of the
authenticated user, with the role `teacher` on `teacher_id`, and the rows
returned are the rows of the table that pass this filter; two requests with
the same `role` have the same outcome whatever their other parameters; every
request whose `role` is not one of the two is answered 400 and issues no
query. -/
theorem C27_sessions_are_listed_for_the_authenticated_user (p : Platform) (user : User)
    (hauth : p.authenticated = some user) :
    (∀ url searchParams, url ≠ "" → p.searchParams url = some searchParams →
      (searchParams.lookup "role" = some "learner" →
        (Sessions.GET p url).queries = [selectEq .scheduled_sessions "learner_id" user.id] ∧
        (Sessions.GET p url).db = p.db ∧
        (p.failure (selectEq .scheduled_sessions "learner_id" user.id) = none →
          (Sessions.GET p url).response =
            { status := 200,
              body := .sessions
                (p.db.scheduled_sessions.filter (fun row => row.learner_id = user.id)) })) ∧
      (searchParams.lookup "role" = some "teacher" →
        (Sessions.GET p url).queries = [selectEq .scheduled_sessions "teacher_id" user.id] ∧
        (Sessions.GET p url).db = p.db ∧
        (p.failure (selectEq .scheduled_sessions "teacher_id" user.id) = none →
          (Sessions.GET p url).response =
            { status := 200,
              body := .sessions
                (p.db.scheduled_sessions.filter (fun row => row.teacher_id = user.id)) }))) ∧
    (∀ url1 url2 searchParams1 searchParams2, url1 ≠ "" → url2 ≠ "" →
      p.searchParams url1 = some searchParams1 → p.searchParams url2 = some searchParams2 →
      searchParams1.lookup "role" = searchParams2.lookup "role" →
      Sessions.GET p url1 = Sessions.GET p url2) ∧
    (∀ url,
      (¬ ∃ searchParams, url ≠ "" ∧ p.searchParams url = some searchParams ∧
        (searchParams.lookup "role" = some "learner" ∨
          searchParams.lookup "role" = some "teacher")) →
      (Sessions.GET p url).response.status = 400 ∧
      (Sessions.GET p url).queries = [] ∧
      (Sessions.GET p url).db = p.db) := by
  refine ⟨?_, ?_, ?_⟩
  · intro url searchParams hurl hparams
    refine ⟨?_, ?_⟩
    · intro hrole
      have ht : truthy (searchParams.lookup "role") = some "learner" := by rw [hrole]; decide
      cases hf : p.failure (selectEq .scheduled_sessions "learner_id" user.id) <;>
        simp [Sessions.GET, hauth, hurl, hparams, ht, hf, Sessions.filterColumn,
          Sessions.column, Platform.reply]
    · intro hrole
      have ht : truthy (searchParams.lookup "role") = some "teacher" := by rw [hrole]; decide
      cases hf : p.failure (selectEq .scheduled_sessions "teacher_id" user.id) <;>
        simp [Sessions.GET, hauth, hurl, hparams, ht, hf, Sessions.filterColumn,
          Sessions.column, Platform.reply]
  · intro url1 url2 sp1 sp2 h1 h2 hp1 hp2 hrole
    simp [Sessions.GET, hauth, h1, h2, hp1, hp2, hrole]
  · intro url h
    by_cases hurl : url = ""
    · simp [Sessions.GET, hauth, hurl, Platform.reply]
    cases hparams : p.searchParams url with
    | none => simp [Sessions.GET, hauth, hurl, hparams, Platform.reply]
    | some searchParams =>
      cases ht : truthy (searchParams.lookup "role") with
      | none => simp [Sessions.GET, hauth, hurl, hparams, ht, Platform.reply]
      | some role =>
        have hrole : searchParams.lookup "role" = some role := by
          rcases hl : searchParams.lookup "role" with _ | t
          · simp [hl, truthy] at ht
          · simp only [hl, truthy] at ht
            split at ht
            · cases ht
            · cases ht
              rfl
        have hne : role ≠ "learner" ∧ role ≠ "teacher" := by
          refine ⟨?_, ?_⟩
          · intro hr
            exact h ⟨searchParams, hurl, hparams, Or.inl (by rw [hrole, hr])⟩
          · intro hr
            exact h ⟨searchParams, hurl, hparams, Or.inr (by rw [hrole, hr])⟩
        simp [Sessions.GET, hauth, hurl, hparams, ht, hne, Platform.reply]

/-- C27, an instance: Lea lists her sessions as a learner and puts the id of
Tom into `userId`. -/
theorem C27_sessions_are_listed_for_the_authenticated_user_witness :
    (Sessions.GET (scenarioPlatform (some lea) [])
      "http://localhost/api/sessions?userId=t1&role=learner").queries =
      [selectEq .scheduled_sessions "learner_id" "u1"] ∧
    Sessions.GET (scenarioPlatform (some lea) [])
      "http://localhost/api/sessions?userId=t1&role=learner" =
    Sessions.GET (scenarioPlatform (some lea) [])
      "http://localhost/api/sessions?userId=u1&role=learner" :=
  have h := C27_sessions_are_listed_for_the_authenticated_user
    (scenarioPlatform (some lea) []) lea (by decide)
  ⟨((h.1 "http://localhost/api/sessions?userId=t1&role=learner"
      [("userId", "t1"), ("role", "learner")] (by decide) (by decide)).1 (by decide)).1,
    h.2.1 "http://localhost/api/sessions?userId=t1&role=learner"
      "http://localhost/api/sessions?userId=u1&role=learner"
      [("userId", "t1"), ("role", "learner")] [("userId", "u1"), ("role", "learner")]
      (by decide) (by decide) (by decide) (by decide) (by decide)⟩


/-! ## The middleware -/

/-- C28: the decision of the middleware, row by row.  A path starting with
`/admin` and no user: redirect to `/login` with `redirectedFrom` set to the
path.  A path starting with `/admin` and a user whose email is not the admin
email: redirect to `/dashboard`.  A path starting with `/dashboard`,
`/assessment` or `/call` and no user: redirect to `/login` with
`redirectedFrom` set to the path.  Every other case: the response of
`updateSession` is returned. -/
theorem C28_middleware_decision_table (user : Option User) (nextUrl : NextUrl) :
    (startsWith nextUrl.pathname "/admin" = true → user = none →
      middleware user nextUrl =
        .redirect
          { nextUrl with
            pathname := "/login",
            searchParams :=
              setSearchParam nextUrl.searchParams "redirectedFrom" nextUrl.pathname }) ∧
    (startsWith nextUrl.pathname "/admin" = true →
      ∀ u, user = some u → u.email ≠ ADMIN_EMAIL →
        middleware user nextUrl = .redirect { nextUrl with pathname := "/dashboard" }) ∧
    (startsWith nextUrl.pathname "/dashboard" = true ∨
        startsWith nextUrl.pathname "/assessment" = true ∨
        startsWith nextUrl.pathname "/call" = true → user = none →
      middleware user nextUrl =
        .redirect
          { nextUrl with
            pathname := "/login",
            searchParams :=
              setSearchParam nextUrl.searchParams "redirectedFrom" nextUrl.pathname }) ∧
    (¬ (startsWith nextUrl.pathname "/admin" = true ∧ user = none) →
      ¬ (startsWith nextUrl.pathname "/admin" = true ∧
          ∃ u, user = some u ∧ u.email ≠ ADMIN_EMAIL) →
      ¬ ((startsWith nextUrl.pathname "/dashboard" = true ∨
          startsWith nextUrl.pathname "/assessment" = true ∨
          startsWith nextUrl.pathname "/call" = true) ∧ user = none) →
      middleware user nextUrl = .response) := by
  refine ⟨?_, ?_, ?_, ?_⟩
  · intro hadmin huser
    subst huser
    simp [middleware, hadmin]
  · intro hadmin u huser hemail
    subst huser
    simp [middleware, hadmin, hemail]
  · intro hpath huser
    subst huser
    by_cases hadmin : startsWith nextUrl.pathname "/admin" = true
    · simp [middleware, hadmin]
    · rcases hpath with h | h | h <;> simp [middleware, hadmin, h]
  · intro h1 h2 h3
    by_cases hadmin : startsWith nextUrl.pathname "/admin" = true
    · cases user with
      | none => exact absurd ⟨hadmin, rfl⟩ h1
      | some u =>
        by_cases hemail : u.email = ADMIN_EMAIL
        · simp [middleware, hadmin, hemail]
        · exact absurd ⟨hadmin, u, rfl, hemail⟩ h2
    · cases user with
      | none =>
        have h4 : ¬ (startsWith nextUrl.pathname "/dashboard" = true ∨
            startsWith nextUrl.pathname "/assessment" = true ∨
            startsWith nextUrl.pathname "/call" = true) := fun h => h3 ⟨h, rfl⟩
        simp only [not_or] at h4
        simp [middleware, hadmin, h4.1, h4.2.1, h4.2.2]
      | some u =>
        have hadmin2 : startsWith nextUrl.pathname "/admin" = false := by simpa using hadmin
        simp [middleware, hadmin2]

/-- C28, an instance: a user who is not the admin asks for `/admin/review`,
and nobody asks for `/call/room-1`. -/
theorem C28_middleware_decision_table_witness :
    middleware (some lea) { pathname := "/admin/review", searchParams := [("tab", "open")] } =
      .redirect { pathname := "/dashboard", searchParams := [("tab", "open")] } ∧
    middleware none { pathname := "/call/room-1", searchParams := [] } =
      .redirect
        { pathname := "/login", searchParams := [("redirectedFrom", "/call/room-1")] } :=
  ⟨(C28_middleware_decision_table (some lea)
      { pathname := "/admin/review", searchParams := [("tab", "open")] }).2.1 (by decide) lea
      rfl (by decide),
    (C28_middleware_decision_table none
      { pathname := "/call/room-1", searchParams := [] }).2.2.1 (by decide) rfl⟩

/-! ## The Join Call button -/

/-- C29, the claim fails as stated.  A confirmed session with a room starts at
23:30 and lasts the default hour.  The calendar is opened at 00:10 of the
next day, so that day is the selected date, and the schedule loads without
error.  By the claim the button shows: the status is `confirmed`, a room id
is present and start <= now <= end.  The component lists only the sessions
that start on the selected date, so the session has no entry and no button. -/
theorem C29_session_begun_before_midnight_has_no_button :
    Calendar.specJoinCall 87000000 Calendar.scenarioSession = true ∧
    (Calendar.State.fetched (Calendar.State.initial 87000000) [Calendar.scenarioSession]).sessions
      = [Calendar.format Calendar.scenarioSession] ∧
    Calendar.joinCallButtons Calendar.scenarioDateString 87000000
      (Calendar.State.fetched (Calendar.State.initial 87000000) [Calendar.scenarioSession])
      = [] := by
  decide

/-- C29, as amended.  For every session, current time and state of the
calendar, the calendar shows the Join Call button of the session if and only
if the session is in the schedule, the schedule is neither loading nor in
error, the session starts on the selected date, its status is `confirmed`, a
room id is present, and start <= now <= end, where the end is the start plus
the duration in minutes when a duration is set (one other than 0, as the
source tests it) and the start plus 60 minutes otherwise. -/
theorem C29_join_button_condition (toDateString : Int → String) (now : Int)
    (state : Calendar.State) (session : Calendar.ApiSession) :
    Calendar.format session ∈ Calendar.joinCallButtons toDateString now state ↔
      Calendar.format session ∈ state.sessions ∧
      state.loading = false ∧ state.error = "" ∧
      session.status = "confirmed" ∧
      (∃ room, session.room_id = some room ∧ room ≠ "") ∧
      ∃ start, session.scheduled_time = some start ∧
        toDateString start = toDateString state.date ∧ start ≤ now ∧
        ((∃ duration, session.duration = some duration ∧ duration ≠ 0 ∧
            now ≤ start + duration * 60000) ∨
          ((session.duration = none ∨ session.duration = some 0) ∧
            now ≤ start + 60 * 60000)) := by
  have hbutton : Calendar.joinCallButton now (Calendar.format session) = true ↔
      session.status = "confirmed" ∧
      (∃ room, session.room_id = some room ∧ room ≠ "") ∧
      ∃ start, session.scheduled_time = some start ∧ start ≤ now ∧
        ((∃ duration, session.duration = some duration ∧ duration ≠ 0 ∧
            now ≤ start + duration * 60000) ∨
          ((session.duration = none ∨ session.duration = some 0) ∧
            now ≤ start + 60 * 60000)) := by
    rcases session with ⟨id, scheduled, duration, room, status⟩
    have hroom : (truthy room).isSome = true ↔ ∃ r, room = some r ∧ r ≠ "" := by
      rcases room with _ | r
      · simp [truthy]
      · by_cases hr : r = "" <;> simp [truthy, hr]
    simp only [Calendar.joinCallButton, Calendar.format, Bool.and_eq_true, decide_eq_true_eq,
      hroom]
    rcases scheduled with _ | start
    · rcases duration with _ | d
      · simp [Calendar.isSessionActive]
      · by_cases hd : d = 0 <;> simp [Calendar.isSessionActive, hd]
    · rcases duration with _ | d
      · simp [Calendar.isSessionActive]
        tauto
      · by_cases hd : d = 0
        · subst hd
          simp [Calendar.isSessionActive]
          tauto
        · simp [Calendar.isSessionActive, hd]
          tauto
  have hdate : Calendar.dateString toDateString (Calendar.format session).startTime =
      Calendar.dateString toDateString session.scheduled_time := rfl
  unfold Calendar.joinCallButtons
  by_cases hl : state.loading = true
  · simp [hl]
  have hl2 : state.loading = false := by simpa using hl
  by_cases he : state.error = ""
  swap
  · simp [hl2, he]
  simp only [hl2, he, Bool.false_eq_true, if_false, ne_eq, not_true_eq_false, List.mem_filter,
    Calendar.sessionsForDate, decide_eq_true_eq, hdate, hbutton, true_and]
  constructor
  · rintro ⟨⟨hmem, hd⟩, hstatus, hroom, start, hstart, hle, hend⟩
    refine ⟨hmem, hstatus, hroom, start, hstart, ?_, hle, hend⟩
    rw [hstart] at hd
    exact hd
  · rintro ⟨hmem, hstatus, hroom, start, hstart, hd, hle, hend⟩
    refine ⟨⟨hmem, ?_⟩, hstatus, hroom, start, hstart, hle, hend⟩
    rw [hstart]
    exact hd

/-- C29, an instance: the session of 23:30 at 23:40 of its day, in a calendar
opened at 23:35. -/
theorem C29_join_button_condition_witness :
    Calendar.format Calendar.scenarioSession ∈
      Calendar.joinCallButtons Calendar.scenarioDateString 85200000
        (Calendar.State.fetched (Calendar.State.initial 84900000) [Calendar.scenarioSession]) :=
  (C29_join_button_condition Calendar.scenarioDateString 85200000
    (Calendar.State.fetched (Calendar.State.initial 84900000) [Calendar.scenarioSession])
    Calendar.scenarioSession).mpr
    ⟨by decide, rfl, rfl, rfl, ⟨"room-1", rfl, by decide⟩, 84600000, rfl, by decide, by decide,
      Or.inr ⟨Or.inl rfl, by decide⟩⟩

/-! ## Status transitions of a session -/

theorem Session.filter_setStatus (rows : List SessionRow) (id status : String) :
    (Session.setStatus rows id status).filter (fun row => row.id = id) =
      (rows.filter (fun row => row.id = id)).map (fun row => { row with status := status }) := by
  induction rows with
  | nil => rfl
  | cons row rows ih =>
    simp only [Session.setStatus, List.map_cons] at ih ⊢
    by_cases h : row.id = id
    · simp [h, List.filter_cons, ih]
    · simp [h, List.filter_cons, ih]

/-- The lookup of a session after `setStatus`. -/
theorem Session.session_setStatus (db : Database) (id status : String) :
    Database.session
        { db with scheduled_sessions := Session.setStatus db.scheduled_sessions id status } id =
      (db.session id).map (fun row => { row with status := status }) := by
  simp only [Database.session, Session.filter_setStatus, single_map]

/-- C30: for every non-empty status value and every current status of the
session, a request by the teacher of the session, whose lookup and update the
backend accepts, is answered 200 with the updated row and sets the status of
the session to the supplied value. -/
theorem C30_teacher_sets_any_status (p : Platform) (sessionId status : String)
    (user : User) (row : SessionRow)
    (hid : sessionId ≠ "") (hstatus : status ≠ "")
    (hauth : p.authenticated = some user)
    (hfound : p.db.session sessionId = some row)
    (hteacher : row.teacher_id = user.id)
    (hfetch : p.failure (selectEq .scheduled_sessions "id" sessionId) = none)
    (hupdate : p.failure (updateEq .scheduled_sessions "id" sessionId) = none) :
    (Session.PATCH p sessionId (.ok { status := some status })).response =
      { status := 200, body := .session { row with status := status } } ∧
    (Session.PATCH p sessionId (.ok { status := some status })).db.session sessionId =
      some { row with status := status } := by
  have hdb : (Session.PATCH p sessionId (.ok { status := some status })).db =
      { p.db with
        scheduled_sessions := Session.setStatus p.db.scheduled_sessions sessionId status } := by
    simp [Session.PATCH, hid, truthy, hstatus, hauth, hfound, hteacher, hfetch, hupdate]
  refine ⟨?_, ?_⟩
  · simp [Session.PATCH, hid, truthy, hstatus, hauth, hfound, hteacher, hfetch, hupdate]
  · rw [hdb, Session.session_setStatus, hfound]
    rfl

/-- C30, an instance: Tom sets the confirmed session `s1` back to
`requested`, after having confirmed it. -/
theorem C30_teacher_sets_any_status_witness :
    ((Session.PATCH
        { scenarioPlatform (some tom) [] with
          db := (Session.PATCH (scenarioPlatform (some tom) []) "s1"
            (.ok { status := some "confirmed" })).db }
        "s1" (.ok { status := some "requested" })).db.session "s1").map
      (fun row => row.status) = some "requested" :=
  have h := C30_teacher_sets_any_status
    { scenarioPlatform (some tom) [] with
      db := (Session.PATCH (scenarioPlatform (some tom) []) "s1"
        (.ok { status := some "confirmed" })).db }
    "s1" "requested" tom
    { id := "s1", learner_id := "u1", teacher_id := "t1",
      scheduled_time := "2025-05-01T10:00:00.000Z", status := "confirmed" }
    (by decide) (by decide) (by decide) (by decide) (by decide) (by decide) (by decide)
  by rw [h.2]; rfl

end Api
